import Mathlib

/-!
A verification development for the discovery and dynamic-client-registration
subsystems of an OpenID Connect 1.0 Relying Party library.  The Rust source
is shallowly embedded: pure Rust functions become Lean functions, the custom
serde serializer and deserializer for `Registration10ClientMetadata` become
functions between the record and a list of top-level JSON object entries, and
the HTTP-driven pipelines (`get_provider_metadata`, `register`) become
functions parameterised by the transport and the generic JSON codecs, exactly
as the Rust functions are parameterised by `HttpRequest::request` and the
`DeserializeOwned` instances.  Rust `HashMap`s keyed by optional language tags
are modelled as association lists; `u32`/`u64` become `Nat` with explicit
wrapping where the source casts; `DateTime<Utc>` is modelled by its Unix
timestamp in seconds.  Definitions whose Rust source lies outside the visible
fragment (the `macros.rs` field macros, `http.rs` constants, `types.rs`
helpers) are modelled from the specification and say so in their doc comment.
-/

/-! ## A model of JSON values and the component codecs -/

/-- JSON values, as produced and consumed by the serde codec. -/
inductive Json where
  | str : String → Json
  | num : Nat → Json
  | bool : Bool → Json
  | arr : List Json → Json
  | obj : List (String × Json) → Json

/-!  ## Newtype vocabulary.
The Rust source wraps every protocol string in a newtype and abstracts every
catalogue-like value (algorithms, response types, claim names ...) behind a
capability trait whose values serialize to and from a JSON string (spec 4.2).
The definitions here instantiate each such type with its wire representation,
an arbitrary string (the "open string" profile of spec 4.2). -/

abbrev LanguageTag := String
abbrev ClientName := String
abbrev LogoUrl := String
abbrev ClientUrl := String
abbrev PolicyUrl := String
abbrev ToSUrl := String
abbrev RedirectUrl := String
abbrev GrantType := String
abbrev ApplicationType := String
abbrev ContactEmail := String
abbrev JsonWebKeySetUrl := String
abbrev JsonWebKey := String
abbrev SectorIdentifierUrl := String
abbrev SubjectIdentifierType := String
abbrev JwsSigningAlgorithm := String
abbrev JweKeyManagementAlgorithm := String
abbrev JweContentEncryptionAlgorithm := String
abbrev ClientAuthMethod := String
abbrev AuthenticationContextClass := String
abbrev InitiateLoginUrl := String
abbrev RequestUrl := String
abbrev AccessToken := String
abbrev RegistrationUrl := String
abbrev IssuerUrl := String
abbrev Url := String
abbrev ClientId := String
abbrev ClientSecret := String
abbrev RegistrationAccessToken := String
abbrev ClientConfigUrl := String
abbrev AuthUrl := String
abbrev TokenUrl := String
abbrev UserInfoUrl := String
abbrev Scope := String
abbrev ServiceDocUrl := String
abbrev OpPolicyUrl := String
abbrev OpTosUrl := String
abbrev ResponseMode := String
abbrev ClaimName := String
abbrev ClaimType := String
abbrev AuthDisplay := String

/-- A set of response types, as carried by one JSON string on the wire.
Modelled from the spec: `types.rs` is outside the visible fragment; per
spec 4.2 the catalogue value serializes to and from a JSON string. -/
abbrev ResponseTypes := String

/-- `std::time::Duration`, wire-encoded as integer seconds (spec 3:
"`default_max_age` (a duration wire-encoded as integer seconds)"). -/
abbrev Duration := Nat

/-- Transport-level error (`curl::Error`), opaque to this library. -/
abbrev CurlError := String

/-- JSON-codec error (`serde_json::Error`), opaque to this library. -/
abbrev JsonError := String

/-- URL-parse error (`url::ParseError`), opaque to this library. -/
abbrev UrlParseError := String

/-- A JSON Web Key Set: `{"keys": [...]}` (RFC 7517); each key is modelled by
its serialized value. -/
structure JsonWebKeySet where
  keys : List JsonWebKey
  deriving DecidableEq

def decStr : Json → Option String
  | Json.str s => some s
  | _ => none

def decNat : Json → Option Nat
  | Json.num n => some n
  | _ => none

def decBool : Json → Option Bool
  | Json.bool b => some b
  | _ => none

def encStrList (l : List String) : Json := Json.arr (l.map Json.str)

def decStrs : List Json → Option (List String)
  | [] => some []
  | j :: js =>
    match decStr j, decStrs js with
    | some s, some ss => some (s :: ss)
    | _, _ => none

def decStrList : Json → Option (List String)
  | Json.arr js => decStrs js
  | _ => none

def encJwks (s : JsonWebKeySet) : Json := Json.obj [("keys", Json.arr (s.keys.map Json.str))]

def decJwks : Json → Option JsonWebKeySet
  | Json.obj [("keys", Json.arr js)] => (decStrs js).map JsonWebKeySet.mk
  | _ => none

/-! ## Language-tagged keys -/

/-- Split a character list at the first `#`. -/
def splitCh : List Char → List Char × Option (List Char)
  | [] => ([], none)
  | c :: cs =>
    if c = '#' then ([], some cs)
    else
      let (b, t) := splitCh cs
      (c :: b, t)

/-- Modelled from the spec: `types::helpers::split_language_tag_key` is outside
the visible fragment; per spec 9 the decoder "scans all top-level keys, splits
on `#`, and groups", so a key `name#tag` splits into the base name and the
language tag, and a key without `#` has no tag. -/
def split_language_tag_key (s : String) : String × Option String :=
  let (b, t) := splitCh s.data
  (⟨b⟩, t.map (⟨·⟩))

/-- The wire key for one entry of a language-tagged map: `name` for the
untagged variant and `name#tag` for a tagged one (spec 3). -/
def mkLangKey (nm : String) : Option LanguageTag → String
  | none => nm
  | some t => nm ++ "#" ++ t

/-- Insert into an association list keyed by optional language tags,
replacing an existing binding of the same key (the `HashMap::insert` of the
Rust deserializer). -/
def mapInsert (l : List (Option LanguageTag × String)) (k : Option LanguageTag) (v : String) :
    List (Option LanguageTag × String) :=
  if l.any (fun p => p.1 = k) then l.map (fun p => if p.1 = k then (k, v) else p)
  else l ++ [(k, v)]

/-! ## `Registration10ClientMetadata` (registration.rs lines 46-96) -/

/-- The client metadata record of OpenID Connect Dynamic Client Registration
1.0, with the five human-readable fields carried as maps keyed by optional
BCP-47 language tags (`HashMap` modelled as an association list). -/
structure Registration10ClientMetadata where
  redirect_uris : List RedirectUrl
  response_types : Option (List ResponseTypes)
  grant_types : Option (List GrantType)
  application_type : Option ApplicationType
  contacts : Option (List ContactEmail)
  client_name : Option (List (Option LanguageTag × ClientName))
  logo_uri : Option (List (Option LanguageTag × LogoUrl))
  client_uri : Option (List (Option LanguageTag × ClientUrl))
  policy_uri : Option (List (Option LanguageTag × PolicyUrl))
  tos_uri : Option (List (Option LanguageTag × ToSUrl))
  jwks_uri : Option JsonWebKeySetUrl
  jwks : Option JsonWebKeySet
  sector_identifier_uri : Option SectorIdentifierUrl
  subject_type : Option SubjectIdentifierType
  id_token_signed_response_alg : Option JwsSigningAlgorithm
  id_token_encrypted_response_alg : Option JweKeyManagementAlgorithm
  id_token_encrypted_response_enc : Option JweContentEncryptionAlgorithm
  userinfo_signed_response_alg : Option JwsSigningAlgorithm
  userinfo_encrypted_response_alg : Option JweKeyManagementAlgorithm
  userinfo_encrypted_response_enc : Option JweContentEncryptionAlgorithm
  request_object_signing_alg : Option JwsSigningAlgorithm
  request_object_encryption_alg : Option JweKeyManagementAlgorithm
  request_object_encryption_enc : Option JweContentEncryptionAlgorithm
  token_endpoint_auth_method : Option ClientAuthMethod
  token_endpoint_auth_signing_alg : Option JwsSigningAlgorithm
  default_max_age : Option Duration
  require_auth_time : Option Bool
  default_acr_values : Option (List AuthenticationContextClass)
  initiate_login_uri : Option InitiateLoginUrl
  request_uris : Option (List RequestUrl)
  deriving DecidableEq

/-- One always-present entry of the serialized object (`serialize_fields!`
on a required field; the macro itself is in `macros.rs`, outside the visible
fragment, and is modelled from spec 4.5 step 1). -/
def reqBlock (nm : String) (j : Json) : List (String × Json) := [(nm, j)]

/-- The entries contributed by an `Option` field: nothing when absent, one
entry when present (`serialize_fields![Option(field)]`, modelled from spec
4.5 step 1). -/
def optBlock (nm : String) (o : Option Json) : List (String × Json) :=
  match o with
  | none => []
  | some j => [(nm, j)]

/-- The entries contributed by a language-tagged map field: one top-level
entry per map entry, keyed `name` or `name#tag`
(`serialize_fields![LanguageTag(field)]`, modelled from spec 4.5 step 1 and
spec 3). -/
def langBlock (nm : String) (o : Option (List (Option LanguageTag × String))) :
    List (String × Json) :=
  match o with
  | none => []
  | some l => l.map (fun p => (mkLangKey nm p.1, Json.str p.2))

/-- `Registration10ClientMetadata::serialize` (registration.rs lines
250-289): emit the thirty fields in declaration order, expanding each
language-tagged map into suffixed top-level keys. -/
def Registration10ClientMetadata.serialize (self : Registration10ClientMetadata) :
    List (String × Json) :=
  reqBlock "redirect_uris" (encStrList self.redirect_uris)
    ++ optBlock "response_types" (Option.map encStrList self.response_types)
    ++ optBlock "grant_types" (Option.map encStrList self.grant_types)
    ++ optBlock "application_type" (Option.map Json.str self.application_type)
    ++ optBlock "contacts" (Option.map encStrList self.contacts)
    ++ langBlock "client_name" self.client_name
    ++ langBlock "logo_uri" self.logo_uri
    ++ langBlock "client_uri" self.client_uri
    ++ langBlock "policy_uri" self.policy_uri
    ++ langBlock "tos_uri" self.tos_uri
    ++ optBlock "jwks_uri" (Option.map Json.str self.jwks_uri)
    ++ optBlock "jwks" (Option.map encJwks self.jwks)
    ++ optBlock "sector_identifier_uri" (Option.map Json.str self.sector_identifier_uri)
    ++ optBlock "subject_type" (Option.map Json.str self.subject_type)
    ++ optBlock "id_token_signed_response_alg" (Option.map Json.str self.id_token_signed_response_alg)
    ++ optBlock "id_token_encrypted_response_alg" (Option.map Json.str self.id_token_encrypted_response_alg)
    ++ optBlock "id_token_encrypted_response_enc" (Option.map Json.str self.id_token_encrypted_response_enc)
    ++ optBlock "userinfo_signed_response_alg" (Option.map Json.str self.userinfo_signed_response_alg)
    ++ optBlock "userinfo_encrypted_response_alg" (Option.map Json.str self.userinfo_encrypted_response_alg)
    ++ optBlock "userinfo_encrypted_response_enc" (Option.map Json.str self.userinfo_encrypted_response_enc)
    ++ optBlock "request_object_signing_alg" (Option.map Json.str self.request_object_signing_alg)
    ++ optBlock "request_object_encryption_alg" (Option.map Json.str self.request_object_encryption_alg)
    ++ optBlock "request_object_encryption_enc" (Option.map Json.str self.request_object_encryption_enc)
    ++ optBlock "token_endpoint_auth_method" (Option.map Json.str self.token_endpoint_auth_method)
    ++ optBlock "token_endpoint_auth_signing_alg" (Option.map Json.str self.token_endpoint_auth_signing_alg)
    ++ optBlock "default_max_age" (Option.map Json.num self.default_max_age)
    ++ optBlock "require_auth_time" (Option.map Json.bool self.require_auth_time)
    ++ optBlock "default_acr_values" (Option.map encStrList self.default_acr_values)
    ++ optBlock "initiate_login_uri" (Option.map Json.str self.initiate_login_uri)
    ++ optBlock "request_uris" (Option.map encStrList self.request_uris)

/-- The accumulating state of `MetadataVisitor::visit_map` (registration.rs
lines 180-219): every field starts absent. -/
structure MetadataVisitorState where
  redirect_uris : Option (List RedirectUrl)
  response_types : Option (List ResponseTypes)
  grant_types : Option (List GrantType)
  application_type : Option ApplicationType
  contacts : Option (List ContactEmail)
  client_name : Option (List (Option LanguageTag × ClientName))
  logo_uri : Option (List (Option LanguageTag × LogoUrl))
  client_uri : Option (List (Option LanguageTag × ClientUrl))
  policy_uri : Option (List (Option LanguageTag × PolicyUrl))
  tos_uri : Option (List (Option LanguageTag × ToSUrl))
  jwks_uri : Option JsonWebKeySetUrl
  jwks : Option JsonWebKeySet
  sector_identifier_uri : Option SectorIdentifierUrl
  subject_type : Option SubjectIdentifierType
  id_token_signed_response_alg : Option JwsSigningAlgorithm
  id_token_encrypted_response_alg : Option JweKeyManagementAlgorithm
  id_token_encrypted_response_enc : Option JweContentEncryptionAlgorithm
  userinfo_signed_response_alg : Option JwsSigningAlgorithm
  userinfo_encrypted_response_alg : Option JweKeyManagementAlgorithm
  userinfo_encrypted_response_enc : Option JweContentEncryptionAlgorithm
  request_object_signing_alg : Option JwsSigningAlgorithm
  request_object_encryption_alg : Option JweKeyManagementAlgorithm
  request_object_encryption_enc : Option JweContentEncryptionAlgorithm
  token_endpoint_auth_method : Option ClientAuthMethod
  token_endpoint_auth_signing_alg : Option JwsSigningAlgorithm
  default_max_age : Option Duration
  require_auth_time : Option Bool
  default_acr_values : Option (List AuthenticationContextClass)
  initiate_login_uri : Option InitiateLoginUrl
  request_uris : Option (List RequestUrl)

def MetadataVisitor.emptyState : MetadataVisitorState :=
  ⟨none, none, none, none, none, none, none, none, none, none, none, none, none, none, none, none, none, none, none, none, none, none, none, none, none, none, none, none, none, none⟩

/-- Process one JSON object entry whose key has been split into base name
and optional language tag: dispatch on the base name in field-declaration
order, decode the value with the field codec, and ignore unknown keys
(`deserialize_fields!` is in `macros.rs`, outside the visible fragment, and
is modelled from spec 9: scan all top-level keys, split on `#`, group the
language-tagged fields, ignore unknown keys). -/
def MetadataVisitor.visit_entry_core (s : MetadataVisitorState)
    (bt : String × Option String) (v : Json) : Option MetadataVisitorState :=
  if bt.1 = "redirect_uris" ∧ bt.2 = none then
    (decStrList v).map (fun x => { s with redirect_uris := some x })
  else if bt.1 = "response_types" ∧ bt.2 = none then
    (decStrList v).map (fun x => { s with response_types := some x })
  else if bt.1 = "grant_types" ∧ bt.2 = none then
    (decStrList v).map (fun x => { s with grant_types := some x })
  else if bt.1 = "application_type" ∧ bt.2 = none then
    (decStr v).map (fun x => { s with application_type := some x })
  else if bt.1 = "contacts" ∧ bt.2 = none then
    (decStrList v).map (fun x => { s with contacts := some x })
  else if bt.1 = "client_name" then
    (decStr v).map (fun x => { s with client_name := some (mapInsert (s.client_name.getD []) bt.2 x) })
  else if bt.1 = "logo_uri" then
    (decStr v).map (fun x => { s with logo_uri := some (mapInsert (s.logo_uri.getD []) bt.2 x) })
  else if bt.1 = "client_uri" then
    (decStr v).map (fun x => { s with client_uri := some (mapInsert (s.client_uri.getD []) bt.2 x) })
  else if bt.1 = "policy_uri" then
    (decStr v).map (fun x => { s with policy_uri := some (mapInsert (s.policy_uri.getD []) bt.2 x) })
  else if bt.1 = "tos_uri" then
    (decStr v).map (fun x => { s with tos_uri := some (mapInsert (s.tos_uri.getD []) bt.2 x) })
  else if bt.1 = "jwks_uri" ∧ bt.2 = none then
    (decStr v).map (fun x => { s with jwks_uri := some x })
  else if bt.1 = "jwks" ∧ bt.2 = none then
    (decJwks v).map (fun x => { s with jwks := some x })
  else if bt.1 = "sector_identifier_uri" ∧ bt.2 = none then
    (decStr v).map (fun x => { s with sector_identifier_uri := some x })
  else if bt.1 = "subject_type" ∧ bt.2 = none then
    (decStr v).map (fun x => { s with subject_type := some x })
  else if bt.1 = "id_token_signed_response_alg" ∧ bt.2 = none then
    (decStr v).map (fun x => { s with id_token_signed_response_alg := some x })
  else if bt.1 = "id_token_encrypted_response_alg" ∧ bt.2 = none then
    (decStr v).map (fun x => { s with id_token_encrypted_response_alg := some x })
  else if bt.1 = "id_token_encrypted_response_enc" ∧ bt.2 = none then
    (decStr v).map (fun x => { s with id_token_encrypted_response_enc := some x })
  else if bt.1 = "userinfo_signed_response_alg" ∧ bt.2 = none then
    (decStr v).map (fun x => { s with userinfo_signed_response_alg := some x })
  else if bt.1 = "userinfo_encrypted_response_alg" ∧ bt.2 = none then
    (decStr v).map (fun x => { s with userinfo_encrypted_response_alg := some x })
  else if bt.1 = "userinfo_encrypted_response_enc" ∧ bt.2 = none then
    (decStr v).map (fun x => { s with userinfo_encrypted_response_enc := some x })
  else if bt.1 = "request_object_signing_alg" ∧ bt.2 = none then
    (decStr v).map (fun x => { s with request_object_signing_alg := some x })
  else if bt.1 = "request_object_encryption_alg" ∧ bt.2 = none then
    (decStr v).map (fun x => { s with request_object_encryption_alg := some x })
  else if bt.1 = "request_object_encryption_enc" ∧ bt.2 = none then
    (decStr v).map (fun x => { s with request_object_encryption_enc := some x })
  else if bt.1 = "token_endpoint_auth_method" ∧ bt.2 = none then
    (decStr v).map (fun x => { s with token_endpoint_auth_method := some x })
  else if bt.1 = "token_endpoint_auth_signing_alg" ∧ bt.2 = none then
    (decStr v).map (fun x => { s with token_endpoint_auth_signing_alg := some x })
  else if bt.1 = "default_max_age" ∧ bt.2 = none then
    (decNat v).map (fun x => { s with default_max_age := some x })
  else if bt.1 = "require_auth_time" ∧ bt.2 = none then
    (decBool v).map (fun x => { s with require_auth_time := some x })
  else if bt.1 = "default_acr_values" ∧ bt.2 = none then
    (decStrList v).map (fun x => { s with default_acr_values := some x })
  else if bt.1 = "initiate_login_uri" ∧ bt.2 = none then
    (decStr v).map (fun x => { s with initiate_login_uri := some x })
  else if bt.1 = "request_uris" ∧ bt.2 = none then
    (decStrList v).map (fun x => { s with request_uris := some x })
  else some s

def MetadataVisitor.visit_entry (s : MetadataVisitorState) (kv : String × Json) :
    Option MetadataVisitorState :=
  MetadataVisitor.visit_entry_core s (split_language_tag_key kv.1) kv.2

/-- Build the metadata record from the visitor state; the required
`redirect_uris` must have been seen. -/
def MetadataVisitor.finish (s : MetadataVisitorState) :
    Option Registration10ClientMetadata :=
  match s.redirect_uris with
  | none => none
  | some redirect_uris =>
    some ⟨redirect_uris, s.response_types, s.grant_types, s.application_type, s.contacts, s.client_name, s.logo_uri, s.client_uri, s.policy_uri, s.tos_uri, s.jwks_uri, s.jwks, s.sector_identifier_uri, s.subject_type, s.id_token_signed_response_alg, s.id_token_encrypted_response_alg, s.id_token_encrypted_response_enc, s.userinfo_signed_response_alg, s.userinfo_encrypted_response_alg, s.userinfo_encrypted_response_enc, s.request_object_signing_alg, s.request_object_encryption_alg, s.request_object_encryption_enc, s.token_endpoint_auth_method, s.token_endpoint_auth_signing_alg, s.default_max_age, s.require_auth_time, s.default_acr_values, s.initiate_login_uri, s.request_uris⟩

/-- `MetadataVisitor::visit_map` (registration.rs lines 180-219): fold the
entry handler over the object entries, then require the mandatory field. -/
def MetadataVisitor.visit_map (entries : List (String × Json)) :
    Option Registration10ClientMetadata := do
  let s ← entries.foldlM MetadataVisitor.visit_entry MetadataVisitor.emptyState
  MetadataVisitor.finish s

/-- `Registration10ClientMetadata::deserialize` (registration.rs lines
131-233), at the level of the decoded object entry list: the serde text
layer itself is an external collaborator (spec 1). -/
def Registration10ClientMetadata.deserialize (entries : List (String × Json)) :
    Option Registration10ClientMetadata :=
  MetadataVisitor.visit_map entries

/-- Two optional language maps with the same bindings up to order. -/
def LangMapPerm (a b : Option (List (Option LanguageTag × String))) : Prop :=
  match a, b with
  | none, none => True
  | some l, some l2 => l.Perm l2
  | _, _ => False

/-- Metadata values that differ only in the iteration order of their
language-tagged maps (the one source of nondeterminism in the Rust
serializer, whose `HashMap` iteration order is unspecified). -/
def SerializeEquiv (m m2 : Registration10ClientMetadata) : Prop :=
  m.redirect_uris = m2.redirect_uris
    ∧ m.response_types = m2.response_types
    ∧ m.grant_types = m2.grant_types
    ∧ m.application_type = m2.application_type
    ∧ m.contacts = m2.contacts
    ∧ LangMapPerm m.client_name m2.client_name
    ∧ LangMapPerm m.logo_uri m2.logo_uri
    ∧ LangMapPerm m.client_uri m2.client_uri
    ∧ LangMapPerm m.policy_uri m2.policy_uri
    ∧ LangMapPerm m.tos_uri m2.tos_uri
    ∧ m.jwks_uri = m2.jwks_uri
    ∧ m.jwks = m2.jwks
    ∧ m.sector_identifier_uri = m2.sector_identifier_uri
    ∧ m.subject_type = m2.subject_type
    ∧ m.id_token_signed_response_alg = m2.id_token_signed_response_alg
    ∧ m.id_token_encrypted_response_alg = m2.id_token_encrypted_response_alg
    ∧ m.id_token_encrypted_response_enc = m2.id_token_encrypted_response_enc
    ∧ m.userinfo_signed_response_alg = m2.userinfo_signed_response_alg
    ∧ m.userinfo_encrypted_response_alg = m2.userinfo_encrypted_response_alg
    ∧ m.userinfo_encrypted_response_enc = m2.userinfo_encrypted_response_enc
    ∧ m.request_object_signing_alg = m2.request_object_signing_alg
    ∧ m.request_object_encryption_alg = m2.request_object_encryption_alg
    ∧ m.request_object_encryption_enc = m2.request_object_encryption_enc
    ∧ m.token_endpoint_auth_method = m2.token_endpoint_auth_method
    ∧ m.token_endpoint_auth_signing_alg = m2.token_endpoint_auth_signing_alg
    ∧ m.default_max_age = m2.default_max_age
    ∧ m.require_auth_time = m2.require_auth_time
    ∧ m.default_acr_values = m2.default_acr_values
    ∧ m.initiate_login_uri = m2.initiate_login_uri
    ∧ m.request_uris = m2.request_uris

/-! ## HTTP envelope (`http.rs`, outside the visible fragment; modelled from
spec 4.1 and the constants' use sites in discovery.rs and registration.rs) -/

inductive HttpRequestMethod where
  | Get : HttpRequestMethod
  | Post : HttpRequestMethod
  deriving DecidableEq

/-- A typed HTTP request: method, URL, headers, body (spec 4.1). -/
structure HttpRequest where
  url : Url
  method : HttpRequestMethod
  headers : List (String × String)
  post_body : List Nat
  deriving DecidableEq

/-- A typed HTTP response: status, `Content-Type` header, body bytes
(spec 4.1). -/
structure HttpResponse where
  status_code : Nat
  content_type : Option String
  body : List Nat
  deriving DecidableEq

def HTTP_STATUS_OK : Nat := 200

def HTTP_STATUS_CREATED : Nat := 201

def HTTP_STATUS_BAD_REQUEST : Nat := 400

def MIME_TYPE_JSON : String := "application/json"

def ACCEPT_JSON : String × String := ("Accept", MIME_TYPE_JSON)

def CONTENT_TYPE_JSON : String × String := ("Content-Type", MIME_TYPE_JSON)

/-- `Authorization: Bearer <token>` header (modelled from spec 4.5 step 2). -/
def auth_bearer (access_token : AccessToken) : String × String :=
  ("Authorization", "Bearer " ++ access_token)

def takeUntilSemi : List Char → List Char
  | [] => []
  | c :: cs => if c = ';' then [] else c :: takeUntilSemi cs

def trimSpaces (l : List Char) : List Char :=
  ((l.dropWhile (fun c => c = ' ')).reverse.dropWhile (fun c => c = ' ')).reverse

def lowerChar (c : Char) : Char :=
  if 'A' ≤ c ∧ c ≤ 'Z' then Char.ofNat (c.toNat + 32) else c

/-- The media type of a `Content-Type` value: parameters such as `charset`
stripped, surrounding blanks removed, lowercased (spec 4.1 and spec 9). -/
def media_type (content_type : String) : String :=
  ⟨(trimSpaces (takeUntilSemi content_type.data)).map lowerChar⟩

/-- `HttpResponse::check_content_type` (modelled from spec 4.1: succeed iff
the header's media type equals the expected one, with a descriptive error
otherwise). -/
def check_content_type (response : HttpResponse) (expected : String) :
    Except String Unit :=
  match response.content_type with
  | none => Except.ok ()
  | some content_type =>
    if media_type content_type = media_type expected then Except.ok ()
    else Except.error ("Unexpected response Content-Type: " ++ content_type)

/-! ## UTF-8 (the `String::from_utf8` /`String::into_bytes` used by
registration.rs, modelled byte-exactly per RFC 3629) -/

def utf8EncodeChar (n : Nat) : List Nat :=
  if n < 0x80 then [n]
  else if n < 0x800 then [0xC0 + n / 0x40, 0x80 + n % 0x40]
  else if n < 0x10000 then
    [0xE0 + n / 0x1000, 0x80 + (n / 0x40) % 0x40, 0x80 + n % 0x40]
  else
    [0xF0 + n / 0x40000, 0x80 + (n / 0x1000) % 0x40, 0x80 + (n / 0x40) % 0x40,
      0x80 + n % 0x40]

def utf8Encode (s : String) : List Nat :=
  (s.data.map (fun c => utf8EncodeChar c.toNat)).flatten

abbrev isContByte (b : Nat) : Prop := 0x80 ≤ b ∧ b ≤ 0xBF

def utf8DecodeChars : List Nat → Option (List Char)
  | [] => some []
  | b :: rest =>
    if b < 0x80 then (utf8DecodeChars rest).map (fun cs => Char.ofNat b :: cs)
    else if 0xC2 ≤ b ∧ b ≤ 0xDF then
      match rest with
      | b2 :: rest2 =>
        if isContByte b2 then
          (utf8DecodeChars rest2).map
            (fun cs => Char.ofNat ((b - 0xC0) * 0x40 + (b2 - 0x80)) :: cs)
        else none
      | [] => none
    else if 0xE0 ≤ b ∧ b ≤ 0xEF then
      match rest with
      | b2 :: b3 :: rest3 =>
        if (if b = 0xE0 then 0xA0 ≤ b2 ∧ b2 ≤ 0xBF
            else if b = 0xED then 0x80 ≤ b2 ∧ b2 ≤ 0x9F
            else isContByte b2) ∧ isContByte b3 then
          (utf8DecodeChars rest3).map
            (fun cs =>
              Char.ofNat ((b - 0xE0) * 0x1000 + (b2 - 0x80) * 0x40 + (b3 - 0x80)) :: cs)
        else none
      | _ => none
    else if 0xF0 ≤ b ∧ b ≤ 0xF4 then
      match rest with
      | b2 :: b3 :: b4 :: rest4 =>
        if (if b = 0xF0 then 0x90 ≤ b2 ∧ b2 ≤ 0xBF
            else if b = 0xF4 then 0x80 ≤ b2 ∧ b2 ≤ 0x8F
            else isContByte b2) ∧ isContByte b3 ∧ isContByte b4 then
          (utf8DecodeChars rest4).map
            (fun cs =>
              Char.ofNat ((b - 0xF0) * 0x40000 + (b2 - 0x80) * 0x1000
                + (b3 - 0x80) * 0x40 + (b4 - 0x80)) :: cs)
        else none
      | _ => none
    else none

/-- `String::from_utf8`: decode bytes, `none` on any invalid sequence. -/
def utf8Decode (l : List Nat) : Option String :=
  (utf8DecodeChars l).map List.asString

/-! ## A JSON printer (`serde_json::to_string`, an external collaborator;
only its existence matters to the claims, never its output shape) -/

def escapeJsonChar (c : Char) : List Char :=
  if c = '"' then ['\\', '"']
  else if c = '\\' then ['\\', '\\']
  else [c]

def escapeJsonString (s : String) : String :=
  ⟨(s.data.map escapeJsonChar).flatten⟩

mutual

def jsonRender : Json → String
  | Json.str s => "\"" ++ escapeJsonString s ++ "\""
  | Json.num n => Nat.repr n
  | Json.bool b => if b then "true" else "false"
  | Json.arr js => "[" ++ jsonRenderList js ++ "]"
  | Json.obj kvs => "\x7b" ++ jsonRenderEntries kvs ++ "\x7d"

def jsonRenderList : List Json → String
  | [] => ""
  | [j] => jsonRender j
  | j :: j2 :: js => jsonRender j ++ "," ++ jsonRenderList (j2 :: js)

def jsonRenderEntries : List (String × Json) → String
  | [] => ""
  | [(k, v)] => "\"" ++ escapeJsonString k ++ "\":" ++ jsonRender v
  | (k, v) :: e :: es =>
    "\"" ++ escapeJsonString k ++ "\":" ++ jsonRender v ++ "," ++ jsonRenderEntries (e :: es)

end

/-! ## Discovery (discovery.rs) -/

/-- The flat error taxonomy of discovery.rs lines 210-224. -/
inductive DiscoveryError where
  | UrlParse : UrlParseError → DiscoveryError
  | Request : CurlError → DiscoveryError
  | Response : Nat → String → DiscoveryError
  | Json : JsonError → DiscoveryError
  | Validation : String → DiscoveryError
  | Other : String → DiscoveryError
  deriving DecidableEq

/-- Modelled from the spec (4.4 step 1): the well-known configuration path
appended to the issuer. -/
def CONFIG_URL_SUFFIX : String := "/.well-known/openid-configuration"

/-- Scan for the first `://`, returning the scheme characters before it and
the remainder after it. -/
def splitScheme : List Char → Option (List Char × List Char)
  | [] => none
  | ':' :: '/' :: '/' :: rest => some ([], rest)
  | c :: rest => (splitScheme rest).map (fun p => (c :: p.1, p.2))

/-- Modelled from the spec (4.4 step 1): `url::Url::parse`, an external
collaborator, accepting absolute URLs (a nonempty scheme before `://`) and
rejecting relative ones. -/
def parseUrl (s : String) : Except UrlParseError Url :=
  match splitScheme s.data with
  | some (scheme, _) => if scheme = [] then Except.error "relative URL without a base" else Except.ok s
  | none => Except.error "relative URL without a base"

/-- `ProviderMetadata::validate` (discovery.rs lines 88-102): consume the
metadata, compare its issuer with the expected one, and return the metadata
only on success. -/
def ProviderMetadata.validate {PM : Type} (issuerOf : PM → IssuerUrl) (self : PM)
    (issuer_uri : IssuerUrl) : Except DiscoveryError PM :=
  if issuerOf self ≠ issuer_uri then
    Except.error (DiscoveryError.Validation
      ("unexpected issuer URI `" ++ issuerOf self ++ "` (expected `" ++ issuer_uri
        ++ "`); this may indicate an OpenID Provider impersonation attack"))
  else Except.ok self

/-- The GET issued by `get_provider_metadata` (discovery.rs lines 45-50). -/
def discoveryRequest (discover_url : Url) : HttpRequest :=
  { url := discover_url
    method := HttpRequestMethod.Get
    headers := [ACCEPT_JSON]
    post_body := [] }

/-- The part of `get_provider_metadata` after the status gate (discovery.rs
lines 61-68): content-type check, JSON decode, issuer validation. -/
def discoveryAfterStatus (PM : Type) (issuerOf : PM → IssuerUrl)
    (decode : List Nat → Except JsonError PM) (issuer_url : IssuerUrl)
    (resp : HttpResponse) : Except DiscoveryError PM :=
  match check_content_type resp MIME_TYPE_JSON with
  | Except.error err_msg => Except.error (DiscoveryError.Response resp.status_code err_msg)
  | Except.ok _ =>
    match decode resp.body with
    | Except.error e => Except.error (DiscoveryError.Json e)
    | Except.ok provider_metadata =>
      ProviderMetadata.validate issuerOf provider_metadata issuer_url

/-- The part of `get_provider_metadata` from the HTTP fetch of the discovery
URL onward (discovery.rs lines 45-68). -/
def discoveryFetch (PM : Type) (issuerOf : PM → IssuerUrl)
    (decode : List Nat → Except JsonError PM)
    (http : HttpRequest → Except CurlError HttpResponse)
    (issuer_url : IssuerUrl) (discover_url : Url) : Except DiscoveryError PM :=
  match http (discoveryRequest discover_url) with
  | Except.error e => Except.error (DiscoveryError.Request e)
  | Except.ok discover_response =>
    if discover_response.status_code ≠ HTTP_STATUS_OK then
      Except.error (DiscoveryError.Response discover_response.status_code
        "unexpected HTTP status code")
    else discoveryAfterStatus PM issuerOf decode issuer_url discover_response

/-- `get_provider_metadata` (discovery.rs lines 24-69), parameterised — as the
generic Rust function is — by the metadata type `PM` with its issuer accessor,
its JSON decoder, and the HTTP transport. -/
def get_provider_metadata (PM : Type) (issuerOf : PM → IssuerUrl)
    (decode : List Nat → Except JsonError PM)
    (http : HttpRequest → Except CurlError HttpResponse)
    (issuer_url : IssuerUrl) : Except DiscoveryError PM :=
  match parseUrl (issuer_url ++ CONFIG_URL_SUFFIX) with
  | Except.error e => Except.error (DiscoveryError.UrlParse e)
  | Except.ok discover_url =>
    discoveryFetch PM issuerOf decode http issuer_url discover_url

/-- `Discovery10ProviderMetadata` (discovery.rs lines 104-191), the decoded
discovery document (the serde-derived codec for it is an external
collaborator; `get_provider_metadata` receives the decoder as a parameter).
-/
structure Discovery10ProviderMetadata where
  issuer : IssuerUrl
  authorization_endpoint : AuthUrl
  token_endpoint : Option TokenUrl
  userinfo_endpoint : Option UserInfoUrl
  jwks_uri : Option JsonWebKeySetUrl
  registration_endpoint : Option RegistrationUrl
  scopes_supported : Option (List Scope)
  response_types_supported : List ResponseTypes
  response_modes_supported : Option (List ResponseMode)
  grant_types_supported : Option (List GrantType)
  acr_values_supported : Option (List AuthenticationContextClass)
  subject_types_supported : List SubjectIdentifierType
  id_token_signing_alg_values_supported : List JwsSigningAlgorithm
  id_token_encryption_alg_values_supported : Option (List JweKeyManagementAlgorithm)
  id_token_encryption_enc_values_supported : Option (List JweContentEncryptionAlgorithm)
  userinfo_signing_alg_values_supported : Option (List JwsSigningAlgorithm)
  userinfo_encryption_alg_values_supported : Option (List JweKeyManagementAlgorithm)
  userinfo_encryption_enc_values_supported : Option (List JweContentEncryptionAlgorithm)
  request_object_signing_alg_values_supported : Option (List JwsSigningAlgorithm)
  request_object_encryption_alg_values_supported : Option (List JweKeyManagementAlgorithm)
  request_object_encryption_enc_values_supported : Option (List JweContentEncryptionAlgorithm)
  token_endpoint_auth_methods_supported : Option (List ClientAuthMethod)
  token_endpoint_auth_signing_alg_values_supported : Option (List JwsSigningAlgorithm)
  display_values_supported : Option (List AuthDisplay)
  claim_types_supported : Option (List ClaimType)
  claims_supported : Option (List ClaimName)
  service_documentation : Option ServiceDocUrl
  claims_locales_supported : Option (List LanguageTag)
  ui_locales_supported : Option (List LanguageTag)
  claims_parameter_supported : Option Bool
  request_parameter_supported : Option Bool
  request_uri_parameter_supported : Option Bool
  require_request_uri_registration : Option Bool
  op_policy_uri : Option OpPolicyUrl
  op_tos_uri : Option OpTosUrl
  deriving DecidableEq

/-! ## Registration (registration.rs) -/

/-- The typed 400-response body of dynamic client registration (the `oauth2`
crate's `ErrorResponse<ET>` with the error-code set modelled by its wire
string): a required `error` code plus optional description and URI (spec 6).
-/
structure ErrorResponse where
  error : String
  error_description : Option String
  error_uri : Option String
  deriving DecidableEq

/-- The flat error taxonomy of registration.rs lines 734-748. -/
inductive ClientRegistrationError where
  | Request : CurlError → ClientRegistrationError
  | Response : Nat → String → ClientRegistrationError
  | Json : JsonError → ClientRegistrationError
  | ServerResponse : ErrorResponse → ClientRegistrationError
  | Validation : String → ClientRegistrationError
  | Other : String → ClientRegistrationError
  deriving DecidableEq

/-- `Registration10ClientRegistrationRequest` (registration.rs lines 416-436):
the client metadata to submit plus the optional initial access token. -/
structure Registration10ClientRegistrationRequest where
  client_metadata : Registration10ClientMetadata
  initial_access_token : Option AccessToken
  deriving DecidableEq

/-- `Registration10ClientRegistrationRequest::new` (registration.rs lines
469-507): the given redirect URIs, every optional metadata field absent, no
initial access token. -/
def Registration10ClientRegistrationRequest.new (redirect_uris : List RedirectUrl) :
    Registration10ClientRegistrationRequest :=
  { client_metadata :=
    { redirect_uris := redirect_uris
      response_types := none
      grant_types := none
      application_type := none
      contacts := none
      client_name := none
      logo_uri := none
      client_uri := none
      policy_uri := none
      tos_uri := none
      jwks_uri := none
      jwks := none
      sector_identifier_uri := none
      subject_type := none
      id_token_signed_response_alg := none
      id_token_encrypted_response_alg := none
      id_token_encrypted_response_enc := none
      userinfo_signed_response_alg := none
      userinfo_encrypted_response_alg := none
      userinfo_encrypted_response_enc := none
      request_object_signing_alg := none
      request_object_encryption_alg := none
      request_object_encryption_enc := none
      token_endpoint_auth_method := none
      token_endpoint_auth_signing_alg := none
      default_max_age := none
      require_auth_time := none
      default_acr_values := none
      initiate_login_uri := none
      request_uris := none
    }
    initial_access_token := none }

/-- `set_redirect_uris` (registration.rs lines 521-554). -/
def Registration10ClientRegistrationRequest.set_redirect_uris
    (self : Registration10ClientRegistrationRequest) (v : List RedirectUrl) :
    Registration10ClientRegistrationRequest :=
  { self with client_metadata := { self.client_metadata with redirect_uris := v } }

/-- `set_response_types` (registration.rs lines 521-554). -/
def Registration10ClientRegistrationRequest.set_response_types
    (self : Registration10ClientRegistrationRequest) (v : Option (List ResponseTypes)) :
    Registration10ClientRegistrationRequest :=
  { self with client_metadata := { self.client_metadata with response_types := v } }

/-- `set_grant_types` (registration.rs lines 521-554). -/
def Registration10ClientRegistrationRequest.set_grant_types
    (self : Registration10ClientRegistrationRequest) (v : Option (List GrantType)) :
    Registration10ClientRegistrationRequest :=
  { self with client_metadata := { self.client_metadata with grant_types := v } }

/-- `set_application_type` (registration.rs lines 521-554). -/
def Registration10ClientRegistrationRequest.set_application_type
    (self : Registration10ClientRegistrationRequest) (v : Option ApplicationType) :
    Registration10ClientRegistrationRequest :=
  { self with client_metadata := { self.client_metadata with application_type := v } }

/-- `set_contacts` (registration.rs lines 521-554). -/
def Registration10ClientRegistrationRequest.set_contacts
    (self : Registration10ClientRegistrationRequest) (v : Option (List ContactEmail)) :
    Registration10ClientRegistrationRequest :=
  { self with client_metadata := { self.client_metadata with contacts := v } }

/-- `set_client_name` (registration.rs lines 521-554). -/
def Registration10ClientRegistrationRequest.set_client_name
    (self : Registration10ClientRegistrationRequest) (v : Option (List (Option LanguageTag × ClientName))) :
    Registration10ClientRegistrationRequest :=
  { self with client_metadata := { self.client_metadata with client_name := v } }

/-- `set_logo_uri` (registration.rs lines 521-554). -/
def Registration10ClientRegistrationRequest.set_logo_uri
    (self : Registration10ClientRegistrationRequest) (v : Option (List (Option LanguageTag × LogoUrl))) :
    Registration10ClientRegistrationRequest :=
  { self with client_metadata := { self.client_metadata with logo_uri := v } }

/-- `set_client_uri` (registration.rs lines 521-554). -/
def Registration10ClientRegistrationRequest.set_client_uri
    (self : Registration10ClientRegistrationRequest) (v : Option (List (Option LanguageTag × ClientUrl))) :
    Registration10ClientRegistrationRequest :=
  { self with client_metadata := { self.client_metadata with client_uri := v } }

/-- `set_policy_uri` (registration.rs lines 521-554). -/
def Registration10ClientRegistrationRequest.set_policy_uri
    (self : Registration10ClientRegistrationRequest) (v : Option (List (Option LanguageTag × PolicyUrl))) :
    Registration10ClientRegistrationRequest :=
  { self with client_metadata := { self.client_metadata with policy_uri := v } }

/-- `set_tos_uri` (registration.rs lines 521-554). -/
def Registration10ClientRegistrationRequest.set_tos_uri
    (self : Registration10ClientRegistrationRequest) (v : Option (List (Option LanguageTag × ToSUrl))) :
    Registration10ClientRegistrationRequest :=
  { self with client_metadata := { self.client_metadata with tos_uri := v } }

/-- `set_jwks_uri` (registration.rs lines 521-554). -/
def Registration10ClientRegistrationRequest.set_jwks_uri
    (self : Registration10ClientRegistrationRequest) (v : Option JsonWebKeySetUrl) :
    Registration10ClientRegistrationRequest :=
  { self with client_metadata := { self.client_metadata with jwks_uri := v } }

/-- `set_jwks` (registration.rs lines 521-554). -/
def Registration10ClientRegistrationRequest.set_jwks
    (self : Registration10ClientRegistrationRequest) (v : Option JsonWebKeySet) :
    Registration10ClientRegistrationRequest :=
  { self with client_metadata := { self.client_metadata with jwks := v } }

/-- `set_sector_identifier_uri` (registration.rs lines 521-554). -/
def Registration10ClientRegistrationRequest.set_sector_identifier_uri
    (self : Registration10ClientRegistrationRequest) (v : Option SectorIdentifierUrl) :
    Registration10ClientRegistrationRequest :=
  { self with client_metadata := { self.client_metadata with sector_identifier_uri := v } }

/-- `set_subject_type` (registration.rs lines 521-554). -/
def Registration10ClientRegistrationRequest.set_subject_type
    (self : Registration10ClientRegistrationRequest) (v : Option SubjectIdentifierType) :
    Registration10ClientRegistrationRequest :=
  { self with client_metadata := { self.client_metadata with subject_type := v } }

/-- `set_id_token_signed_response_alg` (registration.rs lines 521-554). -/
def Registration10ClientRegistrationRequest.set_id_token_signed_response_alg
    (self : Registration10ClientRegistrationRequest) (v : Option JwsSigningAlgorithm) :
    Registration10ClientRegistrationRequest :=
  { self with client_metadata := { self.client_metadata with id_token_signed_response_alg := v } }

/-- `set_id_token_encrypted_response_alg` (registration.rs lines 521-554). -/
def Registration10ClientRegistrationRequest.set_id_token_encrypted_response_alg
    (self : Registration10ClientRegistrationRequest) (v : Option JweKeyManagementAlgorithm) :
    Registration10ClientRegistrationRequest :=
  { self with client_metadata := { self.client_metadata with id_token_encrypted_response_alg := v } }

/-- `set_id_token_encrypted_response_enc` (registration.rs lines 521-554). -/
def Registration10ClientRegistrationRequest.set_id_token_encrypted_response_enc
    (self : Registration10ClientRegistrationRequest) (v : Option JweContentEncryptionAlgorithm) :
    Registration10ClientRegistrationRequest :=
  { self with client_metadata := { self.client_metadata with id_token_encrypted_response_enc := v } }

/-- `set_userinfo_signed_response_alg` (registration.rs lines 521-554). -/
def Registration10ClientRegistrationRequest.set_userinfo_signed_response_alg
    (self : Registration10ClientRegistrationRequest) (v : Option JwsSigningAlgorithm) :
    Registration10ClientRegistrationRequest :=
  { self with client_metadata := { self.client_metadata with userinfo_signed_response_alg := v } }

/-- `set_userinfo_encrypted_response_alg` (registration.rs lines 521-554). -/
def Registration10ClientRegistrationRequest.set_userinfo_encrypted_response_alg
    (self : Registration10ClientRegistrationRequest) (v : Option JweKeyManagementAlgorithm) :
    Registration10ClientRegistrationRequest :=
  { self with client_metadata := { self.client_metadata with userinfo_encrypted_response_alg := v } }

/-- `set_userinfo_encrypted_response_enc` (registration.rs lines 521-554). -/
def Registration10ClientRegistrationRequest.set_userinfo_encrypted_response_enc
    (self : Registration10ClientRegistrationRequest) (v : Option JweContentEncryptionAlgorithm) :
    Registration10ClientRegistrationRequest :=
  { self with client_metadata := { self.client_metadata with userinfo_encrypted_response_enc := v } }

/-- `set_request_object_signing_alg` (registration.rs lines 521-554). -/
def Registration10ClientRegistrationRequest.set_request_object_signing_alg
    (self : Registration10ClientRegistrationRequest) (v : Option JwsSigningAlgorithm) :
    Registration10ClientRegistrationRequest :=
  { self with client_metadata := { self.client_metadata with request_object_signing_alg := v } }

/-- `set_request_object_encryption_alg` (registration.rs lines 521-554). -/
def Registration10ClientRegistrationRequest.set_request_object_encryption_alg
    (self : Registration10ClientRegistrationRequest) (v : Option JweKeyManagementAlgorithm) :
    Registration10ClientRegistrationRequest :=
  { self with client_metadata := { self.client_metadata with request_object_encryption_alg := v } }

/-- `set_request_object_encryption_enc` (registration.rs lines 521-554). -/
def Registration10ClientRegistrationRequest.set_request_object_encryption_enc
    (self : Registration10ClientRegistrationRequest) (v : Option JweContentEncryptionAlgorithm) :
    Registration10ClientRegistrationRequest :=
  { self with client_metadata := { self.client_metadata with request_object_encryption_enc := v } }

/-- `set_token_endpoint_auth_method` (registration.rs lines 521-554). -/
def Registration10ClientRegistrationRequest.set_token_endpoint_auth_method
    (self : Registration10ClientRegistrationRequest) (v : Option ClientAuthMethod) :
    Registration10ClientRegistrationRequest :=
  { self with client_metadata := { self.client_metadata with token_endpoint_auth_method := v } }

/-- `set_token_endpoint_auth_signing_alg` (registration.rs lines 521-554). -/
def Registration10ClientRegistrationRequest.set_token_endpoint_auth_signing_alg
    (self : Registration10ClientRegistrationRequest) (v : Option JwsSigningAlgorithm) :
    Registration10ClientRegistrationRequest :=
  { self with client_metadata := { self.client_metadata with token_endpoint_auth_signing_alg := v } }

/-- `set_default_max_age` (registration.rs lines 521-554). -/
def Registration10ClientRegistrationRequest.set_default_max_age
    (self : Registration10ClientRegistrationRequest) (v : Option Duration) :
    Registration10ClientRegistrationRequest :=
  { self with client_metadata := { self.client_metadata with default_max_age := v } }

/-- `set_require_auth_time` (registration.rs lines 521-554). -/
def Registration10ClientRegistrationRequest.set_require_auth_time
    (self : Registration10ClientRegistrationRequest) (v : Option Bool) :
    Registration10ClientRegistrationRequest :=
  { self with client_metadata := { self.client_metadata with require_auth_time := v } }

/-- `set_default_acr_values` (registration.rs lines 521-554). -/
def Registration10ClientRegistrationRequest.set_default_acr_values
    (self : Registration10ClientRegistrationRequest) (v : Option (List AuthenticationContextClass)) :
    Registration10ClientRegistrationRequest :=
  { self with client_metadata := { self.client_metadata with default_acr_values := v } }

/-- `set_initiate_login_uri` (registration.rs lines 521-554). -/
def Registration10ClientRegistrationRequest.set_initiate_login_uri
    (self : Registration10ClientRegistrationRequest) (v : Option InitiateLoginUrl) :
    Registration10ClientRegistrationRequest :=
  { self with client_metadata := { self.client_metadata with initiate_login_uri := v } }

/-- `set_request_uris` (registration.rs lines 521-554). -/
def Registration10ClientRegistrationRequest.set_request_uris
    (self : Registration10ClientRegistrationRequest) (v : Option (List RequestUrl)) :
    Registration10ClientRegistrationRequest :=
  { self with client_metadata := { self.client_metadata with request_uris := v } }

/-- `set_initial_access_token` (registration.rs lines 517-519). -/
def Registration10ClientRegistrationRequest.set_initial_access_token
    (self : Registration10ClientRegistrationRequest) (access_token : Option AccessToken) :
    Registration10ClientRegistrationRequest :=
  { self with initial_access_token := access_token }

/-- The message `register` wraps around a UTF-8 decode failure
(registration.rs lines 367-372; the unrepresentable `FromUtf8Error` display is
modelled by a fixed description). -/
def utf8ErrorMessage : String := "couldn\x27t parse response as UTF-8: invalid utf-8 sequence"

/-- The POST built by `register` (registration.rs lines 321-341): serialized
metadata as body, JSON accept and content-type headers, bearer authorization
exactly when an initial access token is present. -/
def ClientRegistrationRequest.build_request (self : Registration10ClientRegistrationRequest)
    (registration_endpoint : RegistrationUrl) : HttpRequest :=
  { url := registration_endpoint
    method := HttpRequestMethod.Post
    headers := [ACCEPT_JSON, CONTENT_TYPE_JSON] ++
      (match self.initial_access_token with
       | some initial_access_token => [auth_bearer initial_access_token]
       | none => [])
    post_body :=
      utf8Encode (jsonRender (Json.obj
        (Registration10ClientMetadata.serialize self.client_metadata))) }

/-- The part of `register` after the status gate (registration.rs lines
361-381): content-type check, UTF-8 decode, then the 400-vs-201 body split. -/
def ClientRegistrationRequest.after_status (CR : Type)
    (decodeErr : String → Except JsonError ErrorResponse)
    (decodeCR : String → Except JsonError CR) (resp : HttpResponse) :
    Except ClientRegistrationError CR :=
  match check_content_type resp MIME_TYPE_JSON with
  | Except.error err_msg =>
    Except.error (ClientRegistrationError.Response resp.status_code err_msg)
  | Except.ok _ =>
    match utf8Decode resp.body with
    | none => Except.error (ClientRegistrationError.Other utf8ErrorMessage)
    | some response_body =>
      if resp.status_code = HTTP_STATUS_BAD_REQUEST then
        match decodeErr response_body with
        | Except.error e => Except.error (ClientRegistrationError.Json e)
        | Except.ok response_error =>
          Except.error (ClientRegistrationError.ServerResponse response_error)
      else
        match decodeCR response_body with
        | Except.error e => Except.error (ClientRegistrationError.Json e)
        | Except.ok r => Except.ok r

/-- `ClientRegistrationRequest::register` (registration.rs lines 317-381),
parameterised — as the generic Rust method is — by the response type `CR` with
its JSON decoder, the error-body decoder, and the HTTP transport. -/
def ClientRegistrationRequest.register (CR : Type)
    (self : Registration10ClientRegistrationRequest)
    (decodeErr : String → Except JsonError ErrorResponse)
    (decodeCR : String → Except JsonError CR)
    (http : HttpRequest → Except CurlError HttpResponse)
    (registration_endpoint : RegistrationUrl) : Except ClientRegistrationError CR :=
  match http (ClientRegistrationRequest.build_request self registration_endpoint) with
  | Except.error e => Except.error (ClientRegistrationError.Request e)
  | Except.ok register_response =>
    if register_response.status_code ≠ HTTP_STATUS_CREATED
        ∧ register_response.status_code ≠ HTTP_STATUS_BAD_REQUEST then
      Except.error (ClientRegistrationError.Response register_response.status_code
        "unexpected HTTP status code")
    else ClientRegistrationRequest.after_status CR decodeErr decodeCR register_response

/-! ## Registration response and its timestamp accessors -/

/-- `DateTime<Utc>`, modelled by its Unix timestamp in whole seconds. -/
abbrev DateTime := Int

/-- The smallest Unix timestamp `chrono` can represent
(`-262144-01-01T00:00:00Z`, the calendar floor of `chrono::naive::MIN_DATE`).
-/
def chronoMinTimestamp : Int := -8334632937600

/-- The largest whole-second Unix timestamp `chrono` can represent
(`262143-12-31T23:59:59Z`, the calendar ceiling of `chrono::naive::MAX_DATE`).
-/
def chronoMaxTimestamp : Int := 8210298412799

/-- The Rust `as i64` cast: wrapping conversion of a `u64` value. -/
def i64_of_u64 (n : Nat) : Int :=
  if n < 2 ^ 63 then (n : Int) else (n : Int) - 2 ^ 64

/-- `Utc.timestamp_opt(secs, 0).single()`: the instant at `secs` seconds after
the Unix epoch when representable, `none` otherwise (the `chrono` crate is an
external collaborator; its documented representable range is the constant
range above). -/
def timestamp_opt_single (secs : Int) : Option DateTime :=
  if chronoMinTimestamp ≤ secs ∧ secs ≤ chronoMaxTimestamp then some secs else none

/-- `Registration10ClientRegistrationResponse` (registration.rs lines
584-638): the issued credentials plus the echoed client metadata; the two
timestamps are wire values in Unix seconds (`Option<u64>`). -/
structure Registration10ClientRegistrationResponse where
  client_id : ClientId
  client_secret : Option ClientSecret
  registration_access_token : Option RegistrationAccessToken
  registration_client_uri : Option ClientConfigUrl
  client_id_issued_at : Option Nat
  client_secret_expires_at : Option Nat
  client_metadata : Registration10ClientMetadata
  deriving DecidableEq

/-- `client_id_issued_at` (registration.rs lines 668-671): map the wire
seconds through `Utc.timestamp_opt(seconds as i64, 0).single().ok_or(())`. -/
def ClientRegistrationResponse.client_id_issued_at
    (self : Registration10ClientRegistrationResponse) : Option (Except Unit DateTime) :=
  self.client_id_issued_at.map (fun seconds =>
    match timestamp_opt_single (i64_of_u64 seconds) with
    | some dt => Except.ok dt
    | none => Except.error ())

/-- `client_secret_expires_at` (registration.rs lines 672-675). -/
def ClientRegistrationResponse.client_secret_expires_at
    (self : Registration10ClientRegistrationResponse) : Option (Except Unit DateTime) :=
  self.client_secret_expires_at.map (fun seconds =>
    match timestamp_opt_single (i64_of_u64 seconds) with
    | some dt => Except.ok dt
    | none => Except.error ())

/-! ## Concrete example values used by the witnesses -/

/-- A metadata value with only the required field set (the output of
`Registration10ClientRegistrationRequest::new`). -/
def baseMetadata : Registration10ClientMetadata :=
  (Registration10ClientRegistrationRequest.new ["https://client.example.org/callback"]).client_metadata

/-- A richer metadata value: every language-tagged map present, nonempty,
and with distinct keys. -/
def exampleMetadata : Registration10ClientMetadata :=
  { baseMetadata with
    response_types := some ["code"]
    client_name := some [(none, "Acme"), (some "fr", "Acmé")]
    logo_uri := some [(none, "https://client.example.org/logo.png")]
    client_uri := some [(some "en", "https://client.example.org/")]
    policy_uri := some [(none, "https://client.example.org/policy")]
    tos_uri := some [(none, "https://client.example.org/tos"), (some "de", "https://client.example.org/tos-de")]
    jwks := some ⟨["key1"]⟩
    default_max_age := some 3600
    require_auth_time := some true }

/-- A metadata value whose `client_name` map is present but empty. -/
def cmEmptyLangName : Registration10ClientMetadata :=
  { baseMetadata with client_name := some [] }

def exampleIssuer : IssuerUrl := "https://server.example.com"

def exampleOkResponse : HttpResponse :=
  { status_code := 200, content_type := some "application/json", body := [] }

def exampleResp404 : HttpResponse :=
  { status_code := 404, content_type := some "application/json", body := [] }

/-- A 400 response whose body is not valid UTF-8. -/
def exampleResp400BadBody : HttpResponse :=
  { status_code := 400, content_type := some "application/json", body := [255] }

def exampleProviderMetadata : Discovery10ProviderMetadata :=
  { issuer := exampleIssuer
    authorization_endpoint := "https://server.example.com/authorize"
    token_endpoint := none
    userinfo_endpoint := none
    jwks_uri := none
    registration_endpoint := none
    scopes_supported := none
    response_types_supported := ["code"]
    response_modes_supported := none
    grant_types_supported := none
    acr_values_supported := none
    subject_types_supported := ["public"]
    id_token_signing_alg_values_supported := ["RS256"]
    id_token_encryption_alg_values_supported := none
    id_token_encryption_enc_values_supported := none
    userinfo_signing_alg_values_supported := none
    userinfo_encryption_alg_values_supported := none
    userinfo_encryption_enc_values_supported := none
    request_object_signing_alg_values_supported := none
    request_object_encryption_alg_values_supported := none
    request_object_encryption_enc_values_supported := none
    token_endpoint_auth_methods_supported := none
    token_endpoint_auth_signing_alg_values_supported := none
    display_values_supported := none
    claim_types_supported := none
    claims_supported := none
    service_documentation := none
    claims_locales_supported := none
    ui_locales_supported := none
    claims_parameter_supported := none
    request_parameter_supported := none
    request_uri_parameter_supported := none
    require_request_uri_registration := none
    op_policy_uri := none
    op_tos_uri := none }

/-- A registration response with a representable issue timestamp and no
expiry. -/
def exampleIssuedResponse : Registration10ClientRegistrationResponse :=
  { client_id := "client"
    client_secret := none
    registration_access_token := none
    registration_client_uri := none
    client_id_issued_at := some 1000000000
    client_secret_expires_at := none
    client_metadata := baseMetadata }

/-- A registration response whose `client_secret_expires_at` wire value is
`u64::MAX`. -/
def exampleFarFutureResponse : Registration10ClientRegistrationResponse :=
  { client_id := "client"
    client_secret := none
    registration_access_token := none
    registration_client_uri := none
    client_id_issued_at := none
    client_secret_expires_at := some 18446744073709551615
    client_metadata := baseMetadata }

/-! ## Lemmas about language-tag key splitting -/

theorem splitCh_append_hash (p : List Char) (hp : '#' ∉ p) (t : List Char) :
    splitCh (p ++ '#' :: t) = (p, some t) := by
  induction p with
  | nil => simp [splitCh]
  | cons c cs ih =>
    simp only [List.mem_cons, not_or] at hp
    simp [splitCh, Ne.symm hp.1, ih hp.2]

theorem splitCh_no_hash (p : List Char) (hp : '#' ∉ p) :
    splitCh p = (p, none) := by
  induction p with
  | nil => simp [splitCh]
  | cons c cs ih =>
    simp only [List.mem_cons, not_or] at hp
    simp [splitCh, Ne.symm hp.1, ih hp.2]

theorem string_data_append (a b : String) : (a ++ b).data = a.data ++ b.data := by
  cases a
  cases b
  rfl

theorem split_mkLangKey (nm : String) (hnm : '#' ∉ nm.data) (t : Option String) :
    split_language_tag_key (mkLangKey nm t) = (nm, t) := by
  cases t with
  | none =>
    show split_language_tag_key nm = _
    unfold split_language_tag_key
    rw [splitCh_no_hash nm.data hnm]
    rfl
  | some t =>
    show split_language_tag_key (nm ++ "#" ++ t) = _
    unfold split_language_tag_key
    rw [string_data_append, string_data_append]
    rw [show ("#" : String).data = ['#'] from rfl, List.append_assoc, List.singleton_append]
    rw [splitCh_append_hash _ hnm]
    rfl

/-! ## Component codec round-trips -/

theorem decStrs_map_str (l : List String) : decStrs (l.map Json.str) = some l := by
  induction l with
  | nil => rfl
  | cons a l ih =>
    show (match decStr (Json.str a), decStrs (l.map Json.str) with
      | some s, some ss => some (s :: ss)
      | _, _ => none) = _
    rw [ih]
    rfl

theorem decStrList_encStrList (l : List String) : decStrList (encStrList l) = some l := by
  show decStrs (l.map Json.str) = some l
  exact decStrs_map_str l

theorem decJwks_encJwks (s : JsonWebKeySet) : decJwks (encJwks s) = some s := by
  cases s with
  | mk keys =>
    show (decStrs (keys.map Json.str)).map JsonWebKeySet.mk = _
    rw [decStrs_map_str]
    rfl

/-! ## Association-list insertion -/

theorem mapInsert_of_not_mem (l : List (Option LanguageTag × String)) (k : Option LanguageTag)
    (v : String) (h : ∀ p ∈ l, p.1 ≠ k) : mapInsert l k v = l ++ [(k, v)] := by
  unfold mapInsert
  rw [if_neg]
  simp only [List.any_eq_true, decide_eq_true_eq, not_exists, not_and]
  intro p hp
  exact h p hp

theorem foldl_mapInsert_append (l : List (Option LanguageTag × String)) :
    ∀ acc, ((l.map Prod.fst).Nodup) → (∀ p ∈ acc, ∀ q ∈ l, p.1 ≠ q.1) →
      l.foldl (fun a p => mapInsert a p.1 p.2) acc = acc ++ l := by
  induction l with
  | nil =>
    intro acc _ _
    simp
  | cons p l ih =>
    intro acc hnd hd
    simp only [List.map_cons, List.nodup_cons, List.mem_map] at hnd
    simp only [List.foldl_cons]
    rw [mapInsert_of_not_mem _ _ _ (fun q hq => hd q hq p (by simp))]
    rw [ih (acc ++ [(p.1, p.2)]) hnd.2]
    · simp
    · intro r2 hr q hq
      rcases List.mem_append.mp hr with hr | hr
      · exact hd r2 hr q (by simp [hq])
      · simp only [List.mem_singleton] at hr
        subst hr
        intro hcontra
        exact hnd.1 ⟨q, hq, hcontra.symm⟩

/-! ## Fold lemmas: the visitor consumes each serialized block into its own
field and leaves the rest of the state unchanged -/

theorem fold_block_redirect_uris (s : MetadataVisitorState) (l : List RedirectUrl) :
    List.foldlM MetadataVisitor.visit_entry s (reqBlock "redirect_uris" (encStrList l))
      = some { s with redirect_uris := some l } := by
  show (MetadataVisitor.visit_entry s ("redirect_uris", encStrList l)).bind _ = _
  rw [show MetadataVisitor.visit_entry s ("redirect_uris", encStrList l)
      = (decStrList (encStrList l)).map (fun x => { s with redirect_uris := some x }) from rfl]
  rw [decStrList_encStrList]
  rfl

theorem fold_block_response_types (s : MetadataVisitorState) (o : Option (List ResponseTypes)) (hs : s.response_types = none) :
    List.foldlM MetadataVisitor.visit_entry s (optBlock "response_types" (Option.map encStrList o))
      = some { s with response_types := o } := by
  cases o with
  | none =>
    show some s = _
    cases s
    simp only at hs
    rw [hs]
  | some v =>
    show (MetadataVisitor.visit_entry s ("response_types", encStrList v)).bind _ = _
    rw [show MetadataVisitor.visit_entry s ("response_types", encStrList v)
        = (decStrList (encStrList v)).map (fun x => { s with response_types := some x }) from rfl]
    rw [decStrList_encStrList]
    rfl

theorem fold_block_grant_types (s : MetadataVisitorState) (o : Option (List GrantType)) (hs : s.grant_types = none) :
    List.foldlM MetadataVisitor.visit_entry s (optBlock "grant_types" (Option.map encStrList o))
      = some { s with grant_types := o } := by
  cases o with
  | none =>
    show some s = _
    cases s
    simp only at hs
    rw [hs]
  | some v =>
    show (MetadataVisitor.visit_entry s ("grant_types", encStrList v)).bind _ = _
    rw [show MetadataVisitor.visit_entry s ("grant_types", encStrList v)
        = (decStrList (encStrList v)).map (fun x => { s with grant_types := some x }) from rfl]
    rw [decStrList_encStrList]
    rfl

theorem fold_block_application_type (s : MetadataVisitorState) (o : Option ApplicationType) (hs : s.application_type = none) :
    List.foldlM MetadataVisitor.visit_entry s (optBlock "application_type" (Option.map Json.str o))
      = some { s with application_type := o } := by
  cases o with
  | none =>
    show some s = _
    cases s
    simp only at hs
    rw [hs]
  | some v => rfl

theorem fold_block_contacts (s : MetadataVisitorState) (o : Option (List ContactEmail)) (hs : s.contacts = none) :
    List.foldlM MetadataVisitor.visit_entry s (optBlock "contacts" (Option.map encStrList o))
      = some { s with contacts := o } := by
  cases o with
  | none =>
    show some s = _
    cases s
    simp only at hs
    rw [hs]
  | some v =>
    show (MetadataVisitor.visit_entry s ("contacts", encStrList v)).bind _ = _
    rw [show MetadataVisitor.visit_entry s ("contacts", encStrList v)
        = (decStrList (encStrList v)).map (fun x => { s with contacts := some x }) from rfl]
    rw [decStrList_encStrList]
    rfl

theorem step_lang_client_name (s : MetadataVisitorState) (tag : Option LanguageTag) (v : String) :
    MetadataVisitor.visit_entry s (mkLangKey "client_name" tag, Json.str v)
      = some { s with client_name := some (mapInsert (s.client_name.getD []) tag v) } := by
  show MetadataVisitor.visit_entry_core s (split_language_tag_key (mkLangKey "client_name" tag)) (Json.str v) = _
  rw [split_mkLangKey "client_name" (by decide)]
  rfl

theorem fold_lang_some_client_name (s : MetadataVisitorState) (l acc : List (Option LanguageTag × String))
    (hs : s.client_name = some acc) :
    List.foldlM MetadataVisitor.visit_entry s (langBlock "client_name" (some l))
      = some { s with client_name := some (l.foldl (fun a p => mapInsert a p.1 p.2) acc) } := by
  induction l generalizing s acc with
  | nil =>
    simp only [langBlock, List.map_nil, List.foldlM_nil, List.foldl_nil]
    rw [← hs]
    rfl
  | cons p l ih =>
    simp only [langBlock, List.map_cons, List.foldlM_cons]
    rw [step_lang_client_name, hs]
    simp only [Option.getD_some, Option.bind_eq_bind, Option.some_bind]
    rw [show (List.foldlM MetadataVisitor.visit_entry { s with client_name := some (mapInsert acc p.1 p.2) }
          (List.map (fun p => (mkLangKey "client_name" p.1, Json.str p.2)) l) : Option MetadataVisitorState)
        = List.foldlM MetadataVisitor.visit_entry { s with client_name := some (mapInsert acc p.1 p.2) }
          (langBlock "client_name" (some l)) from rfl]
    rw [ih _ _ rfl]
    rfl

theorem fold_block_client_name (s : MetadataVisitorState) (o : Option (List (Option LanguageTag × String)))
    (ho : o ≠ some []) (hdist : ((o.getD []).map Prod.fst).Nodup) (hs : s.client_name = none) :
    List.foldlM MetadataVisitor.visit_entry s (langBlock "client_name" o)
      = some { s with client_name := o } := by
  cases o with
  | none =>
    show some s = _
    cases s
    simp only at hs
    rw [hs]
  | some l =>
    cases l with
    | nil => exact absurd rfl ho
    | cons p t =>
      simp only [List.map_cons, List.nodup_cons, List.mem_map, Option.getD_some] at hdist
      simp only [langBlock, List.map_cons, List.foldlM_cons]
      rw [step_lang_client_name, hs]
      simp only [Option.getD_none, Option.bind_eq_bind, Option.some_bind]
      rw [show (List.foldlM MetadataVisitor.visit_entry
            { s with client_name := some (mapInsert [] p.1 p.2) }
            (List.map (fun p => (mkLangKey "client_name" p.1, Json.str p.2)) t) : Option MetadataVisitorState)
          = List.foldlM MetadataVisitor.visit_entry { s with client_name := some (mapInsert [] p.1 p.2) }
            (langBlock "client_name" (some t)) from rfl]
      rw [fold_lang_some_client_name _ t (mapInsert [] p.1 p.2) rfl]
      rw [show mapInsert [] p.1 p.2 = [(p.1, p.2)] from rfl]
      have hdisj : ∀ r2 ∈ [(p.1, p.2)], ∀ q ∈ t, r2.1 ≠ q.1 := by
        intro r2 hr q hq
        simp only [List.mem_singleton] at hr
        subst hr
        intro hcontra
        exact hdist.1 ⟨q, hq, hcontra.symm⟩
      rw [foldl_mapInsert_append t [(p.1, p.2)] hdist.2 hdisj]
      rfl

theorem step_lang_logo_uri (s : MetadataVisitorState) (tag : Option LanguageTag) (v : String) :
    MetadataVisitor.visit_entry s (mkLangKey "logo_uri" tag, Json.str v)
      = some { s with logo_uri := some (mapInsert (s.logo_uri.getD []) tag v) } := by
  show MetadataVisitor.visit_entry_core s (split_language_tag_key (mkLangKey "logo_uri" tag)) (Json.str v) = _
  rw [split_mkLangKey "logo_uri" (by decide)]
  rfl

theorem fold_lang_some_logo_uri (s : MetadataVisitorState) (l acc : List (Option LanguageTag × String))
    (hs : s.logo_uri = some acc) :
    List.foldlM MetadataVisitor.visit_entry s (langBlock "logo_uri" (some l))
      = some { s with logo_uri := some (l.foldl (fun a p => mapInsert a p.1 p.2) acc) } := by
  induction l generalizing s acc with
  | nil =>
    simp only [langBlock, List.map_nil, List.foldlM_nil, List.foldl_nil]
    rw [← hs]
    rfl
  | cons p l ih =>
    simp only [langBlock, List.map_cons, List.foldlM_cons]
    rw [step_lang_logo_uri, hs]
    simp only [Option.getD_some, Option.bind_eq_bind, Option.some_bind]
    rw [show (List.foldlM MetadataVisitor.visit_entry { s with logo_uri := some (mapInsert acc p.1 p.2) }
          (List.map (fun p => (mkLangKey "logo_uri" p.1, Json.str p.2)) l) : Option MetadataVisitorState)
        = List.foldlM MetadataVisitor.visit_entry { s with logo_uri := some (mapInsert acc p.1 p.2) }
          (langBlock "logo_uri" (some l)) from rfl]
    rw [ih _ _ rfl]
    rfl

theorem fold_block_logo_uri (s : MetadataVisitorState) (o : Option (List (Option LanguageTag × String)))
    (ho : o ≠ some []) (hdist : ((o.getD []).map Prod.fst).Nodup) (hs : s.logo_uri = none) :
    List.foldlM MetadataVisitor.visit_entry s (langBlock "logo_uri" o)
      = some { s with logo_uri := o } := by
  cases o with
  | none =>
    show some s = _
    cases s
    simp only at hs
    rw [hs]
  | some l =>
    cases l with
    | nil => exact absurd rfl ho
    | cons p t =>
      simp only [List.map_cons, List.nodup_cons, List.mem_map, Option.getD_some] at hdist
      simp only [langBlock, List.map_cons, List.foldlM_cons]
      rw [step_lang_logo_uri, hs]
      simp only [Option.getD_none, Option.bind_eq_bind, Option.some_bind]
      rw [show (List.foldlM MetadataVisitor.visit_entry
            { s with logo_uri := some (mapInsert [] p.1 p.2) }
            (List.map (fun p => (mkLangKey "logo_uri" p.1, Json.str p.2)) t) : Option MetadataVisitorState)
          = List.foldlM MetadataVisitor.visit_entry { s with logo_uri := some (mapInsert [] p.1 p.2) }
            (langBlock "logo_uri" (some t)) from rfl]
      rw [fold_lang_some_logo_uri _ t (mapInsert [] p.1 p.2) rfl]
      rw [show mapInsert [] p.1 p.2 = [(p.1, p.2)] from rfl]
      have hdisj : ∀ r2 ∈ [(p.1, p.2)], ∀ q ∈ t, r2.1 ≠ q.1 := by
        intro r2 hr q hq
        simp only [List.mem_singleton] at hr
        subst hr
        intro hcontra
        exact hdist.1 ⟨q, hq, hcontra.symm⟩
      rw [foldl_mapInsert_append t [(p.1, p.2)] hdist.2 hdisj]
      rfl

theorem step_lang_client_uri (s : MetadataVisitorState) (tag : Option LanguageTag) (v : String) :
    MetadataVisitor.visit_entry s (mkLangKey "client_uri" tag, Json.str v)
      = some { s with client_uri := some (mapInsert (s.client_uri.getD []) tag v) } := by
  show MetadataVisitor.visit_entry_core s (split_language_tag_key (mkLangKey "client_uri" tag)) (Json.str v) = _
  rw [split_mkLangKey "client_uri" (by decide)]
  rfl

theorem fold_lang_some_client_uri (s : MetadataVisitorState) (l acc : List (Option LanguageTag × String))
    (hs : s.client_uri = some acc) :
    List.foldlM MetadataVisitor.visit_entry s (langBlock "client_uri" (some l))
      = some { s with client_uri := some (l.foldl (fun a p => mapInsert a p.1 p.2) acc) } := by
  induction l generalizing s acc with
  | nil =>
    simp only [langBlock, List.map_nil, List.foldlM_nil, List.foldl_nil]
    rw [← hs]
    rfl
  | cons p l ih =>
    simp only [langBlock, List.map_cons, List.foldlM_cons]
    rw [step_lang_client_uri, hs]
    simp only [Option.getD_some, Option.bind_eq_bind, Option.some_bind]
    rw [show (List.foldlM MetadataVisitor.visit_entry { s with client_uri := some (mapInsert acc p.1 p.2) }
          (List.map (fun p => (mkLangKey "client_uri" p.1, Json.str p.2)) l) : Option MetadataVisitorState)
        = List.foldlM MetadataVisitor.visit_entry { s with client_uri := some (mapInsert acc p.1 p.2) }
          (langBlock "client_uri" (some l)) from rfl]
    rw [ih _ _ rfl]
    rfl

theorem fold_block_client_uri (s : MetadataVisitorState) (o : Option (List (Option LanguageTag × String)))
    (ho : o ≠ some []) (hdist : ((o.getD []).map Prod.fst).Nodup) (hs : s.client_uri = none) :
    List.foldlM MetadataVisitor.visit_entry s (langBlock "client_uri" o)
      = some { s with client_uri := o } := by
  cases o with
  | none =>
    show some s = _
    cases s
    simp only at hs
    rw [hs]
  | some l =>
    cases l with
    | nil => exact absurd rfl ho
    | cons p t =>
      simp only [List.map_cons, List.nodup_cons, List.mem_map, Option.getD_some] at hdist
      simp only [langBlock, List.map_cons, List.foldlM_cons]
      rw [step_lang_client_uri, hs]
      simp only [Option.getD_none, Option.bind_eq_bind, Option.some_bind]
      rw [show (List.foldlM MetadataVisitor.visit_entry
            { s with client_uri := some (mapInsert [] p.1 p.2) }
            (List.map (fun p => (mkLangKey "client_uri" p.1, Json.str p.2)) t) : Option MetadataVisitorState)
          = List.foldlM MetadataVisitor.visit_entry { s with client_uri := some (mapInsert [] p.1 p.2) }
            (langBlock "client_uri" (some t)) from rfl]
      rw [fold_lang_some_client_uri _ t (mapInsert [] p.1 p.2) rfl]
      rw [show mapInsert [] p.1 p.2 = [(p.1, p.2)] from rfl]
      have hdisj : ∀ r2 ∈ [(p.1, p.2)], ∀ q ∈ t, r2.1 ≠ q.1 := by
        intro r2 hr q hq
        simp only [List.mem_singleton] at hr
        subst hr
        intro hcontra
        exact hdist.1 ⟨q, hq, hcontra.symm⟩
      rw [foldl_mapInsert_append t [(p.1, p.2)] hdist.2 hdisj]
      rfl

theorem step_lang_policy_uri (s : MetadataVisitorState) (tag : Option LanguageTag) (v : String) :
    MetadataVisitor.visit_entry s (mkLangKey "policy_uri" tag, Json.str v)
      = some { s with policy_uri := some (mapInsert (s.policy_uri.getD []) tag v) } := by
  show MetadataVisitor.visit_entry_core s (split_language_tag_key (mkLangKey "policy_uri" tag)) (Json.str v) = _
  rw [split_mkLangKey "policy_uri" (by decide)]
  rfl

theorem fold_lang_some_policy_uri (s : MetadataVisitorState) (l acc : List (Option LanguageTag × String))
    (hs : s.policy_uri = some acc) :
    List.foldlM MetadataVisitor.visit_entry s (langBlock "policy_uri" (some l))
      = some { s with policy_uri := some (l.foldl (fun a p => mapInsert a p.1 p.2) acc) } := by
  induction l generalizing s acc with
  | nil =>
    simp only [langBlock, List.map_nil, List.foldlM_nil, List.foldl_nil]
    rw [← hs]
    rfl
  | cons p l ih =>
    simp only [langBlock, List.map_cons, List.foldlM_cons]
    rw [step_lang_policy_uri, hs]
    simp only [Option.getD_some, Option.bind_eq_bind, Option.some_bind]
    rw [show (List.foldlM MetadataVisitor.visit_entry { s with policy_uri := some (mapInsert acc p.1 p.2) }
          (List.map (fun p => (mkLangKey "policy_uri" p.1, Json.str p.2)) l) : Option MetadataVisitorState)
        = List.foldlM MetadataVisitor.visit_entry { s with policy_uri := some (mapInsert acc p.1 p.2) }
          (langBlock "policy_uri" (some l)) from rfl]
    rw [ih _ _ rfl]
    rfl

theorem fold_block_policy_uri (s : MetadataVisitorState) (o : Option (List (Option LanguageTag × String)))
    (ho : o ≠ some []) (hdist : ((o.getD []).map Prod.fst).Nodup) (hs : s.policy_uri = none) :
    List.foldlM MetadataVisitor.visit_entry s (langBlock "policy_uri" o)
      = some { s with policy_uri := o } := by
  cases o with
  | none =>
    show some s = _
    cases s
    simp only at hs
    rw [hs]
  | some l =>
    cases l with
    | nil => exact absurd rfl ho
    | cons p t =>
      simp only [List.map_cons, List.nodup_cons, List.mem_map, Option.getD_some] at hdist
      simp only [langBlock, List.map_cons, List.foldlM_cons]
      rw [step_lang_policy_uri, hs]
      simp only [Option.getD_none, Option.bind_eq_bind, Option.some_bind]
      rw [show (List.foldlM MetadataVisitor.visit_entry
            { s with policy_uri := some (mapInsert [] p.1 p.2) }
            (List.map (fun p => (mkLangKey "policy_uri" p.1, Json.str p.2)) t) : Option MetadataVisitorState)
          = List.foldlM MetadataVisitor.visit_entry { s with policy_uri := some (mapInsert [] p.1 p.2) }
            (langBlock "policy_uri" (some t)) from rfl]
      rw [fold_lang_some_policy_uri _ t (mapInsert [] p.1 p.2) rfl]
      rw [show mapInsert [] p.1 p.2 = [(p.1, p.2)] from rfl]
      have hdisj : ∀ r2 ∈ [(p.1, p.2)], ∀ q ∈ t, r2.1 ≠ q.1 := by
        intro r2 hr q hq
        simp only [List.mem_singleton] at hr
        subst hr
        intro hcontra
        exact hdist.1 ⟨q, hq, hcontra.symm⟩
      rw [foldl_mapInsert_append t [(p.1, p.2)] hdist.2 hdisj]
      rfl

theorem step_lang_tos_uri (s : MetadataVisitorState) (tag : Option LanguageTag) (v : String) :
    MetadataVisitor.visit_entry s (mkLangKey "tos_uri" tag, Json.str v)
      = some { s with tos_uri := some (mapInsert (s.tos_uri.getD []) tag v) } := by
  show MetadataVisitor.visit_entry_core s (split_language_tag_key (mkLangKey "tos_uri" tag)) (Json.str v) = _
  rw [split_mkLangKey "tos_uri" (by decide)]
  rfl

theorem fold_lang_some_tos_uri (s : MetadataVisitorState) (l acc : List (Option LanguageTag × String))
    (hs : s.tos_uri = some acc) :
    List.foldlM MetadataVisitor.visit_entry s (langBlock "tos_uri" (some l))
      = some { s with tos_uri := some (l.foldl (fun a p => mapInsert a p.1 p.2) acc) } := by
  induction l generalizing s acc with
  | nil =>
    simp only [langBlock, List.map_nil, List.foldlM_nil, List.foldl_nil]
    rw [← hs]
    rfl
  | cons p l ih =>
    simp only [langBlock, List.map_cons, List.foldlM_cons]
    rw [step_lang_tos_uri, hs]
    simp only [Option.getD_some, Option.bind_eq_bind, Option.some_bind]
    rw [show (List.foldlM MetadataVisitor.visit_entry { s with tos_uri := some (mapInsert acc p.1 p.2) }
          (List.map (fun p => (mkLangKey "tos_uri" p.1, Json.str p.2)) l) : Option MetadataVisitorState)
        = List.foldlM MetadataVisitor.visit_entry { s with tos_uri := some (mapInsert acc p.1 p.2) }
          (langBlock "tos_uri" (some l)) from rfl]
    rw [ih _ _ rfl]
    rfl

theorem fold_block_tos_uri (s : MetadataVisitorState) (o : Option (List (Option LanguageTag × String)))
    (ho : o ≠ some []) (hdist : ((o.getD []).map Prod.fst).Nodup) (hs : s.tos_uri = none) :
    List.foldlM MetadataVisitor.visit_entry s (langBlock "tos_uri" o)
      = some { s with tos_uri := o } := by
  cases o with
  | none =>
    show some s = _
    cases s
    simp only at hs
    rw [hs]
  | some l =>
    cases l with
    | nil => exact absurd rfl ho
    | cons p t =>
      simp only [List.map_cons, List.nodup_cons, List.mem_map, Option.getD_some] at hdist
      simp only [langBlock, List.map_cons, List.foldlM_cons]
      rw [step_lang_tos_uri, hs]
      simp only [Option.getD_none, Option.bind_eq_bind, Option.some_bind]
      rw [show (List.foldlM MetadataVisitor.visit_entry
            { s with tos_uri := some (mapInsert [] p.1 p.2) }
            (List.map (fun p => (mkLangKey "tos_uri" p.1, Json.str p.2)) t) : Option MetadataVisitorState)
          = List.foldlM MetadataVisitor.visit_entry { s with tos_uri := some (mapInsert [] p.1 p.2) }
            (langBlock "tos_uri" (some t)) from rfl]
      rw [fold_lang_some_tos_uri _ t (mapInsert [] p.1 p.2) rfl]
      rw [show mapInsert [] p.1 p.2 = [(p.1, p.2)] from rfl]
      have hdisj : ∀ r2 ∈ [(p.1, p.2)], ∀ q ∈ t, r2.1 ≠ q.1 := by
        intro r2 hr q hq
        simp only [List.mem_singleton] at hr
        subst hr
        intro hcontra
        exact hdist.1 ⟨q, hq, hcontra.symm⟩
      rw [foldl_mapInsert_append t [(p.1, p.2)] hdist.2 hdisj]
      rfl

theorem fold_block_jwks_uri (s : MetadataVisitorState) (o : Option JsonWebKeySetUrl) (hs : s.jwks_uri = none) :
    List.foldlM MetadataVisitor.visit_entry s (optBlock "jwks_uri" (Option.map Json.str o))
      = some { s with jwks_uri := o } := by
  cases o with
  | none =>
    show some s = _
    cases s
    simp only at hs
    rw [hs]
  | some v => rfl

theorem fold_block_jwks (s : MetadataVisitorState) (o : Option JsonWebKeySet) (hs : s.jwks = none) :
    List.foldlM MetadataVisitor.visit_entry s (optBlock "jwks" (Option.map encJwks o))
      = some { s with jwks := o } := by
  cases o with
  | none =>
    show some s = _
    cases s
    simp only at hs
    rw [hs]
  | some v =>
    show (MetadataVisitor.visit_entry s ("jwks", encJwks v)).bind _ = _
    rw [show MetadataVisitor.visit_entry s ("jwks", encJwks v)
        = (decJwks (encJwks v)).map (fun x => { s with jwks := some x }) from rfl]
    rw [decJwks_encJwks]
    rfl

theorem fold_block_sector_identifier_uri (s : MetadataVisitorState) (o : Option SectorIdentifierUrl) (hs : s.sector_identifier_uri = none) :
    List.foldlM MetadataVisitor.visit_entry s (optBlock "sector_identifier_uri" (Option.map Json.str o))
      = some { s with sector_identifier_uri := o } := by
  cases o with
  | none =>
    show some s = _
    cases s
    simp only at hs
    rw [hs]
  | some v => rfl

theorem fold_block_subject_type (s : MetadataVisitorState) (o : Option SubjectIdentifierType) (hs : s.subject_type = none) :
    List.foldlM MetadataVisitor.visit_entry s (optBlock "subject_type" (Option.map Json.str o))
      = some { s with subject_type := o } := by
  cases o with
  | none =>
    show some s = _
    cases s
    simp only at hs
    rw [hs]
  | some v => rfl

theorem fold_block_id_token_signed_response_alg (s : MetadataVisitorState) (o : Option JwsSigningAlgorithm) (hs : s.id_token_signed_response_alg = none) :
    List.foldlM MetadataVisitor.visit_entry s (optBlock "id_token_signed_response_alg" (Option.map Json.str o))
      = some { s with id_token_signed_response_alg := o } := by
  cases o with
  | none =>
    show some s = _
    cases s
    simp only at hs
    rw [hs]
  | some v => rfl

theorem fold_block_id_token_encrypted_response_alg (s : MetadataVisitorState) (o : Option JweKeyManagementAlgorithm) (hs : s.id_token_encrypted_response_alg = none) :
    List.foldlM MetadataVisitor.visit_entry s (optBlock "id_token_encrypted_response_alg" (Option.map Json.str o))
      = some { s with id_token_encrypted_response_alg := o } := by
  cases o with
  | none =>
    show some s = _
    cases s
    simp only at hs
    rw [hs]
  | some v => rfl

theorem fold_block_id_token_encrypted_response_enc (s : MetadataVisitorState) (o : Option JweContentEncryptionAlgorithm) (hs : s.id_token_encrypted_response_enc = none) :
    List.foldlM MetadataVisitor.visit_entry s (optBlock "id_token_encrypted_response_enc" (Option.map Json.str o))
      = some { s with id_token_encrypted_response_enc := o } := by
  cases o with
  | none =>
    show some s = _
    cases s
    simp only at hs
    rw [hs]
  | some v => rfl

theorem fold_block_userinfo_signed_response_alg (s : MetadataVisitorState) (o : Option JwsSigningAlgorithm) (hs : s.userinfo_signed_response_alg = none) :
    List.foldlM MetadataVisitor.visit_entry s (optBlock "userinfo_signed_response_alg" (Option.map Json.str o))
      = some { s with userinfo_signed_response_alg := o } := by
  cases o with
  | none =>
    show some s = _
    cases s
    simp only at hs
    rw [hs]
  | some v => rfl

theorem fold_block_userinfo_encrypted_response_alg (s : MetadataVisitorState) (o : Option JweKeyManagementAlgorithm) (hs : s.userinfo_encrypted_response_alg = none) :
    List.foldlM MetadataVisitor.visit_entry s (optBlock "userinfo_encrypted_response_alg" (Option.map Json.str o))
      = some { s with userinfo_encrypted_response_alg := o } := by
  cases o with
  | none =>
    show some s = _
    cases s
    simp only at hs
    rw [hs]
  | some v => rfl

theorem fold_block_userinfo_encrypted_response_enc (s : MetadataVisitorState) (o : Option JweContentEncryptionAlgorithm) (hs : s.userinfo_encrypted_response_enc = none) :
    List.foldlM MetadataVisitor.visit_entry s (optBlock "userinfo_encrypted_response_enc" (Option.map Json.str o))
      = some { s with userinfo_encrypted_response_enc := o } := by
  cases o with
  | none =>
    show some s = _
    cases s
    simp only at hs
    rw [hs]
  | some v => rfl

theorem fold_block_request_object_signing_alg (s : MetadataVisitorState) (o : Option JwsSigningAlgorithm) (hs : s.request_object_signing_alg = none) :
    List.foldlM MetadataVisitor.visit_entry s (optBlock "request_object_signing_alg" (Option.map Json.str o))
      = some { s with request_object_signing_alg := o } := by
  cases o with
  | none =>
    show some s = _
    cases s
    simp only at hs
    rw [hs]
  | some v => rfl

theorem fold_block_request_object_encryption_alg (s : MetadataVisitorState) (o : Option JweKeyManagementAlgorithm) (hs : s.request_object_encryption_alg = none) :
    List.foldlM MetadataVisitor.visit_entry s (optBlock "request_object_encryption_alg" (Option.map Json.str o))
      = some { s with request_object_encryption_alg := o } := by
  cases o with
  | none =>
    show some s = _
    cases s
    simp only at hs
    rw [hs]
  | some v => rfl

theorem fold_block_request_object_encryption_enc (s : MetadataVisitorState) (o : Option JweContentEncryptionAlgorithm) (hs : s.request_object_encryption_enc = none) :
    List.foldlM MetadataVisitor.visit_entry s (optBlock "request_object_encryption_enc" (Option.map Json.str o))
      = some { s with request_object_encryption_enc := o } := by
  cases o with
  | none =>
    show some s = _
    cases s
    simp only at hs
    rw [hs]
  | some v => rfl

theorem fold_block_token_endpoint_auth_method (s : MetadataVisitorState) (o : Option ClientAuthMethod) (hs : s.token_endpoint_auth_method = none) :
    List.foldlM MetadataVisitor.visit_entry s (optBlock "token_endpoint_auth_method" (Option.map Json.str o))
      = some { s with token_endpoint_auth_method := o } := by
  cases o with
  | none =>
    show some s = _
    cases s
    simp only at hs
    rw [hs]
  | some v => rfl

theorem fold_block_token_endpoint_auth_signing_alg (s : MetadataVisitorState) (o : Option JwsSigningAlgorithm) (hs : s.token_endpoint_auth_signing_alg = none) :
    List.foldlM MetadataVisitor.visit_entry s (optBlock "token_endpoint_auth_signing_alg" (Option.map Json.str o))
      = some { s with token_endpoint_auth_signing_alg := o } := by
  cases o with
  | none =>
    show some s = _
    cases s
    simp only at hs
    rw [hs]
  | some v => rfl

theorem fold_block_default_max_age (s : MetadataVisitorState) (o : Option Duration) (hs : s.default_max_age = none) :
    List.foldlM MetadataVisitor.visit_entry s (optBlock "default_max_age" (Option.map Json.num o))
      = some { s with default_max_age := o } := by
  cases o with
  | none =>
    show some s = _
    cases s
    simp only at hs
    rw [hs]
  | some v => rfl

theorem fold_block_require_auth_time (s : MetadataVisitorState) (o : Option Bool) (hs : s.require_auth_time = none) :
    List.foldlM MetadataVisitor.visit_entry s (optBlock "require_auth_time" (Option.map Json.bool o))
      = some { s with require_auth_time := o } := by
  cases o with
  | none =>
    show some s = _
    cases s
    simp only at hs
    rw [hs]
  | some v => rfl

theorem fold_block_default_acr_values (s : MetadataVisitorState) (o : Option (List AuthenticationContextClass)) (hs : s.default_acr_values = none) :
    List.foldlM MetadataVisitor.visit_entry s (optBlock "default_acr_values" (Option.map encStrList o))
      = some { s with default_acr_values := o } := by
  cases o with
  | none =>
    show some s = _
    cases s
    simp only at hs
    rw [hs]
  | some v =>
    show (MetadataVisitor.visit_entry s ("default_acr_values", encStrList v)).bind _ = _
    rw [show MetadataVisitor.visit_entry s ("default_acr_values", encStrList v)
        = (decStrList (encStrList v)).map (fun x => { s with default_acr_values := some x }) from rfl]
    rw [decStrList_encStrList]
    rfl

theorem fold_block_initiate_login_uri (s : MetadataVisitorState) (o : Option InitiateLoginUrl) (hs : s.initiate_login_uri = none) :
    List.foldlM MetadataVisitor.visit_entry s (optBlock "initiate_login_uri" (Option.map Json.str o))
      = some { s with initiate_login_uri := o } := by
  cases o with
  | none =>
    show some s = _
    cases s
    simp only at hs
    rw [hs]
  | some v => rfl

theorem fold_block_request_uris (s : MetadataVisitorState) (o : Option (List RequestUrl)) (hs : s.request_uris = none) :
    List.foldlM MetadataVisitor.visit_entry s (optBlock "request_uris" (Option.map encStrList o))
      = some { s with request_uris := o } := by
  cases o with
  | none =>
    show some s = _
    cases s
    simp only at hs
    rw [hs]
  | some v =>
    show (MetadataVisitor.visit_entry s ("request_uris", encStrList v)).bind _ = _
    rw [show MetadataVisitor.visit_entry s ("request_uris", encStrList v)
        = (decStrList (encStrList v)).map (fun x => { s with request_uris := some x }) from rfl]
    rw [decStrList_encStrList]
    rfl

/-! ## The serializer and deserializer round-trip -/

theorem serialize_roundtrip (m : Registration10ClientMetadata)
    (h_client_name_nodup : ((m.client_name.getD []).map Prod.fst).Nodup)
    (h_logo_uri_nodup : ((m.logo_uri.getD []).map Prod.fst).Nodup)
    (h_client_uri_nodup : ((m.client_uri.getD []).map Prod.fst).Nodup)
    (h_policy_uri_nodup : ((m.policy_uri.getD []).map Prod.fst).Nodup)
    (h_tos_uri_nodup : ((m.tos_uri.getD []).map Prod.fst).Nodup)
    (h_client_name_ne : m.client_name ≠ some [])
    (h_logo_uri_ne : m.logo_uri ≠ some [])
    (h_client_uri_ne : m.client_uri ≠ some [])
    (h_policy_uri_ne : m.policy_uri ≠ some [])
    (h_tos_uri_ne : m.tos_uri ≠ some [])
    :
    Registration10ClientMetadata.deserialize (Registration10ClientMetadata.serialize m)
      = some m := by
  unfold Registration10ClientMetadata.deserialize MetadataVisitor.visit_map
    Registration10ClientMetadata.serialize
  simp only [List.append_assoc]
  rw [List.foldlM_append, fold_block_redirect_uris]
  simp only [Option.bind_eq_bind, Option.some_bind]
  rw [List.foldlM_append, fold_block_response_types _ _ rfl]
  simp only [Option.bind_eq_bind, Option.some_bind]
  rw [List.foldlM_append, fold_block_grant_types _ _ rfl]
  simp only [Option.bind_eq_bind, Option.some_bind]
  rw [List.foldlM_append, fold_block_application_type _ _ rfl]
  simp only [Option.bind_eq_bind, Option.some_bind]
  rw [List.foldlM_append, fold_block_contacts _ _ rfl]
  simp only [Option.bind_eq_bind, Option.some_bind]
  rw [List.foldlM_append, fold_block_client_name _ _ h_client_name_ne h_client_name_nodup rfl]
  simp only [Option.bind_eq_bind, Option.some_bind]
  rw [List.foldlM_append, fold_block_logo_uri _ _ h_logo_uri_ne h_logo_uri_nodup rfl]
  simp only [Option.bind_eq_bind, Option.some_bind]
  rw [List.foldlM_append, fold_block_client_uri _ _ h_client_uri_ne h_client_uri_nodup rfl]
  simp only [Option.bind_eq_bind, Option.some_bind]
  rw [List.foldlM_append, fold_block_policy_uri _ _ h_policy_uri_ne h_policy_uri_nodup rfl]
  simp only [Option.bind_eq_bind, Option.some_bind]
  rw [List.foldlM_append, fold_block_tos_uri _ _ h_tos_uri_ne h_tos_uri_nodup rfl]
  simp only [Option.bind_eq_bind, Option.some_bind]
  rw [List.foldlM_append, fold_block_jwks_uri _ _ rfl]
  simp only [Option.bind_eq_bind, Option.some_bind]
  rw [List.foldlM_append, fold_block_jwks _ _ rfl]
  simp only [Option.bind_eq_bind, Option.some_bind]
  rw [List.foldlM_append, fold_block_sector_identifier_uri _ _ rfl]
  simp only [Option.bind_eq_bind, Option.some_bind]
  rw [List.foldlM_append, fold_block_subject_type _ _ rfl]
  simp only [Option.bind_eq_bind, Option.some_bind]
  rw [List.foldlM_append, fold_block_id_token_signed_response_alg _ _ rfl]
  simp only [Option.bind_eq_bind, Option.some_bind]
  rw [List.foldlM_append, fold_block_id_token_encrypted_response_alg _ _ rfl]
  simp only [Option.bind_eq_bind, Option.some_bind]
  rw [List.foldlM_append, fold_block_id_token_encrypted_response_enc _ _ rfl]
  simp only [Option.bind_eq_bind, Option.some_bind]
  rw [List.foldlM_append, fold_block_userinfo_signed_response_alg _ _ rfl]
  simp only [Option.bind_eq_bind, Option.some_bind]
  rw [List.foldlM_append, fold_block_userinfo_encrypted_response_alg _ _ rfl]
  simp only [Option.bind_eq_bind, Option.some_bind]
  rw [List.foldlM_append, fold_block_userinfo_encrypted_response_enc _ _ rfl]
  simp only [Option.bind_eq_bind, Option.some_bind]
  rw [List.foldlM_append, fold_block_request_object_signing_alg _ _ rfl]
  simp only [Option.bind_eq_bind, Option.some_bind]
  rw [List.foldlM_append, fold_block_request_object_encryption_alg _ _ rfl]
  simp only [Option.bind_eq_bind, Option.some_bind]
  rw [List.foldlM_append, fold_block_request_object_encryption_enc _ _ rfl]
  simp only [Option.bind_eq_bind, Option.some_bind]
  rw [List.foldlM_append, fold_block_token_endpoint_auth_method _ _ rfl]
  simp only [Option.bind_eq_bind, Option.some_bind]
  rw [List.foldlM_append, fold_block_token_endpoint_auth_signing_alg _ _ rfl]
  simp only [Option.bind_eq_bind, Option.some_bind]
  rw [List.foldlM_append, fold_block_default_max_age _ _ rfl]
  simp only [Option.bind_eq_bind, Option.some_bind]
  rw [List.foldlM_append, fold_block_require_auth_time _ _ rfl]
  simp only [Option.bind_eq_bind, Option.some_bind]
  rw [List.foldlM_append, fold_block_default_acr_values _ _ rfl]
  simp only [Option.bind_eq_bind, Option.some_bind]
  rw [List.foldlM_append, fold_block_initiate_login_uri _ _ rfl]
  simp only [Option.bind_eq_bind, Option.some_bind]
  rw [fold_block_request_uris _ _ rfl]
  simp only [Option.bind_eq_bind, Option.some_bind]
  rfl

theorem langBlock_perm (nm : String) (a b : Option (List (Option LanguageTag × String)))
    (h : LangMapPerm a b) : (langBlock nm a).Perm (langBlock nm b) := by
  cases a with
  | none =>
    cases b with
    | none => exact List.Perm.refl _
    | some l => exact False.elim h
  | some l =>
    cases b with
    | none => exact False.elim h
    | some l2 => exact List.Perm.map _ h

theorem serialize_perm (m m2 : Registration10ClientMetadata) (h : SerializeEquiv m m2) :
    (Registration10ClientMetadata.serialize m).Perm
      (Registration10ClientMetadata.serialize m2) := by
  unfold SerializeEquiv at h
  obtain ⟨h1, h2, h3, h4, h5, h6, h7, h8, h9, h10, h11, h12, h13, h14, h15, h16, h17, h18, h19, h20, h21, h22, h23, h24, h25, h26, h27, h28, h29, h30⟩ := h
  unfold Registration10ClientMetadata.serialize
  rw [h1, h2, h3, h4, h5, h11, h12, h13, h14, h15, h16, h17, h18, h19, h20, h21, h22, h23, h24, h25, h26, h27, h28, h29, h30]
  exact ((((((((((((((((((((((((((((((List.Perm.refl _).append (List.Perm.refl _)).append (List.Perm.refl _)).append (List.Perm.refl _)).append (List.Perm.refl _)).append (langBlock_perm "client_name" _ _ h6)).append (langBlock_perm "logo_uri" _ _ h7)).append (langBlock_perm "client_uri" _ _ h8)).append (langBlock_perm "policy_uri" _ _ h9)).append (langBlock_perm "tos_uri" _ _ h10)).append (List.Perm.refl _)).append (List.Perm.refl _)).append (List.Perm.refl _)).append (List.Perm.refl _)).append (List.Perm.refl _)).append (List.Perm.refl _)).append (List.Perm.refl _)).append (List.Perm.refl _)).append (List.Perm.refl _)).append (List.Perm.refl _)).append (List.Perm.refl _)).append (List.Perm.refl _)).append (List.Perm.refl _)).append (List.Perm.refl _)).append (List.Perm.refl _)).append (List.Perm.refl _)).append (List.Perm.refl _)).append (List.Perm.refl _)).append (List.Perm.refl _)).append (List.Perm.refl _))

/-! ## Setter frame lemmas -/

theorem set_redirect_uris_spec : ∀ (r : Registration10ClientRegistrationRequest) (v : List RedirectUrl),
    (r.set_redirect_uris v).client_metadata.redirect_uris = v
    ∧ (r.set_redirect_uris v).client_metadata.response_types = r.client_metadata.response_types
    ∧ (r.set_redirect_uris v).client_metadata.grant_types = r.client_metadata.grant_types
    ∧ (r.set_redirect_uris v).client_metadata.application_type = r.client_metadata.application_type
    ∧ (r.set_redirect_uris v).client_metadata.contacts = r.client_metadata.contacts
    ∧ (r.set_redirect_uris v).client_metadata.client_name = r.client_metadata.client_name
    ∧ (r.set_redirect_uris v).client_metadata.logo_uri = r.client_metadata.logo_uri
    ∧ (r.set_redirect_uris v).client_metadata.client_uri = r.client_metadata.client_uri
    ∧ (r.set_redirect_uris v).client_metadata.policy_uri = r.client_metadata.policy_uri
    ∧ (r.set_redirect_uris v).client_metadata.tos_uri = r.client_metadata.tos_uri
    ∧ (r.set_redirect_uris v).client_metadata.jwks_uri = r.client_metadata.jwks_uri
    ∧ (r.set_redirect_uris v).client_metadata.jwks = r.client_metadata.jwks
    ∧ (r.set_redirect_uris v).client_metadata.sector_identifier_uri = r.client_metadata.sector_identifier_uri
    ∧ (r.set_redirect_uris v).client_metadata.subject_type = r.client_metadata.subject_type
    ∧ (r.set_redirect_uris v).client_metadata.id_token_signed_response_alg = r.client_metadata.id_token_signed_response_alg
    ∧ (r.set_redirect_uris v).client_metadata.id_token_encrypted_response_alg = r.client_metadata.id_token_encrypted_response_alg
    ∧ (r.set_redirect_uris v).client_metadata.id_token_encrypted_response_enc = r.client_metadata.id_token_encrypted_response_enc
    ∧ (r.set_redirect_uris v).client_metadata.userinfo_signed_response_alg = r.client_metadata.userinfo_signed_response_alg
    ∧ (r.set_redirect_uris v).client_metadata.userinfo_encrypted_response_alg = r.client_metadata.userinfo_encrypted_response_alg
    ∧ (r.set_redirect_uris v).client_metadata.userinfo_encrypted_response_enc = r.client_metadata.userinfo_encrypted_response_enc
    ∧ (r.set_redirect_uris v).client_metadata.request_object_signing_alg = r.client_metadata.request_object_signing_alg
    ∧ (r.set_redirect_uris v).client_metadata.request_object_encryption_alg = r.client_metadata.request_object_encryption_alg
    ∧ (r.set_redirect_uris v).client_metadata.request_object_encryption_enc = r.client_metadata.request_object_encryption_enc
    ∧ (r.set_redirect_uris v).client_metadata.token_endpoint_auth_method = r.client_metadata.token_endpoint_auth_method
    ∧ (r.set_redirect_uris v).client_metadata.token_endpoint_auth_signing_alg = r.client_metadata.token_endpoint_auth_signing_alg
    ∧ (r.set_redirect_uris v).client_metadata.default_max_age = r.client_metadata.default_max_age
    ∧ (r.set_redirect_uris v).client_metadata.require_auth_time = r.client_metadata.require_auth_time
    ∧ (r.set_redirect_uris v).client_metadata.default_acr_values = r.client_metadata.default_acr_values
    ∧ (r.set_redirect_uris v).client_metadata.initiate_login_uri = r.client_metadata.initiate_login_uri
    ∧ (r.set_redirect_uris v).client_metadata.request_uris = r.client_metadata.request_uris
    ∧ (r.set_redirect_uris v).initial_access_token = r.initial_access_token
    :=
  fun r v => ⟨rfl, rfl, rfl, rfl, rfl, rfl, rfl, rfl, rfl, rfl, rfl, rfl, rfl, rfl, rfl, rfl, rfl, rfl, rfl, rfl, rfl, rfl, rfl, rfl, rfl, rfl, rfl, rfl, rfl, rfl, rfl⟩

theorem set_response_types_spec : ∀ (r : Registration10ClientRegistrationRequest) (v : Option (List ResponseTypes)),
    (r.set_response_types v).client_metadata.response_types = v
    ∧ (r.set_response_types v).client_metadata.redirect_uris = r.client_metadata.redirect_uris
    ∧ (r.set_response_types v).client_metadata.grant_types = r.client_metadata.grant_types
    ∧ (r.set_response_types v).client_metadata.application_type = r.client_metadata.application_type
    ∧ (r.set_response_types v).client_metadata.contacts = r.client_metadata.contacts
    ∧ (r.set_response_types v).client_metadata.client_name = r.client_metadata.client_name
    ∧ (r.set_response_types v).client_metadata.logo_uri = r.client_metadata.logo_uri
    ∧ (r.set_response_types v).client_metadata.client_uri = r.client_metadata.client_uri
    ∧ (r.set_response_types v).client_metadata.policy_uri = r.client_metadata.policy_uri
    ∧ (r.set_response_types v).client_metadata.tos_uri = r.client_metadata.tos_uri
    ∧ (r.set_response_types v).client_metadata.jwks_uri = r.client_metadata.jwks_uri
    ∧ (r.set_response_types v).client_metadata.jwks = r.client_metadata.jwks
    ∧ (r.set_response_types v).client_metadata.sector_identifier_uri = r.client_metadata.sector_identifier_uri
    ∧ (r.set_response_types v).client_metadata.subject_type = r.client_metadata.subject_type
    ∧ (r.set_response_types v).client_metadata.id_token_signed_response_alg = r.client_metadata.id_token_signed_response_alg
    ∧ (r.set_response_types v).client_metadata.id_token_encrypted_response_alg = r.client_metadata.id_token_encrypted_response_alg
    ∧ (r.set_response_types v).client_metadata.id_token_encrypted_response_enc = r.client_metadata.id_token_encrypted_response_enc
    ∧ (r.set_response_types v).client_metadata.userinfo_signed_response_alg = r.client_metadata.userinfo_signed_response_alg
    ∧ (r.set_response_types v).client_metadata.userinfo_encrypted_response_alg = r.client_metadata.userinfo_encrypted_response_alg
    ∧ (r.set_response_types v).client_metadata.userinfo_encrypted_response_enc = r.client_metadata.userinfo_encrypted_response_enc
    ∧ (r.set_response_types v).client_metadata.request_object_signing_alg = r.client_metadata.request_object_signing_alg
    ∧ (r.set_response_types v).client_metadata.request_object_encryption_alg = r.client_metadata.request_object_encryption_alg
    ∧ (r.set_response_types v).client_metadata.request_object_encryption_enc = r.client_metadata.request_object_encryption_enc
    ∧ (r.set_response_types v).client_metadata.token_endpoint_auth_method = r.client_metadata.token_endpoint_auth_method
    ∧ (r.set_response_types v).client_metadata.token_endpoint_auth_signing_alg = r.client_metadata.token_endpoint_auth_signing_alg
    ∧ (r.set_response_types v).client_metadata.default_max_age = r.client_metadata.default_max_age
    ∧ (r.set_response_types v).client_metadata.require_auth_time = r.client_metadata.require_auth_time
    ∧ (r.set_response_types v).client_metadata.default_acr_values = r.client_metadata.default_acr_values
    ∧ (r.set_response_types v).client_metadata.initiate_login_uri = r.client_metadata.initiate_login_uri
    ∧ (r.set_response_types v).client_metadata.request_uris = r.client_metadata.request_uris
    ∧ (r.set_response_types v).initial_access_token = r.initial_access_token
    :=
  fun r v => ⟨rfl, rfl, rfl, rfl, rfl, rfl, rfl, rfl, rfl, rfl, rfl, rfl, rfl, rfl, rfl, rfl, rfl, rfl, rfl, rfl, rfl, rfl, rfl, rfl, rfl, rfl, rfl, rfl, rfl, rfl, rfl⟩

theorem set_grant_types_spec : ∀ (r : Registration10ClientRegistrationRequest) (v : Option (List GrantType)),
    (r.set_grant_types v).client_metadata.grant_types = v
    ∧ (r.set_grant_types v).client_metadata.redirect_uris = r.client_metadata.redirect_uris
    ∧ (r.set_grant_types v).client_metadata.response_types = r.client_metadata.response_types
    ∧ (r.set_grant_types v).client_metadata.application_type = r.client_metadata.application_type
    ∧ (r.set_grant_types v).client_metadata.contacts = r.client_metadata.contacts
    ∧ (r.set_grant_types v).client_metadata.client_name = r.client_metadata.client_name
    ∧ (r.set_grant_types v).client_metadata.logo_uri = r.client_metadata.logo_uri
    ∧ (r.set_grant_types v).client_metadata.client_uri = r.client_metadata.client_uri
    ∧ (r.set_grant_types v).client_metadata.policy_uri = r.client_metadata.policy_uri
    ∧ (r.set_grant_types v).client_metadata.tos_uri = r.client_metadata.tos_uri
    ∧ (r.set_grant_types v).client_metadata.jwks_uri = r.client_metadata.jwks_uri
    ∧ (r.set_grant_types v).client_metadata.jwks = r.client_metadata.jwks
    ∧ (r.set_grant_types v).client_metadata.sector_identifier_uri = r.client_metadata.sector_identifier_uri
    ∧ (r.set_grant_types v).client_metadata.subject_type = r.client_metadata.subject_type
    ∧ (r.set_grant_types v).client_metadata.id_token_signed_response_alg = r.client_metadata.id_token_signed_response_alg
    ∧ (r.set_grant_types v).client_metadata.id_token_encrypted_response_alg = r.client_metadata.id_token_encrypted_response_alg
    ∧ (r.set_grant_types v).client_metadata.id_token_encrypted_response_enc = r.client_metadata.id_token_encrypted_response_enc
    ∧ (r.set_grant_types v).client_metadata.userinfo_signed_response_alg = r.client_metadata.userinfo_signed_response_alg
    ∧ (r.set_grant_types v).client_metadata.userinfo_encrypted_response_alg = r.client_metadata.userinfo_encrypted_response_alg
    ∧ (r.set_grant_types v).client_metadata.userinfo_encrypted_response_enc = r.client_metadata.userinfo_encrypted_response_enc
    ∧ (r.set_grant_types v).client_metadata.request_object_signing_alg = r.client_metadata.request_object_signing_alg
    ∧ (r.set_grant_types v).client_metadata.request_object_encryption_alg = r.client_metadata.request_object_encryption_alg
    ∧ (r.set_grant_types v).client_metadata.request_object_encryption_enc = r.client_metadata.request_object_encryption_enc
    ∧ (r.set_grant_types v).client_metadata.token_endpoint_auth_method = r.client_metadata.token_endpoint_auth_method
    ∧ (r.set_grant_types v).client_metadata.token_endpoint_auth_signing_alg = r.client_metadata.token_endpoint_auth_signing_alg
    ∧ (r.set_grant_types v).client_metadata.default_max_age = r.client_metadata.default_max_age
    ∧ (r.set_grant_types v).client_metadata.require_auth_time = r.client_metadata.require_auth_time
    ∧ (r.set_grant_types v).client_metadata.default_acr_values = r.client_metadata.default_acr_values
    ∧ (r.set_grant_types v).client_metadata.initiate_login_uri = r.client_metadata.initiate_login_uri
    ∧ (r.set_grant_types v).client_metadata.request_uris = r.client_metadata.request_uris
    ∧ (r.set_grant_types v).initial_access_token = r.initial_access_token
    :=
  fun r v => ⟨rfl, rfl, rfl, rfl, rfl, rfl, rfl, rfl, rfl, rfl, rfl, rfl, rfl, rfl, rfl, rfl, rfl, rfl, rfl, rfl, rfl, rfl, rfl, rfl, rfl, rfl, rfl, rfl, rfl, rfl, rfl⟩

theorem set_application_type_spec : ∀ (r : Registration10ClientRegistrationRequest) (v : Option ApplicationType),
    (r.set_application_type v).client_metadata.application_type = v
    ∧ (r.set_application_type v).client_metadata.redirect_uris = r.client_metadata.redirect_uris
    ∧ (r.set_application_type v).client_metadata.response_types = r.client_metadata.response_types
    ∧ (r.set_application_type v).client_metadata.grant_types = r.client_metadata.grant_types
    ∧ (r.set_application_type v).client_metadata.contacts = r.client_metadata.contacts
    ∧ (r.set_application_type v).client_metadata.client_name = r.client_metadata.client_name
    ∧ (r.set_application_type v).client_metadata.logo_uri = r.client_metadata.logo_uri
    ∧ (r.set_application_type v).client_metadata.client_uri = r.client_metadata.client_uri
    ∧ (r.set_application_type v).client_metadata.policy_uri = r.client_metadata.policy_uri
    ∧ (r.set_application_type v).client_metadata.tos_uri = r.client_metadata.tos_uri
    ∧ (r.set_application_type v).client_metadata.jwks_uri = r.client_metadata.jwks_uri
    ∧ (r.set_application_type v).client_metadata.jwks = r.client_metadata.jwks
    ∧ (r.set_application_type v).client_metadata.sector_identifier_uri = r.client_metadata.sector_identifier_uri
    ∧ (r.set_application_type v).client_metadata.subject_type = r.client_metadata.subject_type
    ∧ (r.set_application_type v).client_metadata.id_token_signed_response_alg = r.client_metadata.id_token_signed_response_alg
    ∧ (r.set_application_type v).client_metadata.id_token_encrypted_response_alg = r.client_metadata.id_token_encrypted_response_alg
    ∧ (r.set_application_type v).client_metadata.id_token_encrypted_response_enc = r.client_metadata.id_token_encrypted_response_enc
    ∧ (r.set_application_type v).client_metadata.userinfo_signed_response_alg = r.client_metadata.userinfo_signed_response_alg
    ∧ (r.set_application_type v).client_metadata.userinfo_encrypted_response_alg = r.client_metadata.userinfo_encrypted_response_alg
    ∧ (r.set_application_type v).client_metadata.userinfo_encrypted_response_enc = r.client_metadata.userinfo_encrypted_response_enc
    ∧ (r.set_application_type v).client_metadata.request_object_signing_alg = r.client_metadata.request_object_signing_alg
    ∧ (r.set_application_type v).client_metadata.request_object_encryption_alg = r.client_metadata.request_object_encryption_alg
    ∧ (r.set_application_type v).client_metadata.request_object_encryption_enc = r.client_metadata.request_object_encryption_enc
    ∧ (r.set_application_type v).client_metadata.token_endpoint_auth_method = r.client_metadata.token_endpoint_auth_method
    ∧ (r.set_application_type v).client_metadata.token_endpoint_auth_signing_alg = r.client_metadata.token_endpoint_auth_signing_alg
    ∧ (r.set_application_type v).client_metadata.default_max_age = r.client_metadata.default_max_age
    ∧ (r.set_application_type v).client_metadata.require_auth_time = r.client_metadata.require_auth_time
    ∧ (r.set_application_type v).client_metadata.default_acr_values = r.client_metadata.default_acr_values
    ∧ (r.set_application_type v).client_metadata.initiate_login_uri = r.client_metadata.initiate_login_uri
    ∧ (r.set_application_type v).client_metadata.request_uris = r.client_metadata.request_uris
    ∧ (r.set_application_type v).initial_access_token = r.initial_access_token
    :=
  fun r v => ⟨rfl, rfl, rfl, rfl, rfl, rfl, rfl, rfl, rfl, rfl, rfl, rfl, rfl, rfl, rfl, rfl, rfl, rfl, rfl, rfl, rfl, rfl, rfl, rfl, rfl, rfl, rfl, rfl, rfl, rfl, rfl⟩

theorem set_contacts_spec : ∀ (r : Registration10ClientRegistrationRequest) (v : Option (List ContactEmail)),
    (r.set_contacts v).client_metadata.contacts = v
    ∧ (r.set_contacts v).client_metadata.redirect_uris = r.client_metadata.redirect_uris
    ∧ (r.set_contacts v).client_metadata.response_types = r.client_metadata.response_types
    ∧ (r.set_contacts v).client_metadata.grant_types = r.client_metadata.grant_types
    ∧ (r.set_contacts v).client_metadata.application_type = r.client_metadata.application_type
    ∧ (r.set_contacts v).client_metadata.client_name = r.client_metadata.client_name
    ∧ (r.set_contacts v).client_metadata.logo_uri = r.client_metadata.logo_uri
    ∧ (r.set_contacts v).client_metadata.client_uri = r.client_metadata.client_uri
    ∧ (r.set_contacts v).client_metadata.policy_uri = r.client_metadata.policy_uri
    ∧ (r.set_contacts v).client_metadata.tos_uri = r.client_metadata.tos_uri
    ∧ (r.set_contacts v).client_metadata.jwks_uri = r.client_metadata.jwks_uri
    ∧ (r.set_contacts v).client_metadata.jwks = r.client_metadata.jwks
    ∧ (r.set_contacts v).client_metadata.sector_identifier_uri = r.client_metadata.sector_identifier_uri
    ∧ (r.set_contacts v).client_metadata.subject_type = r.client_metadata.subject_type
    ∧ (r.set_contacts v).client_metadata.id_token_signed_response_alg = r.client_metadata.id_token_signed_response_alg
    ∧ (r.set_contacts v).client_metadata.id_token_encrypted_response_alg = r.client_metadata.id_token_encrypted_response_alg
    ∧ (r.set_contacts v).client_metadata.id_token_encrypted_response_enc = r.client_metadata.id_token_encrypted_response_enc
    ∧ (r.set_contacts v).client_metadata.userinfo_signed_response_alg = r.client_metadata.userinfo_signed_response_alg
    ∧ (r.set_contacts v).client_metadata.userinfo_encrypted_response_alg = r.client_metadata.userinfo_encrypted_response_alg
    ∧ (r.set_contacts v).client_metadata.userinfo_encrypted_response_enc = r.client_metadata.userinfo_encrypted_response_enc
    ∧ (r.set_contacts v).client_metadata.request_object_signing_alg = r.client_metadata.request_object_signing_alg
    ∧ (r.set_contacts v).client_metadata.request_object_encryption_alg = r.client_metadata.request_object_encryption_alg
    ∧ (r.set_contacts v).client_metadata.request_object_encryption_enc = r.client_metadata.request_object_encryption_enc
    ∧ (r.set_contacts v).client_metadata.token_endpoint_auth_method = r.client_metadata.token_endpoint_auth_method
    ∧ (r.set_contacts v).client_metadata.token_endpoint_auth_signing_alg = r.client_metadata.token_endpoint_auth_signing_alg
    ∧ (r.set_contacts v).client_metadata.default_max_age = r.client_metadata.default_max_age
    ∧ (r.set_contacts v).client_metadata.require_auth_time = r.client_metadata.require_auth_time
    ∧ (r.set_contacts v).client_metadata.default_acr_values = r.client_metadata.default_acr_values
    ∧ (r.set_contacts v).client_metadata.initiate_login_uri = r.client_metadata.initiate_login_uri
    ∧ (r.set_contacts v).client_metadata.request_uris = r.client_metadata.request_uris
    ∧ (r.set_contacts v).initial_access_token = r.initial_access_token
    :=
  fun r v => ⟨rfl, rfl, rfl, rfl, rfl, rfl, rfl, rfl, rfl, rfl, rfl, rfl, rfl, rfl, rfl, rfl, rfl, rfl, rfl, rfl, rfl, rfl, rfl, rfl, rfl, rfl, rfl, rfl, rfl, rfl, rfl⟩

theorem set_client_name_spec : ∀ (r : Registration10ClientRegistrationRequest) (v : Option (List (Option LanguageTag × ClientName))),
    (r.set_client_name v).client_metadata.client_name = v
    ∧ (r.set_client_name v).client_metadata.redirect_uris = r.client_metadata.redirect_uris
    ∧ (r.set_client_name v).client_metadata.response_types = r.client_metadata.response_types
    ∧ (r.set_client_name v).client_metadata.grant_types = r.client_metadata.grant_types
    ∧ (r.set_client_name v).client_metadata.application_type = r.client_metadata.application_type
    ∧ (r.set_client_name v).client_metadata.contacts = r.client_metadata.contacts
    ∧ (r.set_client_name v).client_metadata.logo_uri = r.client_metadata.logo_uri
    ∧ (r.set_client_name v).client_metadata.client_uri = r.client_metadata.client_uri
    ∧ (r.set_client_name v).client_metadata.policy_uri = r.client_metadata.policy_uri
    ∧ (r.set_client_name v).client_metadata.tos_uri = r.client_metadata.tos_uri
    ∧ (r.set_client_name v).client_metadata.jwks_uri = r.client_metadata.jwks_uri
    ∧ (r.set_client_name v).client_metadata.jwks = r.client_metadata.jwks
    ∧ (r.set_client_name v).client_metadata.sector_identifier_uri = r.client_metadata.sector_identifier_uri
    ∧ (r.set_client_name v).client_metadata.subject_type = r.client_metadata.subject_type
    ∧ (r.set_client_name v).client_metadata.id_token_signed_response_alg = r.client_metadata.id_token_signed_response_alg
    ∧ (r.set_client_name v).client_metadata.id_token_encrypted_response_alg = r.client_metadata.id_token_encrypted_response_alg
    ∧ (r.set_client_name v).client_metadata.id_token_encrypted_response_enc = r.client_metadata.id_token_encrypted_response_enc
    ∧ (r.set_client_name v).client_metadata.userinfo_signed_response_alg = r.client_metadata.userinfo_signed_response_alg
    ∧ (r.set_client_name v).client_metadata.userinfo_encrypted_response_alg = r.client_metadata.userinfo_encrypted_response_alg
    ∧ (r.set_client_name v).client_metadata.userinfo_encrypted_response_enc = r.client_metadata.userinfo_encrypted_response_enc
    ∧ (r.set_client_name v).client_metadata.request_object_signing_alg = r.client_metadata.request_object_signing_alg
    ∧ (r.set_client_name v).client_metadata.request_object_encryption_alg = r.client_metadata.request_object_encryption_alg
    ∧ (r.set_client_name v).client_metadata.request_object_encryption_enc = r.client_metadata.request_object_encryption_enc
    ∧ (r.set_client_name v).client_metadata.token_endpoint_auth_method = r.client_metadata.token_endpoint_auth_method
    ∧ (r.set_client_name v).client_metadata.token_endpoint_auth_signing_alg = r.client_metadata.token_endpoint_auth_signing_alg
    ∧ (r.set_client_name v).client_metadata.default_max_age = r.client_metadata.default_max_age
    ∧ (r.set_client_name v).client_metadata.require_auth_time = r.client_metadata.require_auth_time
    ∧ (r.set_client_name v).client_metadata.default_acr_values = r.client_metadata.default_acr_values
    ∧ (r.set_client_name v).client_metadata.initiate_login_uri = r.client_metadata.initiate_login_uri
    ∧ (r.set_client_name v).client_metadata.request_uris = r.client_metadata.request_uris
    ∧ (r.set_client_name v).initial_access_token = r.initial_access_token
    :=
  fun r v => ⟨rfl, rfl, rfl, rfl, rfl, rfl, rfl, rfl, rfl, rfl, rfl, rfl, rfl, rfl, rfl, rfl, rfl, rfl, rfl, rfl, rfl, rfl, rfl, rfl, rfl, rfl, rfl, rfl, rfl, rfl, rfl⟩

theorem set_logo_uri_spec : ∀ (r : Registration10ClientRegistrationRequest) (v : Option (List (Option LanguageTag × LogoUrl))),
    (r.set_logo_uri v).client_metadata.logo_uri = v
    ∧ (r.set_logo_uri v).client_metadata.redirect_uris = r.client_metadata.redirect_uris
    ∧ (r.set_logo_uri v).client_metadata.response_types = r.client_metadata.response_types
    ∧ (r.set_logo_uri v).client_metadata.grant_types = r.client_metadata.grant_types
    ∧ (r.set_logo_uri v).client_metadata.application_type = r.client_metadata.application_type
    ∧ (r.set_logo_uri v).client_metadata.contacts = r.client_metadata.contacts
    ∧ (r.set_logo_uri v).client_metadata.client_name = r.client_metadata.client_name
    ∧ (r.set_logo_uri v).client_metadata.client_uri = r.client_metadata.client_uri
    ∧ (r.set_logo_uri v).client_metadata.policy_uri = r.client_metadata.policy_uri
    ∧ (r.set_logo_uri v).client_metadata.tos_uri = r.client_metadata.tos_uri
    ∧ (r.set_logo_uri v).client_metadata.jwks_uri = r.client_metadata.jwks_uri
    ∧ (r.set_logo_uri v).client_metadata.jwks = r.client_metadata.jwks
    ∧ (r.set_logo_uri v).client_metadata.sector_identifier_uri = r.client_metadata.sector_identifier_uri
    ∧ (r.set_logo_uri v).client_metadata.subject_type = r.client_metadata.subject_type
    ∧ (r.set_logo_uri v).client_metadata.id_token_signed_response_alg = r.client_metadata.id_token_signed_response_alg
    ∧ (r.set_logo_uri v).client_metadata.id_token_encrypted_response_alg = r.client_metadata.id_token_encrypted_response_alg
    ∧ (r.set_logo_uri v).client_metadata.id_token_encrypted_response_enc = r.client_metadata.id_token_encrypted_response_enc
    ∧ (r.set_logo_uri v).client_metadata.userinfo_signed_response_alg = r.client_metadata.userinfo_signed_response_alg
    ∧ (r.set_logo_uri v).client_metadata.userinfo_encrypted_response_alg = r.client_metadata.userinfo_encrypted_response_alg
    ∧ (r.set_logo_uri v).client_metadata.userinfo_encrypted_response_enc = r.client_metadata.userinfo_encrypted_response_enc
    ∧ (r.set_logo_uri v).client_metadata.request_object_signing_alg = r.client_metadata.request_object_signing_alg
    ∧ (r.set_logo_uri v).client_metadata.request_object_encryption_alg = r.client_metadata.request_object_encryption_alg
    ∧ (r.set_logo_uri v).client_metadata.request_object_encryption_enc = r.client_metadata.request_object_encryption_enc
    ∧ (r.set_logo_uri v).client_metadata.token_endpoint_auth_method = r.client_metadata.token_endpoint_auth_method
    ∧ (r.set_logo_uri v).client_metadata.token_endpoint_auth_signing_alg = r.client_metadata.token_endpoint_auth_signing_alg
    ∧ (r.set_logo_uri v).client_metadata.default_max_age = r.client_metadata.default_max_age
    ∧ (r.set_logo_uri v).client_metadata.require_auth_time = r.client_metadata.require_auth_time
    ∧ (r.set_logo_uri v).client_metadata.default_acr_values = r.client_metadata.default_acr_values
    ∧ (r.set_logo_uri v).client_metadata.initiate_login_uri = r.client_metadata.initiate_login_uri
    ∧ (r.set_logo_uri v).client_metadata.request_uris = r.client_metadata.request_uris
    ∧ (r.set_logo_uri v).initial_access_token = r.initial_access_token
    :=
  fun r v => ⟨rfl, rfl, rfl, rfl, rfl, rfl, rfl, rfl, rfl, rfl, rfl, rfl, rfl, rfl, rfl, rfl, rfl, rfl, rfl, rfl, rfl, rfl, rfl, rfl, rfl, rfl, rfl, rfl, rfl, rfl, rfl⟩

theorem set_client_uri_spec : ∀ (r : Registration10ClientRegistrationRequest) (v : Option (List (Option LanguageTag × ClientUrl))),
    (r.set_client_uri v).client_metadata.client_uri = v
    ∧ (r.set_client_uri v).client_metadata.redirect_uris = r.client_metadata.redirect_uris
    ∧ (r.set_client_uri v).client_metadata.response_types = r.client_metadata.response_types
    ∧ (r.set_client_uri v).client_metadata.grant_types = r.client_metadata.grant_types
    ∧ (r.set_client_uri v).client_metadata.application_type = r.client_metadata.application_type
    ∧ (r.set_client_uri v).client_metadata.contacts = r.client_metadata.contacts
    ∧ (r.set_client_uri v).client_metadata.client_name = r.client_metadata.client_name
    ∧ (r.set_client_uri v).client_metadata.logo_uri = r.client_metadata.logo_uri
    ∧ (r.set_client_uri v).client_metadata.policy_uri = r.client_metadata.policy_uri
    ∧ (r.set_client_uri v).client_metadata.tos_uri = r.client_metadata.tos_uri
    ∧ (r.set_client_uri v).client_metadata.jwks_uri = r.client_metadata.jwks_uri
    ∧ (r.set_client_uri v).client_metadata.jwks = r.client_metadata.jwks
    ∧ (r.set_client_uri v).client_metadata.sector_identifier_uri = r.client_metadata.sector_identifier_uri
    ∧ (r.set_client_uri v).client_metadata.subject_type = r.client_metadata.subject_type
    ∧ (r.set_client_uri v).client_metadata.id_token_signed_response_alg = r.client_metadata.id_token_signed_response_alg
    ∧ (r.set_client_uri v).client_metadata.id_token_encrypted_response_alg = r.client_metadata.id_token_encrypted_response_alg
    ∧ (r.set_client_uri v).client_metadata.id_token_encrypted_response_enc = r.client_metadata.id_token_encrypted_response_enc
    ∧ (r.set_client_uri v).client_metadata.userinfo_signed_response_alg = r.client_metadata.userinfo_signed_response_alg
    ∧ (r.set_client_uri v).client_metadata.userinfo_encrypted_response_alg = r.client_metadata.userinfo_encrypted_response_alg
    ∧ (r.set_client_uri v).client_metadata.userinfo_encrypted_response_enc = r.client_metadata.userinfo_encrypted_response_enc
    ∧ (r.set_client_uri v).client_metadata.request_object_signing_alg = r.client_metadata.request_object_signing_alg
    ∧ (r.set_client_uri v).client_metadata.request_object_encryption_alg = r.client_metadata.request_object_encryption_alg
    ∧ (r.set_client_uri v).client_metadata.request_object_encryption_enc = r.client_metadata.request_object_encryption_enc
    ∧ (r.set_client_uri v).client_metadata.token_endpoint_auth_method = r.client_metadata.token_endpoint_auth_method
    ∧ (r.set_client_uri v).client_metadata.token_endpoint_auth_signing_alg = r.client_metadata.token_endpoint_auth_signing_alg
    ∧ (r.set_client_uri v).client_metadata.default_max_age = r.client_metadata.default_max_age
    ∧ (r.set_client_uri v).client_metadata.require_auth_time = r.client_metadata.require_auth_time
    ∧ (r.set_client_uri v).client_metadata.default_acr_values = r.client_metadata.default_acr_values
    ∧ (r.set_client_uri v).client_metadata.initiate_login_uri = r.client_metadata.initiate_login_uri
    ∧ (r.set_client_uri v).client_metadata.request_uris = r.client_metadata.request_uris
    ∧ (r.set_client_uri v).initial_access_token = r.initial_access_token
    :=
  fun r v => ⟨rfl, rfl, rfl, rfl, rfl, rfl, rfl, rfl, rfl, rfl, rfl, rfl, rfl, rfl, rfl, rfl, rfl, rfl, rfl, rfl, rfl, rfl, rfl, rfl, rfl, rfl, rfl, rfl, rfl, rfl, rfl⟩

theorem set_policy_uri_spec : ∀ (r : Registration10ClientRegistrationRequest) (v : Option (List (Option LanguageTag × PolicyUrl))),
    (r.set_policy_uri v).client_metadata.policy_uri = v
    ∧ (r.set_policy_uri v).client_metadata.redirect_uris = r.client_metadata.redirect_uris
    ∧ (r.set_policy_uri v).client_metadata.response_types = r.client_metadata.response_types
    ∧ (r.set_policy_uri v).client_metadata.grant_types = r.client_metadata.grant_types
    ∧ (r.set_policy_uri v).client_metadata.application_type = r.client_metadata.application_type
    ∧ (r.set_policy_uri v).client_metadata.contacts = r.client_metadata.contacts
    ∧ (r.set_policy_uri v).client_metadata.client_name = r.client_metadata.client_name
    ∧ (r.set_policy_uri v).client_metadata.logo_uri = r.client_metadata.logo_uri
    ∧ (r.set_policy_uri v).client_metadata.client_uri = r.client_metadata.client_uri
    ∧ (r.set_policy_uri v).client_metadata.tos_uri = r.client_metadata.tos_uri
    ∧ (r.set_policy_uri v).client_metadata.jwks_uri = r.client_metadata.jwks_uri
    ∧ (r.set_policy_uri v).client_metadata.jwks = r.client_metadata.jwks
    ∧ (r.set_policy_uri v).client_metadata.sector_identifier_uri = r.client_metadata.sector_identifier_uri
    ∧ (r.set_policy_uri v).client_metadata.subject_type = r.client_metadata.subject_type
    ∧ (r.set_policy_uri v).client_metadata.id_token_signed_response_alg = r.client_metadata.id_token_signed_response_alg
    ∧ (r.set_policy_uri v).client_metadata.id_token_encrypted_response_alg = r.client_metadata.id_token_encrypted_response_alg
    ∧ (r.set_policy_uri v).client_metadata.id_token_encrypted_response_enc = r.client_metadata.id_token_encrypted_response_enc
    ∧ (r.set_policy_uri v).client_metadata.userinfo_signed_response_alg = r.client_metadata.userinfo_signed_response_alg
    ∧ (r.set_policy_uri v).client_metadata.userinfo_encrypted_response_alg = r.client_metadata.userinfo_encrypted_response_alg
    ∧ (r.set_policy_uri v).client_metadata.userinfo_encrypted_response_enc = r.client_metadata.userinfo_encrypted_response_enc
    ∧ (r.set_policy_uri v).client_metadata.request_object_signing_alg = r.client_metadata.request_object_signing_alg
    ∧ (r.set_policy_uri v).client_metadata.request_object_encryption_alg = r.client_metadata.request_object_encryption_alg
    ∧ (r.set_policy_uri v).client_metadata.request_object_encryption_enc = r.client_metadata.request_object_encryption_enc
    ∧ (r.set_policy_uri v).client_metadata.token_endpoint_auth_method = r.client_metadata.token_endpoint_auth_method
    ∧ (r.set_policy_uri v).client_metadata.token_endpoint_auth_signing_alg = r.client_metadata.token_endpoint_auth_signing_alg
    ∧ (r.set_policy_uri v).client_metadata.default_max_age = r.client_metadata.default_max_age
    ∧ (r.set_policy_uri v).client_metadata.require_auth_time = r.client_metadata.require_auth_time
    ∧ (r.set_policy_uri v).client_metadata.default_acr_values = r.client_metadata.default_acr_values
    ∧ (r.set_policy_uri v).client_metadata.initiate_login_uri = r.client_metadata.initiate_login_uri
    ∧ (r.set_policy_uri v).client_metadata.request_uris = r.client_metadata.request_uris
    ∧ (r.set_policy_uri v).initial_access_token = r.initial_access_token
    :=
  fun r v => ⟨rfl, rfl, rfl, rfl, rfl, rfl, rfl, rfl, rfl, rfl, rfl, rfl, rfl, rfl, rfl, rfl, rfl, rfl, rfl, rfl, rfl, rfl, rfl, rfl, rfl, rfl, rfl, rfl, rfl, rfl, rfl⟩

theorem set_tos_uri_spec : ∀ (r : Registration10ClientRegistrationRequest) (v : Option (List (Option LanguageTag × ToSUrl))),
    (r.set_tos_uri v).client_metadata.tos_uri = v
    ∧ (r.set_tos_uri v).client_metadata.redirect_uris = r.client_metadata.redirect_uris
    ∧ (r.set_tos_uri v).client_metadata.response_types = r.client_metadata.response_types
    ∧ (r.set_tos_uri v).client_metadata.grant_types = r.client_metadata.grant_types
    ∧ (r.set_tos_uri v).client_metadata.application_type = r.client_metadata.application_type
    ∧ (r.set_tos_uri v).client_metadata.contacts = r.client_metadata.contacts
    ∧ (r.set_tos_uri v).client_metadata.client_name = r.client_metadata.client_name
    ∧ (r.set_tos_uri v).client_metadata.logo_uri = r.client_metadata.logo_uri
    ∧ (r.set_tos_uri v).client_metadata.client_uri = r.client_metadata.client_uri
    ∧ (r.set_tos_uri v).client_metadata.policy_uri = r.client_metadata.policy_uri
    ∧ (r.set_tos_uri v).client_metadata.jwks_uri = r.client_metadata.jwks_uri
    ∧ (r.set_tos_uri v).client_metadata.jwks = r.client_metadata.jwks
    ∧ (r.set_tos_uri v).client_metadata.sector_identifier_uri = r.client_metadata.sector_identifier_uri
    ∧ (r.set_tos_uri v).client_metadata.subject_type = r.client_metadata.subject_type
    ∧ (r.set_tos_uri v).client_metadata.id_token_signed_response_alg = r.client_metadata.id_token_signed_response_alg
    ∧ (r.set_tos_uri v).client_metadata.id_token_encrypted_response_alg = r.client_metadata.id_token_encrypted_response_alg
    ∧ (r.set_tos_uri v).client_metadata.id_token_encrypted_response_enc = r.client_metadata.id_token_encrypted_response_enc
    ∧ (r.set_tos_uri v).client_metadata.userinfo_signed_response_alg = r.client_metadata.userinfo_signed_response_alg
    ∧ (r.set_tos_uri v).client_metadata.userinfo_encrypted_response_alg = r.client_metadata.userinfo_encrypted_response_alg
    ∧ (r.set_tos_uri v).client_metadata.userinfo_encrypted_response_enc = r.client_metadata.userinfo_encrypted_response_enc
    ∧ (r.set_tos_uri v).client_metadata.request_object_signing_alg = r.client_metadata.request_object_signing_alg
    ∧ (r.set_tos_uri v).client_metadata.request_object_encryption_alg = r.client_metadata.request_object_encryption_alg
    ∧ (r.set_tos_uri v).client_metadata.request_object_encryption_enc = r.client_metadata.request_object_encryption_enc
    ∧ (r.set_tos_uri v).client_metadata.token_endpoint_auth_method = r.client_metadata.token_endpoint_auth_method
    ∧ (r.set_tos_uri v).client_metadata.token_endpoint_auth_signing_alg = r.client_metadata.token_endpoint_auth_signing_alg
    ∧ (r.set_tos_uri v).client_metadata.default_max_age = r.client_metadata.default_max_age
    ∧ (r.set_tos_uri v).client_metadata.require_auth_time = r.client_metadata.require_auth_time
    ∧ (r.set_tos_uri v).client_metadata.default_acr_values = r.client_metadata.default_acr_values
    ∧ (r.set_tos_uri v).client_metadata.initiate_login_uri = r.client_metadata.initiate_login_uri
    ∧ (r.set_tos_uri v).client_metadata.request_uris = r.client_metadata.request_uris
    ∧ (r.set_tos_uri v).initial_access_token = r.initial_access_token
    :=
  fun r v => ⟨rfl, rfl, rfl, rfl, rfl, rfl, rfl, rfl, rfl, rfl, rfl, rfl, rfl, rfl, rfl, rfl, rfl, rfl, rfl, rfl, rfl, rfl, rfl, rfl, rfl, rfl, rfl, rfl, rfl, rfl, rfl⟩

theorem set_jwks_uri_spec : ∀ (r : Registration10ClientRegistrationRequest) (v : Option JsonWebKeySetUrl),
    (r.set_jwks_uri v).client_metadata.jwks_uri = v
    ∧ (r.set_jwks_uri v).client_metadata.redirect_uris = r.client_metadata.redirect_uris
    ∧ (r.set_jwks_uri v).client_metadata.response_types = r.client_metadata.response_types
    ∧ (r.set_jwks_uri v).client_metadata.grant_types = r.client_metadata.grant_types
    ∧ (r.set_jwks_uri v).client_metadata.application_type = r.client_metadata.application_type
    ∧ (r.set_jwks_uri v).client_metadata.contacts = r.client_metadata.contacts
    ∧ (r.set_jwks_uri v).client_metadata.client_name = r.client_metadata.client_name
    ∧ (r.set_jwks_uri v).client_metadata.logo_uri = r.client_metadata.logo_uri
    ∧ (r.set_jwks_uri v).client_metadata.client_uri = r.client_metadata.client_uri
    ∧ (r.set_jwks_uri v).client_metadata.policy_uri = r.client_metadata.policy_uri
    ∧ (r.set_jwks_uri v).client_metadata.tos_uri = r.client_metadata.tos_uri
    ∧ (r.set_jwks_uri v).client_metadata.jwks = r.client_metadata.jwks
    ∧ (r.set_jwks_uri v).client_metadata.sector_identifier_uri = r.client_metadata.sector_identifier_uri
    ∧ (r.set_jwks_uri v).client_metadata.subject_type = r.client_metadata.subject_type
    ∧ (r.set_jwks_uri v).client_metadata.id_token_signed_response_alg = r.client_metadata.id_token_signed_response_alg
    ∧ (r.set_jwks_uri v).client_metadata.id_token_encrypted_response_alg = r.client_metadata.id_token_encrypted_response_alg
    ∧ (r.set_jwks_uri v).client_metadata.id_token_encrypted_response_enc = r.client_metadata.id_token_encrypted_response_enc
    ∧ (r.set_jwks_uri v).client_metadata.userinfo_signed_response_alg = r.client_metadata.userinfo_signed_response_alg
    ∧ (r.set_jwks_uri v).client_metadata.userinfo_encrypted_response_alg = r.client_metadata.userinfo_encrypted_response_alg
    ∧ (r.set_jwks_uri v).client_metadata.userinfo_encrypted_response_enc = r.client_metadata.userinfo_encrypted_response_enc
    ∧ (r.set_jwks_uri v).client_metadata.request_object_signing_alg = r.client_metadata.request_object_signing_alg
    ∧ (r.set_jwks_uri v).client_metadata.request_object_encryption_alg = r.client_metadata.request_object_encryption_alg
    ∧ (r.set_jwks_uri v).client_metadata.request_object_encryption_enc = r.client_metadata.request_object_encryption_enc
    ∧ (r.set_jwks_uri v).client_metadata.token_endpoint_auth_method = r.client_metadata.token_endpoint_auth_method
    ∧ (r.set_jwks_uri v).client_metadata.token_endpoint_auth_signing_alg = r.client_metadata.token_endpoint_auth_signing_alg
    ∧ (r.set_jwks_uri v).client_metadata.default_max_age = r.client_metadata.default_max_age
    ∧ (r.set_jwks_uri v).client_metadata.require_auth_time = r.client_metadata.require_auth_time
    ∧ (r.set_jwks_uri v).client_metadata.default_acr_values = r.client_metadata.default_acr_values
    ∧ (r.set_jwks_uri v).client_metadata.initiate_login_uri = r.client_metadata.initiate_login_uri
    ∧ (r.set_jwks_uri v).client_metadata.request_uris = r.client_metadata.request_uris
    ∧ (r.set_jwks_uri v).initial_access_token = r.initial_access_token
    :=
  fun r v => ⟨rfl, rfl, rfl, rfl, rfl, rfl, rfl, rfl, rfl, rfl, rfl, rfl, rfl, rfl, rfl, rfl, rfl, rfl, rfl, rfl, rfl, rfl, rfl, rfl, rfl, rfl, rfl, rfl, rfl, rfl, rfl⟩

theorem set_jwks_spec : ∀ (r : Registration10ClientRegistrationRequest) (v : Option JsonWebKeySet),
    (r.set_jwks v).client_metadata.jwks = v
    ∧ (r.set_jwks v).client_metadata.redirect_uris = r.client_metadata.redirect_uris
    ∧ (r.set_jwks v).client_metadata.response_types = r.client_metadata.response_types
    ∧ (r.set_jwks v).client_metadata.grant_types = r.client_metadata.grant_types
    ∧ (r.set_jwks v).client_metadata.application_type = r.client_metadata.application_type
    ∧ (r.set_jwks v).client_metadata.contacts = r.client_metadata.contacts
    ∧ (r.set_jwks v).client_metadata.client_name = r.client_metadata.client_name
    ∧ (r.set_jwks v).client_metadata.logo_uri = r.client_metadata.logo_uri
    ∧ (r.set_jwks v).client_metadata.client_uri = r.client_metadata.client_uri
    ∧ (r.set_jwks v).client_metadata.policy_uri = r.client_metadata.policy_uri
    ∧ (r.set_jwks v).client_metadata.tos_uri = r.client_metadata.tos_uri
    ∧ (r.set_jwks v).client_metadata.jwks_uri = r.client_metadata.jwks_uri
    ∧ (r.set_jwks v).client_metadata.sector_identifier_uri = r.client_metadata.sector_identifier_uri
    ∧ (r.set_jwks v).client_metadata.subject_type = r.client_metadata.subject_type
    ∧ (r.set_jwks v).client_metadata.id_token_signed_response_alg = r.client_metadata.id_token_signed_response_alg
    ∧ (r.set_jwks v).client_metadata.id_token_encrypted_response_alg = r.client_metadata.id_token_encrypted_response_alg
    ∧ (r.set_jwks v).client_metadata.id_token_encrypted_response_enc = r.client_metadata.id_token_encrypted_response_enc
    ∧ (r.set_jwks v).client_metadata.userinfo_signed_response_alg = r.client_metadata.userinfo_signed_response_alg
    ∧ (r.set_jwks v).client_metadata.userinfo_encrypted_response_alg = r.client_metadata.userinfo_encrypted_response_alg
    ∧ (r.set_jwks v).client_metadata.userinfo_encrypted_response_enc = r.client_metadata.userinfo_encrypted_response_enc
    ∧ (r.set_jwks v).client_metadata.request_object_signing_alg = r.client_metadata.request_object_signing_alg
    ∧ (r.set_jwks v).client_metadata.request_object_encryption_alg = r.client_metadata.request_object_encryption_alg
    ∧ (r.set_jwks v).client_metadata.request_object_encryption_enc = r.client_metadata.request_object_encryption_enc
    ∧ (r.set_jwks v).client_metadata.token_endpoint_auth_method = r.client_metadata.token_endpoint_auth_method
    ∧ (r.set_jwks v).client_metadata.token_endpoint_auth_signing_alg = r.client_metadata.token_endpoint_auth_signing_alg
    ∧ (r.set_jwks v).client_metadata.default_max_age = r.client_metadata.default_max_age
    ∧ (r.set_jwks v).client_metadata.require_auth_time = r.client_metadata.require_auth_time
    ∧ (r.set_jwks v).client_metadata.default_acr_values = r.client_metadata.default_acr_values
    ∧ (r.set_jwks v).client_metadata.initiate_login_uri = r.client_metadata.initiate_login_uri
    ∧ (r.set_jwks v).client_metadata.request_uris = r.client_metadata.request_uris
    ∧ (r.set_jwks v).initial_access_token = r.initial_access_token
    :=
  fun r v => ⟨rfl, rfl, rfl, rfl, rfl, rfl, rfl, rfl, rfl, rfl, rfl, rfl, rfl, rfl, rfl, rfl, rfl, rfl, rfl, rfl, rfl, rfl, rfl, rfl, rfl, rfl, rfl, rfl, rfl, rfl, rfl⟩

theorem set_sector_identifier_uri_spec : ∀ (r : Registration10ClientRegistrationRequest) (v : Option SectorIdentifierUrl),
    (r.set_sector_identifier_uri v).client_metadata.sector_identifier_uri = v
    ∧ (r.set_sector_identifier_uri v).client_metadata.redirect_uris = r.client_metadata.redirect_uris
    ∧ (r.set_sector_identifier_uri v).client_metadata.response_types = r.client_metadata.response_types
    ∧ (r.set_sector_identifier_uri v).client_metadata.grant_types = r.client_metadata.grant_types
    ∧ (r.set_sector_identifier_uri v).client_metadata.application_type = r.client_metadata.application_type
    ∧ (r.set_sector_identifier_uri v).client_metadata.contacts = r.client_metadata.contacts
    ∧ (r.set_sector_identifier_uri v).client_metadata.client_name = r.client_metadata.client_name
    ∧ (r.set_sector_identifier_uri v).client_metadata.logo_uri = r.client_metadata.logo_uri
    ∧ (r.set_sector_identifier_uri v).client_metadata.client_uri = r.client_metadata.client_uri
    ∧ (r.set_sector_identifier_uri v).client_metadata.policy_uri = r.client_metadata.policy_uri
    ∧ (r.set_sector_identifier_uri v).client_metadata.tos_uri = r.client_metadata.tos_uri
    ∧ (r.set_sector_identifier_uri v).client_metadata.jwks_uri = r.client_metadata.jwks_uri
    ∧ (r.set_sector_identifier_uri v).client_metadata.jwks = r.client_metadata.jwks
    ∧ (r.set_sector_identifier_uri v).client_metadata.subject_type = r.client_metadata.subject_type
    ∧ (r.set_sector_identifier_uri v).client_metadata.id_token_signed_response_alg = r.client_metadata.id_token_signed_response_alg
    ∧ (r.set_sector_identifier_uri v).client_metadata.id_token_encrypted_response_alg = r.client_metadata.id_token_encrypted_response_alg
    ∧ (r.set_sector_identifier_uri v).client_metadata.id_token_encrypted_response_enc = r.client_metadata.id_token_encrypted_response_enc
    ∧ (r.set_sector_identifier_uri v).client_metadata.userinfo_signed_response_alg = r.client_metadata.userinfo_signed_response_alg
    ∧ (r.set_sector_identifier_uri v).client_metadata.userinfo_encrypted_response_alg = r.client_metadata.userinfo_encrypted_response_alg
    ∧ (r.set_sector_identifier_uri v).client_metadata.userinfo_encrypted_response_enc = r.client_metadata.userinfo_encrypted_response_enc
    ∧ (r.set_sector_identifier_uri v).client_metadata.request_object_signing_alg = r.client_metadata.request_object_signing_alg
    ∧ (r.set_sector_identifier_uri v).client_metadata.request_object_encryption_alg = r.client_metadata.request_object_encryption_alg
    ∧ (r.set_sector_identifier_uri v).client_metadata.request_object_encryption_enc = r.client_metadata.request_object_encryption_enc
    ∧ (r.set_sector_identifier_uri v).client_metadata.token_endpoint_auth_method = r.client_metadata.token_endpoint_auth_method
    ∧ (r.set_sector_identifier_uri v).client_metadata.token_endpoint_auth_signing_alg = r.client_metadata.token_endpoint_auth_signing_alg
    ∧ (r.set_sector_identifier_uri v).client_metadata.default_max_age = r.client_metadata.default_max_age
    ∧ (r.set_sector_identifier_uri v).client_metadata.require_auth_time = r.client_metadata.require_auth_time
    ∧ (r.set_sector_identifier_uri v).client_metadata.default_acr_values = r.client_metadata.default_acr_values
    ∧ (r.set_sector_identifier_uri v).client_metadata.initiate_login_uri = r.client_metadata.initiate_login_uri
    ∧ (r.set_sector_identifier_uri v).client_metadata.request_uris = r.client_metadata.request_uris
    ∧ (r.set_sector_identifier_uri v).initial_access_token = r.initial_access_token
    :=
  fun r v => ⟨rfl, rfl, rfl, rfl, rfl, rfl, rfl, rfl, rfl, rfl, rfl, rfl, rfl, rfl, rfl, rfl, rfl, rfl, rfl, rfl, rfl, rfl, rfl, rfl, rfl, rfl, rfl, rfl, rfl, rfl, rfl⟩

theorem set_subject_type_spec : ∀ (r : Registration10ClientRegistrationRequest) (v : Option SubjectIdentifierType),
    (r.set_subject_type v).client_metadata.subject_type = v
    ∧ (r.set_subject_type v).client_metadata.redirect_uris = r.client_metadata.redirect_uris
    ∧ (r.set_subject_type v).client_metadata.response_types = r.client_metadata.response_types
    ∧ (r.set_subject_type v).client_metadata.grant_types = r.client_metadata.grant_types
    ∧ (r.set_subject_type v).client_metadata.application_type = r.client_metadata.application_type
    ∧ (r.set_subject_type v).client_metadata.contacts = r.client_metadata.contacts
    ∧ (r.set_subject_type v).client_metadata.client_name = r.client_metadata.client_name
    ∧ (r.set_subject_type v).client_metadata.logo_uri = r.client_metadata.logo_uri
    ∧ (r.set_subject_type v).client_metadata.client_uri = r.client_metadata.client_uri
    ∧ (r.set_subject_type v).client_metadata.policy_uri = r.client_metadata.policy_uri
    ∧ (r.set_subject_type v).client_metadata.tos_uri = r.client_metadata.tos_uri
    ∧ (r.set_subject_type v).client_metadata.jwks_uri = r.client_metadata.jwks_uri
    ∧ (r.set_subject_type v).client_metadata.jwks = r.client_metadata.jwks
    ∧ (r.set_subject_type v).client_metadata.sector_identifier_uri = r.client_metadata.sector_identifier_uri
    ∧ (r.set_subject_type v).client_metadata.id_token_signed_response_alg = r.client_metadata.id_token_signed_response_alg
    ∧ (r.set_subject_type v).client_metadata.id_token_encrypted_response_alg = r.client_metadata.id_token_encrypted_response_alg
    ∧ (r.set_subject_type v).client_metadata.id_token_encrypted_response_enc = r.client_metadata.id_token_encrypted_response_enc
    ∧ (r.set_subject_type v).client_metadata.userinfo_signed_response_alg = r.client_metadata.userinfo_signed_response_alg
    ∧ (r.set_subject_type v).client_metadata.userinfo_encrypted_response_alg = r.client_metadata.userinfo_encrypted_response_alg
    ∧ (r.set_subject_type v).client_metadata.userinfo_encrypted_response_enc = r.client_metadata.userinfo_encrypted_response_enc
    ∧ (r.set_subject_type v).client_metadata.request_object_signing_alg = r.client_metadata.request_object_signing_alg
    ∧ (r.set_subject_type v).client_metadata.request_object_encryption_alg = r.client_metadata.request_object_encryption_alg
    ∧ (r.set_subject_type v).client_metadata.request_object_encryption_enc = r.client_metadata.request_object_encryption_enc
    ∧ (r.set_subject_type v).client_metadata.token_endpoint_auth_method = r.client_metadata.token_endpoint_auth_method
    ∧ (r.set_subject_type v).client_metadata.token_endpoint_auth_signing_alg = r.client_metadata.token_endpoint_auth_signing_alg
    ∧ (r.set_subject_type v).client_metadata.default_max_age = r.client_metadata.default_max_age
    ∧ (r.set_subject_type v).client_metadata.require_auth_time = r.client_metadata.require_auth_time
    ∧ (r.set_subject_type v).client_metadata.default_acr_values = r.client_metadata.default_acr_values
    ∧ (r.set_subject_type v).client_metadata.initiate_login_uri = r.client_metadata.initiate_login_uri
    ∧ (r.set_subject_type v).client_metadata.request_uris = r.client_metadata.request_uris
    ∧ (r.set_subject_type v).initial_access_token = r.initial_access_token
    :=
  fun r v => ⟨rfl, rfl, rfl, rfl, rfl, rfl, rfl, rfl, rfl, rfl, rfl, rfl, rfl, rfl, rfl, rfl, rfl, rfl, rfl, rfl, rfl, rfl, rfl, rfl, rfl, rfl, rfl, rfl, rfl, rfl, rfl⟩

theorem set_id_token_signed_response_alg_spec : ∀ (r : Registration10ClientRegistrationRequest) (v : Option JwsSigningAlgorithm),
    (r.set_id_token_signed_response_alg v).client_metadata.id_token_signed_response_alg = v
    ∧ (r.set_id_token_signed_response_alg v).client_metadata.redirect_uris = r.client_metadata.redirect_uris
    ∧ (r.set_id_token_signed_response_alg v).client_metadata.response_types = r.client_metadata.response_types
    ∧ (r.set_id_token_signed_response_alg v).client_metadata.grant_types = r.client_metadata.grant_types
    ∧ (r.set_id_token_signed_response_alg v).client_metadata.application_type = r.client_metadata.application_type
    ∧ (r.set_id_token_signed_response_alg v).client_metadata.contacts = r.client_metadata.contacts
    ∧ (r.set_id_token_signed_response_alg v).client_metadata.client_name = r.client_metadata.client_name
    ∧ (r.set_id_token_signed_response_alg v).client_metadata.logo_uri = r.client_metadata.logo_uri
    ∧ (r.set_id_token_signed_response_alg v).client_metadata.client_uri = r.client_metadata.client_uri
    ∧ (r.set_id_token_signed_response_alg v).client_metadata.policy_uri = r.client_metadata.policy_uri
    ∧ (r.set_id_token_signed_response_alg v).client_metadata.tos_uri = r.client_metadata.tos_uri
    ∧ (r.set_id_token_signed_response_alg v).client_metadata.jwks_uri = r.client_metadata.jwks_uri
    ∧ (r.set_id_token_signed_response_alg v).client_metadata.jwks = r.client_metadata.jwks
    ∧ (r.set_id_token_signed_response_alg v).client_metadata.sector_identifier_uri = r.client_metadata.sector_identifier_uri
    ∧ (r.set_id_token_signed_response_alg v).client_metadata.subject_type = r.client_metadata.subject_type
    ∧ (r.set_id_token_signed_response_alg v).client_metadata.id_token_encrypted_response_alg = r.client_metadata.id_token_encrypted_response_alg
    ∧ (r.set_id_token_signed_response_alg v).client_metadata.id_token_encrypted_response_enc = r.client_metadata.id_token_encrypted_response_enc
    ∧ (r.set_id_token_signed_response_alg v).client_metadata.userinfo_signed_response_alg = r.client_metadata.userinfo_signed_response_alg
    ∧ (r.set_id_token_signed_response_alg v).client_metadata.userinfo_encrypted_response_alg = r.client_metadata.userinfo_encrypted_response_alg
    ∧ (r.set_id_token_signed_response_alg v).client_metadata.userinfo_encrypted_response_enc = r.client_metadata.userinfo_encrypted_response_enc
    ∧ (r.set_id_token_signed_response_alg v).client_metadata.request_object_signing_alg = r.client_metadata.request_object_signing_alg
    ∧ (r.set_id_token_signed_response_alg v).client_metadata.request_object_encryption_alg = r.client_metadata.request_object_encryption_alg
    ∧ (r.set_id_token_signed_response_alg v).client_metadata.request_object_encryption_enc = r.client_metadata.request_object_encryption_enc
    ∧ (r.set_id_token_signed_response_alg v).client_metadata.token_endpoint_auth_method = r.client_metadata.token_endpoint_auth_method
    ∧ (r.set_id_token_signed_response_alg v).client_metadata.token_endpoint_auth_signing_alg = r.client_metadata.token_endpoint_auth_signing_alg
    ∧ (r.set_id_token_signed_response_alg v).client_metadata.default_max_age = r.client_metadata.default_max_age
    ∧ (r.set_id_token_signed_response_alg v).client_metadata.require_auth_time = r.client_metadata.require_auth_time
    ∧ (r.set_id_token_signed_response_alg v).client_metadata.default_acr_values = r.client_metadata.default_acr_values
    ∧ (r.set_id_token_signed_response_alg v).client_metadata.initiate_login_uri = r.client_metadata.initiate_login_uri
    ∧ (r.set_id_token_signed_response_alg v).client_metadata.request_uris = r.client_metadata.request_uris
    ∧ (r.set_id_token_signed_response_alg v).initial_access_token = r.initial_access_token
    :=
  fun r v => ⟨rfl, rfl, rfl, rfl, rfl, rfl, rfl, rfl, rfl, rfl, rfl, rfl, rfl, rfl, rfl, rfl, rfl, rfl, rfl, rfl, rfl, rfl, rfl, rfl, rfl, rfl, rfl, rfl, rfl, rfl, rfl⟩

theorem set_id_token_encrypted_response_alg_spec : ∀ (r : Registration10ClientRegistrationRequest) (v : Option JweKeyManagementAlgorithm),
    (r.set_id_token_encrypted_response_alg v).client_metadata.id_token_encrypted_response_alg = v
    ∧ (r.set_id_token_encrypted_response_alg v).client_metadata.redirect_uris = r.client_metadata.redirect_uris
    ∧ (r.set_id_token_encrypted_response_alg v).client_metadata.response_types = r.client_metadata.response_types
    ∧ (r.set_id_token_encrypted_response_alg v).client_metadata.grant_types = r.client_metadata.grant_types
    ∧ (r.set_id_token_encrypted_response_alg v).client_metadata.application_type = r.client_metadata.application_type
    ∧ (r.set_id_token_encrypted_response_alg v).client_metadata.contacts = r.client_metadata.contacts
    ∧ (r.set_id_token_encrypted_response_alg v).client_metadata.client_name = r.client_metadata.client_name
    ∧ (r.set_id_token_encrypted_response_alg v).client_metadata.logo_uri = r.client_metadata.logo_uri
    ∧ (r.set_id_token_encrypted_response_alg v).client_metadata.client_uri = r.client_metadata.client_uri
    ∧ (r.set_id_token_encrypted_response_alg v).client_metadata.policy_uri = r.client_metadata.policy_uri
    ∧ (r.set_id_token_encrypted_response_alg v).client_metadata.tos_uri = r.client_metadata.tos_uri
    ∧ (r.set_id_token_encrypted_response_alg v).client_metadata.jwks_uri = r.client_metadata.jwks_uri
    ∧ (r.set_id_token_encrypted_response_alg v).client_metadata.jwks = r.client_metadata.jwks
    ∧ (r.set_id_token_encrypted_response_alg v).client_metadata.sector_identifier_uri = r.client_metadata.sector_identifier_uri
    ∧ (r.set_id_token_encrypted_response_alg v).client_metadata.subject_type = r.client_metadata.subject_type
    ∧ (r.set_id_token_encrypted_response_alg v).client_metadata.id_token_signed_response_alg = r.client_metadata.id_token_signed_response_alg
    ∧ (r.set_id_token_encrypted_response_alg v).client_metadata.id_token_encrypted_response_enc = r.client_metadata.id_token_encrypted_response_enc
    ∧ (r.set_id_token_encrypted_response_alg v).client_metadata.userinfo_signed_response_alg = r.client_metadata.userinfo_signed_response_alg
    ∧ (r.set_id_token_encrypted_response_alg v).client_metadata.userinfo_encrypted_response_alg = r.client_metadata.userinfo_encrypted_response_alg
    ∧ (r.set_id_token_encrypted_response_alg v).client_metadata.userinfo_encrypted_response_enc = r.client_metadata.userinfo_encrypted_response_enc
    ∧ (r.set_id_token_encrypted_response_alg v).client_metadata.request_object_signing_alg = r.client_metadata.request_object_signing_alg
    ∧ (r.set_id_token_encrypted_response_alg v).client_metadata.request_object_encryption_alg = r.client_metadata.request_object_encryption_alg
    ∧ (r.set_id_token_encrypted_response_alg v).client_metadata.request_object_encryption_enc = r.client_metadata.request_object_encryption_enc
    ∧ (r.set_id_token_encrypted_response_alg v).client_metadata.token_endpoint_auth_method = r.client_metadata.token_endpoint_auth_method
    ∧ (r.set_id_token_encrypted_response_alg v).client_metadata.token_endpoint_auth_signing_alg = r.client_metadata.token_endpoint_auth_signing_alg
    ∧ (r.set_id_token_encrypted_response_alg v).client_metadata.default_max_age = r.client_metadata.default_max_age
    ∧ (r.set_id_token_encrypted_response_alg v).client_metadata.require_auth_time = r.client_metadata.require_auth_time
    ∧ (r.set_id_token_encrypted_response_alg v).client_metadata.default_acr_values = r.client_metadata.default_acr_values
    ∧ (r.set_id_token_encrypted_response_alg v).client_metadata.initiate_login_uri = r.client_metadata.initiate_login_uri
    ∧ (r.set_id_token_encrypted_response_alg v).client_metadata.request_uris = r.client_metadata.request_uris
    ∧ (r.set_id_token_encrypted_response_alg v).initial_access_token = r.initial_access_token
    :=
  fun r v => ⟨rfl, rfl, rfl, rfl, rfl, rfl, rfl, rfl, rfl, rfl, rfl, rfl, rfl, rfl, rfl, rfl, rfl, rfl, rfl, rfl, rfl, rfl, rfl, rfl, rfl, rfl, rfl, rfl, rfl, rfl, rfl⟩

theorem set_id_token_encrypted_response_enc_spec : ∀ (r : Registration10ClientRegistrationRequest) (v : Option JweContentEncryptionAlgorithm),
    (r.set_id_token_encrypted_response_enc v).client_metadata.id_token_encrypted_response_enc = v
    ∧ (r.set_id_token_encrypted_response_enc v).client_metadata.redirect_uris = r.client_metadata.redirect_uris
    ∧ (r.set_id_token_encrypted_response_enc v).client_metadata.response_types = r.client_metadata.response_types
    ∧ (r.set_id_token_encrypted_response_enc v).client_metadata.grant_types = r.client_metadata.grant_types
    ∧ (r.set_id_token_encrypted_response_enc v).client_metadata.application_type = r.client_metadata.application_type
    ∧ (r.set_id_token_encrypted_response_enc v).client_metadata.contacts = r.client_metadata.contacts
    ∧ (r.set_id_token_encrypted_response_enc v).client_metadata.client_name = r.client_metadata.client_name
    ∧ (r.set_id_token_encrypted_response_enc v).client_metadata.logo_uri = r.client_metadata.logo_uri
    ∧ (r.set_id_token_encrypted_response_enc v).client_metadata.client_uri = r.client_metadata.client_uri
    ∧ (r.set_id_token_encrypted_response_enc v).client_metadata.policy_uri = r.client_metadata.policy_uri
    ∧ (r.set_id_token_encrypted_response_enc v).client_metadata.tos_uri = r.client_metadata.tos_uri
    ∧ (r.set_id_token_encrypted_response_enc v).client_metadata.jwks_uri = r.client_metadata.jwks_uri
    ∧ (r.set_id_token_encrypted_response_enc v).client_metadata.jwks = r.client_metadata.jwks
    ∧ (r.set_id_token_encrypted_response_enc v).client_metadata.sector_identifier_uri = r.client_metadata.sector_identifier_uri
    ∧ (r.set_id_token_encrypted_response_enc v).client_metadata.subject_type = r.client_metadata.subject_type
    ∧ (r.set_id_token_encrypted_response_enc v).client_metadata.id_token_signed_response_alg = r.client_metadata.id_token_signed_response_alg
    ∧ (r.set_id_token_encrypted_response_enc v).client_metadata.id_token_encrypted_response_alg = r.client_metadata.id_token_encrypted_response_alg
    ∧ (r.set_id_token_encrypted_response_enc v).client_metadata.userinfo_signed_response_alg = r.client_metadata.userinfo_signed_response_alg
    ∧ (r.set_id_token_encrypted_response_enc v).client_metadata.userinfo_encrypted_response_alg = r.client_metadata.userinfo_encrypted_response_alg
    ∧ (r.set_id_token_encrypted_response_enc v).client_metadata.userinfo_encrypted_response_enc = r.client_metadata.userinfo_encrypted_response_enc
    ∧ (r.set_id_token_encrypted_response_enc v).client_metadata.request_object_signing_alg = r.client_metadata.request_object_signing_alg
    ∧ (r.set_id_token_encrypted_response_enc v).client_metadata.request_object_encryption_alg = r.client_metadata.request_object_encryption_alg
    ∧ (r.set_id_token_encrypted_response_enc v).client_metadata.request_object_encryption_enc = r.client_metadata.request_object_encryption_enc
    ∧ (r.set_id_token_encrypted_response_enc v).client_metadata.token_endpoint_auth_method = r.client_metadata.token_endpoint_auth_method
    ∧ (r.set_id_token_encrypted_response_enc v).client_metadata.token_endpoint_auth_signing_alg = r.client_metadata.token_endpoint_auth_signing_alg
    ∧ (r.set_id_token_encrypted_response_enc v).client_metadata.default_max_age = r.client_metadata.default_max_age
    ∧ (r.set_id_token_encrypted_response_enc v).client_metadata.require_auth_time = r.client_metadata.require_auth_time
    ∧ (r.set_id_token_encrypted_response_enc v).client_metadata.default_acr_values = r.client_metadata.default_acr_values
    ∧ (r.set_id_token_encrypted_response_enc v).client_metadata.initiate_login_uri = r.client_metadata.initiate_login_uri
    ∧ (r.set_id_token_encrypted_response_enc v).client_metadata.request_uris = r.client_metadata.request_uris
    ∧ (r.set_id_token_encrypted_response_enc v).initial_access_token = r.initial_access_token
    :=
  fun r v => ⟨rfl, rfl, rfl, rfl, rfl, rfl, rfl, rfl, rfl, rfl, rfl, rfl, rfl, rfl, rfl, rfl, rfl, rfl, rfl, rfl, rfl, rfl, rfl, rfl, rfl, rfl, rfl, rfl, rfl, rfl, rfl⟩

theorem set_userinfo_signed_response_alg_spec : ∀ (r : Registration10ClientRegistrationRequest) (v : Option JwsSigningAlgorithm),
    (r.set_userinfo_signed_response_alg v).client_metadata.userinfo_signed_response_alg = v
    ∧ (r.set_userinfo_signed_response_alg v).client_metadata.redirect_uris = r.client_metadata.redirect_uris
    ∧ (r.set_userinfo_signed_response_alg v).client_metadata.response_types = r.client_metadata.response_types
    ∧ (r.set_userinfo_signed_response_alg v).client_metadata.grant_types = r.client_metadata.grant_types
    ∧ (r.set_userinfo_signed_response_alg v).client_metadata.application_type = r.client_metadata.application_type
    ∧ (r.set_userinfo_signed_response_alg v).client_metadata.contacts = r.client_metadata.contacts
    ∧ (r.set_userinfo_signed_response_alg v).client_metadata.client_name = r.client_metadata.client_name
    ∧ (r.set_userinfo_signed_response_alg v).client_metadata.logo_uri = r.client_metadata.logo_uri
    ∧ (r.set_userinfo_signed_response_alg v).client_metadata.client_uri = r.client_metadata.client_uri
    ∧ (r.set_userinfo_signed_response_alg v).client_metadata.policy_uri = r.client_metadata.policy_uri
    ∧ (r.set_userinfo_signed_response_alg v).client_metadata.tos_uri = r.client_metadata.tos_uri
    ∧ (r.set_userinfo_signed_response_alg v).client_metadata.jwks_uri = r.client_metadata.jwks_uri
    ∧ (r.set_userinfo_signed_response_alg v).client_metadata.jwks = r.client_metadata.jwks
    ∧ (r.set_userinfo_signed_response_alg v).client_metadata.sector_identifier_uri = r.client_metadata.sector_identifier_uri
    ∧ (r.set_userinfo_signed_response_alg v).client_metadata.subject_type = r.client_metadata.subject_type
    ∧ (r.set_userinfo_signed_response_alg v).client_metadata.id_token_signed_response_alg = r.client_metadata.id_token_signed_response_alg
    ∧ (r.set_userinfo_signed_response_alg v).client_metadata.id_token_encrypted_response_alg = r.client_metadata.id_token_encrypted_response_alg
    ∧ (r.set_userinfo_signed_response_alg v).client_metadata.id_token_encrypted_response_enc = r.client_metadata.id_token_encrypted_response_enc
    ∧ (r.set_userinfo_signed_response_alg v).client_metadata.userinfo_encrypted_response_alg = r.client_metadata.userinfo_encrypted_response_alg
    ∧ (r.set_userinfo_signed_response_alg v).client_metadata.userinfo_encrypted_response_enc = r.client_metadata.userinfo_encrypted_response_enc
    ∧ (r.set_userinfo_signed_response_alg v).client_metadata.request_object_signing_alg = r.client_metadata.request_object_signing_alg
    ∧ (r.set_userinfo_signed_response_alg v).client_metadata.request_object_encryption_alg = r.client_metadata.request_object_encryption_alg
    ∧ (r.set_userinfo_signed_response_alg v).client_metadata.request_object_encryption_enc = r.client_metadata.request_object_encryption_enc
    ∧ (r.set_userinfo_signed_response_alg v).client_metadata.token_endpoint_auth_method = r.client_metadata.token_endpoint_auth_method
    ∧ (r.set_userinfo_signed_response_alg v).client_metadata.token_endpoint_auth_signing_alg = r.client_metadata.token_endpoint_auth_signing_alg
    ∧ (r.set_userinfo_signed_response_alg v).client_metadata.default_max_age = r.client_metadata.default_max_age
    ∧ (r.set_userinfo_signed_response_alg v).client_metadata.require_auth_time = r.client_metadata.require_auth_time
    ∧ (r.set_userinfo_signed_response_alg v).client_metadata.default_acr_values = r.client_metadata.default_acr_values
    ∧ (r.set_userinfo_signed_response_alg v).client_metadata.initiate_login_uri = r.client_metadata.initiate_login_uri
    ∧ (r.set_userinfo_signed_response_alg v).client_metadata.request_uris = r.client_metadata.request_uris
    ∧ (r.set_userinfo_signed_response_alg v).initial_access_token = r.initial_access_token
    :=
  fun r v => ⟨rfl, rfl, rfl, rfl, rfl, rfl, rfl, rfl, rfl, rfl, rfl, rfl, rfl, rfl, rfl, rfl, rfl, rfl, rfl, rfl, rfl, rfl, rfl, rfl, rfl, rfl, rfl, rfl, rfl, rfl, rfl⟩

theorem set_userinfo_encrypted_response_alg_spec : ∀ (r : Registration10ClientRegistrationRequest) (v : Option JweKeyManagementAlgorithm),
    (r.set_userinfo_encrypted_response_alg v).client_metadata.userinfo_encrypted_response_alg = v
    ∧ (r.set_userinfo_encrypted_response_alg v).client_metadata.redirect_uris = r.client_metadata.redirect_uris
    ∧ (r.set_userinfo_encrypted_response_alg v).client_metadata.response_types = r.client_metadata.response_types
    ∧ (r.set_userinfo_encrypted_response_alg v).client_metadata.grant_types = r.client_metadata.grant_types
    ∧ (r.set_userinfo_encrypted_response_alg v).client_metadata.application_type = r.client_metadata.application_type
    ∧ (r.set_userinfo_encrypted_response_alg v).client_metadata.contacts = r.client_metadata.contacts
    ∧ (r.set_userinfo_encrypted_response_alg v).client_metadata.client_name = r.client_metadata.client_name
    ∧ (r.set_userinfo_encrypted_response_alg v).client_metadata.logo_uri = r.client_metadata.logo_uri
    ∧ (r.set_userinfo_encrypted_response_alg v).client_metadata.client_uri = r.client_metadata.client_uri
    ∧ (r.set_userinfo_encrypted_response_alg v).client_metadata.policy_uri = r.client_metadata.policy_uri
    ∧ (r.set_userinfo_encrypted_response_alg v).client_metadata.tos_uri = r.client_metadata.tos_uri
    ∧ (r.set_userinfo_encrypted_response_alg v).client_metadata.jwks_uri = r.client_metadata.jwks_uri
    ∧ (r.set_userinfo_encrypted_response_alg v).client_metadata.jwks = r.client_metadata.jwks
    ∧ (r.set_userinfo_encrypted_response_alg v).client_metadata.sector_identifier_uri = r.client_metadata.sector_identifier_uri
    ∧ (r.set_userinfo_encrypted_response_alg v).client_metadata.subject_type = r.client_metadata.subject_type
    ∧ (r.set_userinfo_encrypted_response_alg v).client_metadata.id_token_signed_response_alg = r.client_metadata.id_token_signed_response_alg
    ∧ (r.set_userinfo_encrypted_response_alg v).client_metadata.id_token_encrypted_response_alg = r.client_metadata.id_token_encrypted_response_alg
    ∧ (r.set_userinfo_encrypted_response_alg v).client_metadata.id_token_encrypted_response_enc = r.client_metadata.id_token_encrypted_response_enc
    ∧ (r.set_userinfo_encrypted_response_alg v).client_metadata.userinfo_signed_response_alg = r.client_metadata.userinfo_signed_response_alg
    ∧ (r.set_userinfo_encrypted_response_alg v).client_metadata.userinfo_encrypted_response_enc = r.client_metadata.userinfo_encrypted_response_enc
    ∧ (r.set_userinfo_encrypted_response_alg v).client_metadata.request_object_signing_alg = r.client_metadata.request_object_signing_alg
    ∧ (r.set_userinfo_encrypted_response_alg v).client_metadata.request_object_encryption_alg = r.client_metadata.request_object_encryption_alg
    ∧ (r.set_userinfo_encrypted_response_alg v).client_metadata.request_object_encryption_enc = r.client_metadata.request_object_encryption_enc
    ∧ (r.set_userinfo_encrypted_response_alg v).client_metadata.token_endpoint_auth_method = r.client_metadata.token_endpoint_auth_method
    ∧ (r.set_userinfo_encrypted_response_alg v).client_metadata.token_endpoint_auth_signing_alg = r.client_metadata.token_endpoint_auth_signing_alg
    ∧ (r.set_userinfo_encrypted_response_alg v).client_metadata.default_max_age = r.client_metadata.default_max_age
    ∧ (r.set_userinfo_encrypted_response_alg v).client_metadata.require_auth_time = r.client_metadata.require_auth_time
    ∧ (r.set_userinfo_encrypted_response_alg v).client_metadata.default_acr_values = r.client_metadata.default_acr_values
    ∧ (r.set_userinfo_encrypted_response_alg v).client_metadata.initiate_login_uri = r.client_metadata.initiate_login_uri
    ∧ (r.set_userinfo_encrypted_response_alg v).client_metadata.request_uris = r.client_metadata.request_uris
    ∧ (r.set_userinfo_encrypted_response_alg v).initial_access_token = r.initial_access_token
    :=
  fun r v => ⟨rfl, rfl, rfl, rfl, rfl, rfl, rfl, rfl, rfl, rfl, rfl, rfl, rfl, rfl, rfl, rfl, rfl, rfl, rfl, rfl, rfl, rfl, rfl, rfl, rfl, rfl, rfl, rfl, rfl, rfl, rfl⟩

theorem set_userinfo_encrypted_response_enc_spec : ∀ (r : Registration10ClientRegistrationRequest) (v : Option JweContentEncryptionAlgorithm),
    (r.set_userinfo_encrypted_response_enc v).client_metadata.userinfo_encrypted_response_enc = v
    ∧ (r.set_userinfo_encrypted_response_enc v).client_metadata.redirect_uris = r.client_metadata.redirect_uris
    ∧ (r.set_userinfo_encrypted_response_enc v).client_metadata.response_types = r.client_metadata.response_types
    ∧ (r.set_userinfo_encrypted_response_enc v).client_metadata.grant_types = r.client_metadata.grant_types
    ∧ (r.set_userinfo_encrypted_response_enc v).client_metadata.application_type = r.client_metadata.application_type
    ∧ (r.set_userinfo_encrypted_response_enc v).client_metadata.contacts = r.client_metadata.contacts
    ∧ (r.set_userinfo_encrypted_response_enc v).client_metadata.client_name = r.client_metadata.client_name
    ∧ (r.set_userinfo_encrypted_response_enc v).client_metadata.logo_uri = r.client_metadata.logo_uri
    ∧ (r.set_userinfo_encrypted_response_enc v).client_metadata.client_uri = r.client_metadata.client_uri
    ∧ (r.set_userinfo_encrypted_response_enc v).client_metadata.policy_uri = r.client_metadata.policy_uri
    ∧ (r.set_userinfo_encrypted_response_enc v).client_metadata.tos_uri = r.client_metadata.tos_uri
    ∧ (r.set_userinfo_encrypted_response_enc v).client_metadata.jwks_uri = r.client_metadata.jwks_uri
    ∧ (r.set_userinfo_encrypted_response_enc v).client_metadata.jwks = r.client_metadata.jwks
    ∧ (r.set_userinfo_encrypted_response_enc v).client_metadata.sector_identifier_uri = r.client_metadata.sector_identifier_uri
    ∧ (r.set_userinfo_encrypted_response_enc v).client_metadata.subject_type = r.client_metadata.subject_type
    ∧ (r.set_userinfo_encrypted_response_enc v).client_metadata.id_token_signed_response_alg = r.client_metadata.id_token_signed_response_alg
    ∧ (r.set_userinfo_encrypted_response_enc v).client_metadata.id_token_encrypted_response_alg = r.client_metadata.id_token_encrypted_response_alg
    ∧ (r.set_userinfo_encrypted_response_enc v).client_metadata.id_token_encrypted_response_enc = r.client_metadata.id_token_encrypted_response_enc
    ∧ (r.set_userinfo_encrypted_response_enc v).client_metadata.userinfo_signed_response_alg = r.client_metadata.userinfo_signed_response_alg
    ∧ (r.set_userinfo_encrypted_response_enc v).client_metadata.userinfo_encrypted_response_alg = r.client_metadata.userinfo_encrypted_response_alg
    ∧ (r.set_userinfo_encrypted_response_enc v).client_metadata.request_object_signing_alg = r.client_metadata.request_object_signing_alg
    ∧ (r.set_userinfo_encrypted_response_enc v).client_metadata.request_object_encryption_alg = r.client_metadata.request_object_encryption_alg
    ∧ (r.set_userinfo_encrypted_response_enc v).client_metadata.request_object_encryption_enc = r.client_metadata.request_object_encryption_enc
    ∧ (r.set_userinfo_encrypted_response_enc v).client_metadata.token_endpoint_auth_method = r.client_metadata.token_endpoint_auth_method
    ∧ (r.set_userinfo_encrypted_response_enc v).client_metadata.token_endpoint_auth_signing_alg = r.client_metadata.token_endpoint_auth_signing_alg
    ∧ (r.set_userinfo_encrypted_response_enc v).client_metadata.default_max_age = r.client_metadata.default_max_age
    ∧ (r.set_userinfo_encrypted_response_enc v).client_metadata.require_auth_time = r.client_metadata.require_auth_time
    ∧ (r.set_userinfo_encrypted_response_enc v).client_metadata.default_acr_values = r.client_metadata.default_acr_values
    ∧ (r.set_userinfo_encrypted_response_enc v).client_metadata.initiate_login_uri = r.client_metadata.initiate_login_uri
    ∧ (r.set_userinfo_encrypted_response_enc v).client_metadata.request_uris = r.client_metadata.request_uris
    ∧ (r.set_userinfo_encrypted_response_enc v).initial_access_token = r.initial_access_token
    :=
  fun r v => ⟨rfl, rfl, rfl, rfl, rfl, rfl, rfl, rfl, rfl, rfl, rfl, rfl, rfl, rfl, rfl, rfl, rfl, rfl, rfl, rfl, rfl, rfl, rfl, rfl, rfl, rfl, rfl, rfl, rfl, rfl, rfl⟩

theorem set_request_object_signing_alg_spec : ∀ (r : Registration10ClientRegistrationRequest) (v : Option JwsSigningAlgorithm),
    (r.set_request_object_signing_alg v).client_metadata.request_object_signing_alg = v
    ∧ (r.set_request_object_signing_alg v).client_metadata.redirect_uris = r.client_metadata.redirect_uris
    ∧ (r.set_request_object_signing_alg v).client_metadata.response_types = r.client_metadata.response_types
    ∧ (r.set_request_object_signing_alg v).client_metadata.grant_types = r.client_metadata.grant_types
    ∧ (r.set_request_object_signing_alg v).client_metadata.application_type = r.client_metadata.application_type
    ∧ (r.set_request_object_signing_alg v).client_metadata.contacts = r.client_metadata.contacts
    ∧ (r.set_request_object_signing_alg v).client_metadata.client_name = r.client_metadata.client_name
    ∧ (r.set_request_object_signing_alg v).client_metadata.logo_uri = r.client_metadata.logo_uri
    ∧ (r.set_request_object_signing_alg v).client_metadata.client_uri = r.client_metadata.client_uri
    ∧ (r.set_request_object_signing_alg v).client_metadata.policy_uri = r.client_metadata.policy_uri
    ∧ (r.set_request_object_signing_alg v).client_metadata.tos_uri = r.client_metadata.tos_uri
    ∧ (r.set_request_object_signing_alg v).client_metadata.jwks_uri = r.client_metadata.jwks_uri
    ∧ (r.set_request_object_signing_alg v).client_metadata.jwks = r.client_metadata.jwks
    ∧ (r.set_request_object_signing_alg v).client_metadata.sector_identifier_uri = r.client_metadata.sector_identifier_uri
    ∧ (r.set_request_object_signing_alg v).client_metadata.subject_type = r.client_metadata.subject_type
    ∧ (r.set_request_object_signing_alg v).client_metadata.id_token_signed_response_alg = r.client_metadata.id_token_signed_response_alg
    ∧ (r.set_request_object_signing_alg v).client_metadata.id_token_encrypted_response_alg = r.client_metadata.id_token_encrypted_response_alg
    ∧ (r.set_request_object_signing_alg v).client_metadata.id_token_encrypted_response_enc = r.client_metadata.id_token_encrypted_response_enc
    ∧ (r.set_request_object_signing_alg v).client_metadata.userinfo_signed_response_alg = r.client_metadata.userinfo_signed_response_alg
    ∧ (r.set_request_object_signing_alg v).client_metadata.userinfo_encrypted_response_alg = r.client_metadata.userinfo_encrypted_response_alg
    ∧ (r.set_request_object_signing_alg v).client_metadata.userinfo_encrypted_response_enc = r.client_metadata.userinfo_encrypted_response_enc
    ∧ (r.set_request_object_signing_alg v).client_metadata.request_object_encryption_alg = r.client_metadata.request_object_encryption_alg
    ∧ (r.set_request_object_signing_alg v).client_metadata.request_object_encryption_enc = r.client_metadata.request_object_encryption_enc
    ∧ (r.set_request_object_signing_alg v).client_metadata.token_endpoint_auth_method = r.client_metadata.token_endpoint_auth_method
    ∧ (r.set_request_object_signing_alg v).client_metadata.token_endpoint_auth_signing_alg = r.client_metadata.token_endpoint_auth_signing_alg
    ∧ (r.set_request_object_signing_alg v).client_metadata.default_max_age = r.client_metadata.default_max_age
    ∧ (r.set_request_object_signing_alg v).client_metadata.require_auth_time = r.client_metadata.require_auth_time
    ∧ (r.set_request_object_signing_alg v).client_metadata.default_acr_values = r.client_metadata.default_acr_values
    ∧ (r.set_request_object_signing_alg v).client_metadata.initiate_login_uri = r.client_metadata.initiate_login_uri
    ∧ (r.set_request_object_signing_alg v).client_metadata.request_uris = r.client_metadata.request_uris
    ∧ (r.set_request_object_signing_alg v).initial_access_token = r.initial_access_token
    :=
  fun r v => ⟨rfl, rfl, rfl, rfl, rfl, rfl, rfl, rfl, rfl, rfl, rfl, rfl, rfl, rfl, rfl, rfl, rfl, rfl, rfl, rfl, rfl, rfl, rfl, rfl, rfl, rfl, rfl, rfl, rfl, rfl, rfl⟩

theorem set_request_object_encryption_alg_spec : ∀ (r : Registration10ClientRegistrationRequest) (v : Option JweKeyManagementAlgorithm),
    (r.set_request_object_encryption_alg v).client_metadata.request_object_encryption_alg = v
    ∧ (r.set_request_object_encryption_alg v).client_metadata.redirect_uris = r.client_metadata.redirect_uris
    ∧ (r.set_request_object_encryption_alg v).client_metadata.response_types = r.client_metadata.response_types
    ∧ (r.set_request_object_encryption_alg v).client_metadata.grant_types = r.client_metadata.grant_types
    ∧ (r.set_request_object_encryption_alg v).client_metadata.application_type = r.client_metadata.application_type
    ∧ (r.set_request_object_encryption_alg v).client_metadata.contacts = r.client_metadata.contacts
    ∧ (r.set_request_object_encryption_alg v).client_metadata.client_name = r.client_metadata.client_name
    ∧ (r.set_request_object_encryption_alg v).client_metadata.logo_uri = r.client_metadata.logo_uri
    ∧ (r.set_request_object_encryption_alg v).client_metadata.client_uri = r.client_metadata.client_uri
    ∧ (r.set_request_object_encryption_alg v).client_metadata.policy_uri = r.client_metadata.policy_uri
    ∧ (r.set_request_object_encryption_alg v).client_metadata.tos_uri = r.client_metadata.tos_uri
    ∧ (r.set_request_object_encryption_alg v).client_metadata.jwks_uri = r.client_metadata.jwks_uri
    ∧ (r.set_request_object_encryption_alg v).client_metadata.jwks = r.client_metadata.jwks
    ∧ (r.set_request_object_encryption_alg v).client_metadata.sector_identifier_uri = r.client_metadata.sector_identifier_uri
    ∧ (r.set_request_object_encryption_alg v).client_metadata.subject_type = r.client_metadata.subject_type
    ∧ (r.set_request_object_encryption_alg v).client_metadata.id_token_signed_response_alg = r.client_metadata.id_token_signed_response_alg
    ∧ (r.set_request_object_encryption_alg v).client_metadata.id_token_encrypted_response_alg = r.client_metadata.id_token_encrypted_response_alg
    ∧ (r.set_request_object_encryption_alg v).client_metadata.id_token_encrypted_response_enc = r.client_metadata.id_token_encrypted_response_enc
    ∧ (r.set_request_object_encryption_alg v).client_metadata.userinfo_signed_response_alg = r.client_metadata.userinfo_signed_response_alg
    ∧ (r.set_request_object_encryption_alg v).client_metadata.userinfo_encrypted_response_alg = r.client_metadata.userinfo_encrypted_response_alg
    ∧ (r.set_request_object_encryption_alg v).client_metadata.userinfo_encrypted_response_enc = r.client_metadata.userinfo_encrypted_response_enc
    ∧ (r.set_request_object_encryption_alg v).client_metadata.request_object_signing_alg = r.client_metadata.request_object_signing_alg
    ∧ (r.set_request_object_encryption_alg v).client_metadata.request_object_encryption_enc = r.client_metadata.request_object_encryption_enc
    ∧ (r.set_request_object_encryption_alg v).client_metadata.token_endpoint_auth_method = r.client_metadata.token_endpoint_auth_method
    ∧ (r.set_request_object_encryption_alg v).client_metadata.token_endpoint_auth_signing_alg = r.client_metadata.token_endpoint_auth_signing_alg
    ∧ (r.set_request_object_encryption_alg v).client_metadata.default_max_age = r.client_metadata.default_max_age
    ∧ (r.set_request_object_encryption_alg v).client_metadata.require_auth_time = r.client_metadata.require_auth_time
    ∧ (r.set_request_object_encryption_alg v).client_metadata.default_acr_values = r.client_metadata.default_acr_values
    ∧ (r.set_request_object_encryption_alg v).client_metadata.initiate_login_uri = r.client_metadata.initiate_login_uri
    ∧ (r.set_request_object_encryption_alg v).client_metadata.request_uris = r.client_metadata.request_uris
    ∧ (r.set_request_object_encryption_alg v).initial_access_token = r.initial_access_token
    :=
  fun r v => ⟨rfl, rfl, rfl, rfl, rfl, rfl, rfl, rfl, rfl, rfl, rfl, rfl, rfl, rfl, rfl, rfl, rfl, rfl, rfl, rfl, rfl, rfl, rfl, rfl, rfl, rfl, rfl, rfl, rfl, rfl, rfl⟩

theorem set_request_object_encryption_enc_spec : ∀ (r : Registration10ClientRegistrationRequest) (v : Option JweContentEncryptionAlgorithm),
    (r.set_request_object_encryption_enc v).client_metadata.request_object_encryption_enc = v
    ∧ (r.set_request_object_encryption_enc v).client_metadata.redirect_uris = r.client_metadata.redirect_uris
    ∧ (r.set_request_object_encryption_enc v).client_metadata.response_types = r.client_metadata.response_types
    ∧ (r.set_request_object_encryption_enc v).client_metadata.grant_types = r.client_metadata.grant_types
    ∧ (r.set_request_object_encryption_enc v).client_metadata.application_type = r.client_metadata.application_type
    ∧ (r.set_request_object_encryption_enc v).client_metadata.contacts = r.client_metadata.contacts
    ∧ (r.set_request_object_encryption_enc v).client_metadata.client_name = r.client_metadata.client_name
    ∧ (r.set_request_object_encryption_enc v).client_metadata.logo_uri = r.client_metadata.logo_uri
    ∧ (r.set_request_object_encryption_enc v).client_metadata.client_uri = r.client_metadata.client_uri
    ∧ (r.set_request_object_encryption_enc v).client_metadata.policy_uri = r.client_metadata.policy_uri
    ∧ (r.set_request_object_encryption_enc v).client_metadata.tos_uri = r.client_metadata.tos_uri
    ∧ (r.set_request_object_encryption_enc v).client_metadata.jwks_uri = r.client_metadata.jwks_uri
    ∧ (r.set_request_object_encryption_enc v).client_metadata.jwks = r.client_metadata.jwks
    ∧ (r.set_request_object_encryption_enc v).client_metadata.sector_identifier_uri = r.client_metadata.sector_identifier_uri
    ∧ (r.set_request_object_encryption_enc v).client_metadata.subject_type = r.client_metadata.subject_type
    ∧ (r.set_request_object_encryption_enc v).client_metadata.id_token_signed_response_alg = r.client_metadata.id_token_signed_response_alg
    ∧ (r.set_request_object_encryption_enc v).client_metadata.id_token_encrypted_response_alg = r.client_metadata.id_token_encrypted_response_alg
    ∧ (r.set_request_object_encryption_enc v).client_metadata.id_token_encrypted_response_enc = r.client_metadata.id_token_encrypted_response_enc
    ∧ (r.set_request_object_encryption_enc v).client_metadata.userinfo_signed_response_alg = r.client_metadata.userinfo_signed_response_alg
    ∧ (r.set_request_object_encryption_enc v).client_metadata.userinfo_encrypted_response_alg = r.client_metadata.userinfo_encrypted_response_alg
    ∧ (r.set_request_object_encryption_enc v).client_metadata.userinfo_encrypted_response_enc = r.client_metadata.userinfo_encrypted_response_enc
    ∧ (r.set_request_object_encryption_enc v).client_metadata.request_object_signing_alg = r.client_metadata.request_object_signing_alg
    ∧ (r.set_request_object_encryption_enc v).client_metadata.request_object_encryption_alg = r.client_metadata.request_object_encryption_alg
    ∧ (r.set_request_object_encryption_enc v).client_metadata.token_endpoint_auth_method = r.client_metadata.token_endpoint_auth_method
    ∧ (r.set_request_object_encryption_enc v).client_metadata.token_endpoint_auth_signing_alg = r.client_metadata.token_endpoint_auth_signing_alg
    ∧ (r.set_request_object_encryption_enc v).client_metadata.default_max_age = r.client_metadata.default_max_age
    ∧ (r.set_request_object_encryption_enc v).client_metadata.require_auth_time = r.client_metadata.require_auth_time
    ∧ (r.set_request_object_encryption_enc v).client_metadata.default_acr_values = r.client_metadata.default_acr_values
    ∧ (r.set_request_object_encryption_enc v).client_metadata.initiate_login_uri = r.client_metadata.initiate_login_uri
    ∧ (r.set_request_object_encryption_enc v).client_metadata.request_uris = r.client_metadata.request_uris
    ∧ (r.set_request_object_encryption_enc v).initial_access_token = r.initial_access_token
    :=
  fun r v => ⟨rfl, rfl, rfl, rfl, rfl, rfl, rfl, rfl, rfl, rfl, rfl, rfl, rfl, rfl, rfl, rfl, rfl, rfl, rfl, rfl, rfl, rfl, rfl, rfl, rfl, rfl, rfl, rfl, rfl, rfl, rfl⟩

theorem set_token_endpoint_auth_method_spec : ∀ (r : Registration10ClientRegistrationRequest) (v : Option ClientAuthMethod),
    (r.set_token_endpoint_auth_method v).client_metadata.token_endpoint_auth_method = v
    ∧ (r.set_token_endpoint_auth_method v).client_metadata.redirect_uris = r.client_metadata.redirect_uris
    ∧ (r.set_token_endpoint_auth_method v).client_metadata.response_types = r.client_metadata.response_types
    ∧ (r.set_token_endpoint_auth_method v).client_metadata.grant_types = r.client_metadata.grant_types
    ∧ (r.set_token_endpoint_auth_method v).client_metadata.application_type = r.client_metadata.application_type
    ∧ (r.set_token_endpoint_auth_method v).client_metadata.contacts = r.client_metadata.contacts
    ∧ (r.set_token_endpoint_auth_method v).client_metadata.client_name = r.client_metadata.client_name
    ∧ (r.set_token_endpoint_auth_method v).client_metadata.logo_uri = r.client_metadata.logo_uri
    ∧ (r.set_token_endpoint_auth_method v).client_metadata.client_uri = r.client_metadata.client_uri
    ∧ (r.set_token_endpoint_auth_method v).client_metadata.policy_uri = r.client_metadata.policy_uri
    ∧ (r.set_token_endpoint_auth_method v).client_metadata.tos_uri = r.client_metadata.tos_uri
    ∧ (r.set_token_endpoint_auth_method v).client_metadata.jwks_uri = r.client_metadata.jwks_uri
    ∧ (r.set_token_endpoint_auth_method v).client_metadata.jwks = r.client_metadata.jwks
    ∧ (r.set_token_endpoint_auth_method v).client_metadata.sector_identifier_uri = r.client_metadata.sector_identifier_uri
    ∧ (r.set_token_endpoint_auth_method v).client_metadata.subject_type = r.client_metadata.subject_type
    ∧ (r.set_token_endpoint_auth_method v).client_metadata.id_token_signed_response_alg = r.client_metadata.id_token_signed_response_alg
    ∧ (r.set_token_endpoint_auth_method v).client_metadata.id_token_encrypted_response_alg = r.client_metadata.id_token_encrypted_response_alg
    ∧ (r.set_token_endpoint_auth_method v).client_metadata.id_token_encrypted_response_enc = r.client_metadata.id_token_encrypted_response_enc
    ∧ (r.set_token_endpoint_auth_method v).client_metadata.userinfo_signed_response_alg = r.client_metadata.userinfo_signed_response_alg
    ∧ (r.set_token_endpoint_auth_method v).client_metadata.userinfo_encrypted_response_alg = r.client_metadata.userinfo_encrypted_response_alg
    ∧ (r.set_token_endpoint_auth_method v).client_metadata.userinfo_encrypted_response_enc = r.client_metadata.userinfo_encrypted_response_enc
    ∧ (r.set_token_endpoint_auth_method v).client_metadata.request_object_signing_alg = r.client_metadata.request_object_signing_alg
    ∧ (r.set_token_endpoint_auth_method v).client_metadata.request_object_encryption_alg = r.client_metadata.request_object_encryption_alg
    ∧ (r.set_token_endpoint_auth_method v).client_metadata.request_object_encryption_enc = r.client_metadata.request_object_encryption_enc
    ∧ (r.set_token_endpoint_auth_method v).client_metadata.token_endpoint_auth_signing_alg = r.client_metadata.token_endpoint_auth_signing_alg
    ∧ (r.set_token_endpoint_auth_method v).client_metadata.default_max_age = r.client_metadata.default_max_age
    ∧ (r.set_token_endpoint_auth_method v).client_metadata.require_auth_time = r.client_metadata.require_auth_time
    ∧ (r.set_token_endpoint_auth_method v).client_metadata.default_acr_values = r.client_metadata.default_acr_values
    ∧ (r.set_token_endpoint_auth_method v).client_metadata.initiate_login_uri = r.client_metadata.initiate_login_uri
    ∧ (r.set_token_endpoint_auth_method v).client_metadata.request_uris = r.client_metadata.request_uris
    ∧ (r.set_token_endpoint_auth_method v).initial_access_token = r.initial_access_token
    :=
  fun r v => ⟨rfl, rfl, rfl, rfl, rfl, rfl, rfl, rfl, rfl, rfl, rfl, rfl, rfl, rfl, rfl, rfl, rfl, rfl, rfl, rfl, rfl, rfl, rfl, rfl, rfl, rfl, rfl, rfl, rfl, rfl, rfl⟩

theorem set_token_endpoint_auth_signing_alg_spec : ∀ (r : Registration10ClientRegistrationRequest) (v : Option JwsSigningAlgorithm),
    (r.set_token_endpoint_auth_signing_alg v).client_metadata.token_endpoint_auth_signing_alg = v
    ∧ (r.set_token_endpoint_auth_signing_alg v).client_metadata.redirect_uris = r.client_metadata.redirect_uris
    ∧ (r.set_token_endpoint_auth_signing_alg v).client_metadata.response_types = r.client_metadata.response_types
    ∧ (r.set_token_endpoint_auth_signing_alg v).client_metadata.grant_types = r.client_metadata.grant_types
    ∧ (r.set_token_endpoint_auth_signing_alg v).client_metadata.application_type = r.client_metadata.application_type
    ∧ (r.set_token_endpoint_auth_signing_alg v).client_metadata.contacts = r.client_metadata.contacts
    ∧ (r.set_token_endpoint_auth_signing_alg v).client_metadata.client_name = r.client_metadata.client_name
    ∧ (r.set_token_endpoint_auth_signing_alg v).client_metadata.logo_uri = r.client_metadata.logo_uri
    ∧ (r.set_token_endpoint_auth_signing_alg v).client_metadata.client_uri = r.client_metadata.client_uri
    ∧ (r.set_token_endpoint_auth_signing_alg v).client_metadata.policy_uri = r.client_metadata.policy_uri
    ∧ (r.set_token_endpoint_auth_signing_alg v).client_metadata.tos_uri = r.client_metadata.tos_uri
    ∧ (r.set_token_endpoint_auth_signing_alg v).client_metadata.jwks_uri = r.client_metadata.jwks_uri
    ∧ (r.set_token_endpoint_auth_signing_alg v).client_metadata.jwks = r.client_metadata.jwks
    ∧ (r.set_token_endpoint_auth_signing_alg v).client_metadata.sector_identifier_uri = r.client_metadata.sector_identifier_uri
    ∧ (r.set_token_endpoint_auth_signing_alg v).client_metadata.subject_type = r.client_metadata.subject_type
    ∧ (r.set_token_endpoint_auth_signing_alg v).client_metadata.id_token_signed_response_alg = r.client_metadata.id_token_signed_response_alg
    ∧ (r.set_token_endpoint_auth_signing_alg v).client_metadata.id_token_encrypted_response_alg = r.client_metadata.id_token_encrypted_response_alg
    ∧ (r.set_token_endpoint_auth_signing_alg v).client_metadata.id_token_encrypted_response_enc = r.client_metadata.id_token_encrypted_response_enc
    ∧ (r.set_token_endpoint_auth_signing_alg v).client_metadata.userinfo_signed_response_alg = r.client_metadata.userinfo_signed_response_alg
    ∧ (r.set_token_endpoint_auth_signing_alg v).client_metadata.userinfo_encrypted_response_alg = r.client_metadata.userinfo_encrypted_response_alg
    ∧ (r.set_token_endpoint_auth_signing_alg v).client_metadata.userinfo_encrypted_response_enc = r.client_metadata.userinfo_encrypted_response_enc
    ∧ (r.set_token_endpoint_auth_signing_alg v).client_metadata.request_object_signing_alg = r.client_metadata.request_object_signing_alg
    ∧ (r.set_token_endpoint_auth_signing_alg v).client_metadata.request_object_encryption_alg = r.client_metadata.request_object_encryption_alg
    ∧ (r.set_token_endpoint_auth_signing_alg v).client_metadata.request_object_encryption_enc = r.client_metadata.request_object_encryption_enc
    ∧ (r.set_token_endpoint_auth_signing_alg v).client_metadata.token_endpoint_auth_method = r.client_metadata.token_endpoint_auth_method
    ∧ (r.set_token_endpoint_auth_signing_alg v).client_metadata.default_max_age = r.client_metadata.default_max_age
    ∧ (r.set_token_endpoint_auth_signing_alg v).client_metadata.require_auth_time = r.client_metadata.require_auth_time
    ∧ (r.set_token_endpoint_auth_signing_alg v).client_metadata.default_acr_values = r.client_metadata.default_acr_values
    ∧ (r.set_token_endpoint_auth_signing_alg v).client_metadata.initiate_login_uri = r.client_metadata.initiate_login_uri
    ∧ (r.set_token_endpoint_auth_signing_alg v).client_metadata.request_uris = r.client_metadata.request_uris
    ∧ (r.set_token_endpoint_auth_signing_alg v).initial_access_token = r.initial_access_token
    :=
  fun r v => ⟨rfl, rfl, rfl, rfl, rfl, rfl, rfl, rfl, rfl, rfl, rfl, rfl, rfl, rfl, rfl, rfl, rfl, rfl, rfl, rfl, rfl, rfl, rfl, rfl, rfl, rfl, rfl, rfl, rfl, rfl, rfl⟩

theorem set_default_max_age_spec : ∀ (r : Registration10ClientRegistrationRequest) (v : Option Duration),
    (r.set_default_max_age v).client_metadata.default_max_age = v
    ∧ (r.set_default_max_age v).client_metadata.redirect_uris = r.client_metadata.redirect_uris
    ∧ (r.set_default_max_age v).client_metadata.response_types = r.client_metadata.response_types
    ∧ (r.set_default_max_age v).client_metadata.grant_types = r.client_metadata.grant_types
    ∧ (r.set_default_max_age v).client_metadata.application_type = r.client_metadata.application_type
    ∧ (r.set_default_max_age v).client_metadata.contacts = r.client_metadata.contacts
    ∧ (r.set_default_max_age v).client_metadata.client_name = r.client_metadata.client_name
    ∧ (r.set_default_max_age v).client_metadata.logo_uri = r.client_metadata.logo_uri
    ∧ (r.set_default_max_age v).client_metadata.client_uri = r.client_metadata.client_uri
    ∧ (r.set_default_max_age v).client_metadata.policy_uri = r.client_metadata.policy_uri
    ∧ (r.set_default_max_age v).client_metadata.tos_uri = r.client_metadata.tos_uri
    ∧ (r.set_default_max_age v).client_metadata.jwks_uri = r.client_metadata.jwks_uri
    ∧ (r.set_default_max_age v).client_metadata.jwks = r.client_metadata.jwks
    ∧ (r.set_default_max_age v).client_metadata.sector_identifier_uri = r.client_metadata.sector_identifier_uri
    ∧ (r.set_default_max_age v).client_metadata.subject_type = r.client_metadata.subject_type
    ∧ (r.set_default_max_age v).client_metadata.id_token_signed_response_alg = r.client_metadata.id_token_signed_response_alg
    ∧ (r.set_default_max_age v).client_metadata.id_token_encrypted_response_alg = r.client_metadata.id_token_encrypted_response_alg
    ∧ (r.set_default_max_age v).client_metadata.id_token_encrypted_response_enc = r.client_metadata.id_token_encrypted_response_enc
    ∧ (r.set_default_max_age v).client_metadata.userinfo_signed_response_alg = r.client_metadata.userinfo_signed_response_alg
    ∧ (r.set_default_max_age v).client_metadata.userinfo_encrypted_response_alg = r.client_metadata.userinfo_encrypted_response_alg
    ∧ (r.set_default_max_age v).client_metadata.userinfo_encrypted_response_enc = r.client_metadata.userinfo_encrypted_response_enc
    ∧ (r.set_default_max_age v).client_metadata.request_object_signing_alg = r.client_metadata.request_object_signing_alg
    ∧ (r.set_default_max_age v).client_metadata.request_object_encryption_alg = r.client_metadata.request_object_encryption_alg
    ∧ (r.set_default_max_age v).client_metadata.request_object_encryption_enc = r.client_metadata.request_object_encryption_enc
    ∧ (r.set_default_max_age v).client_metadata.token_endpoint_auth_method = r.client_metadata.token_endpoint_auth_method
    ∧ (r.set_default_max_age v).client_metadata.token_endpoint_auth_signing_alg = r.client_metadata.token_endpoint_auth_signing_alg
    ∧ (r.set_default_max_age v).client_metadata.require_auth_time = r.client_metadata.require_auth_time
    ∧ (r.set_default_max_age v).client_metadata.default_acr_values = r.client_metadata.default_acr_values
    ∧ (r.set_default_max_age v).client_metadata.initiate_login_uri = r.client_metadata.initiate_login_uri
    ∧ (r.set_default_max_age v).client_metadata.request_uris = r.client_metadata.request_uris
    ∧ (r.set_default_max_age v).initial_access_token = r.initial_access_token
    :=
  fun r v => ⟨rfl, rfl, rfl, rfl, rfl, rfl, rfl, rfl, rfl, rfl, rfl, rfl, rfl, rfl, rfl, rfl, rfl, rfl, rfl, rfl, rfl, rfl, rfl, rfl, rfl, rfl, rfl, rfl, rfl, rfl, rfl⟩

theorem set_require_auth_time_spec : ∀ (r : Registration10ClientRegistrationRequest) (v : Option Bool),
    (r.set_require_auth_time v).client_metadata.require_auth_time = v
    ∧ (r.set_require_auth_time v).client_metadata.redirect_uris = r.client_metadata.redirect_uris
    ∧ (r.set_require_auth_time v).client_metadata.response_types = r.client_metadata.response_types
    ∧ (r.set_require_auth_time v).client_metadata.grant_types = r.client_metadata.grant_types
    ∧ (r.set_require_auth_time v).client_metadata.application_type = r.client_metadata.application_type
    ∧ (r.set_require_auth_time v).client_metadata.contacts = r.client_metadata.contacts
    ∧ (r.set_require_auth_time v).client_metadata.client_name = r.client_metadata.client_name
    ∧ (r.set_require_auth_time v).client_metadata.logo_uri = r.client_metadata.logo_uri
    ∧ (r.set_require_auth_time v).client_metadata.client_uri = r.client_metadata.client_uri
    ∧ (r.set_require_auth_time v).client_metadata.policy_uri = r.client_metadata.policy_uri
    ∧ (r.set_require_auth_time v).client_metadata.tos_uri = r.client_metadata.tos_uri
    ∧ (r.set_require_auth_time v).client_metadata.jwks_uri = r.client_metadata.jwks_uri
    ∧ (r.set_require_auth_time v).client_metadata.jwks = r.client_metadata.jwks
    ∧ (r.set_require_auth_time v).client_metadata.sector_identifier_uri = r.client_metadata.sector_identifier_uri
    ∧ (r.set_require_auth_time v).client_metadata.subject_type = r.client_metadata.subject_type
    ∧ (r.set_require_auth_time v).client_metadata.id_token_signed_response_alg = r.client_metadata.id_token_signed_response_alg
    ∧ (r.set_require_auth_time v).client_metadata.id_token_encrypted_response_alg = r.client_metadata.id_token_encrypted_response_alg
    ∧ (r.set_require_auth_time v).client_metadata.id_token_encrypted_response_enc = r.client_metadata.id_token_encrypted_response_enc
    ∧ (r.set_require_auth_time v).client_metadata.userinfo_signed_response_alg = r.client_metadata.userinfo_signed_response_alg
    ∧ (r.set_require_auth_time v).client_metadata.userinfo_encrypted_response_alg = r.client_metadata.userinfo_encrypted_response_alg
    ∧ (r.set_require_auth_time v).client_metadata.userinfo_encrypted_response_enc = r.client_metadata.userinfo_encrypted_response_enc
    ∧ (r.set_require_auth_time v).client_metadata.request_object_signing_alg = r.client_metadata.request_object_signing_alg
    ∧ (r.set_require_auth_time v).client_metadata.request_object_encryption_alg = r.client_metadata.request_object_encryption_alg
    ∧ (r.set_require_auth_time v).client_metadata.request_object_encryption_enc = r.client_metadata.request_object_encryption_enc
    ∧ (r.set_require_auth_time v).client_metadata.token_endpoint_auth_method = r.client_metadata.token_endpoint_auth_method
    ∧ (r.set_require_auth_time v).client_metadata.token_endpoint_auth_signing_alg = r.client_metadata.token_endpoint_auth_signing_alg
    ∧ (r.set_require_auth_time v).client_metadata.default_max_age = r.client_metadata.default_max_age
    ∧ (r.set_require_auth_time v).client_metadata.default_acr_values = r.client_metadata.default_acr_values
    ∧ (r.set_require_auth_time v).client_metadata.initiate_login_uri = r.client_metadata.initiate_login_uri
    ∧ (r.set_require_auth_time v).client_metadata.request_uris = r.client_metadata.request_uris
    ∧ (r.set_require_auth_time v).initial_access_token = r.initial_access_token
    :=
  fun r v => ⟨rfl, rfl, rfl, rfl, rfl, rfl, rfl, rfl, rfl, rfl, rfl, rfl, rfl, rfl, rfl, rfl, rfl, rfl, rfl, rfl, rfl, rfl, rfl, rfl, rfl, rfl, rfl, rfl, rfl, rfl, rfl⟩

theorem set_default_acr_values_spec : ∀ (r : Registration10ClientRegistrationRequest) (v : Option (List AuthenticationContextClass)),
    (r.set_default_acr_values v).client_metadata.default_acr_values = v
    ∧ (r.set_default_acr_values v).client_metadata.redirect_uris = r.client_metadata.redirect_uris
    ∧ (r.set_default_acr_values v).client_metadata.response_types = r.client_metadata.response_types
    ∧ (r.set_default_acr_values v).client_metadata.grant_types = r.client_metadata.grant_types
    ∧ (r.set_default_acr_values v).client_metadata.application_type = r.client_metadata.application_type
    ∧ (r.set_default_acr_values v).client_metadata.contacts = r.client_metadata.contacts
    ∧ (r.set_default_acr_values v).client_metadata.client_name = r.client_metadata.client_name
    ∧ (r.set_default_acr_values v).client_metadata.logo_uri = r.client_metadata.logo_uri
    ∧ (r.set_default_acr_values v).client_metadata.client_uri = r.client_metadata.client_uri
    ∧ (r.set_default_acr_values v).client_metadata.policy_uri = r.client_metadata.policy_uri
    ∧ (r.set_default_acr_values v).client_metadata.tos_uri = r.client_metadata.tos_uri
    ∧ (r.set_default_acr_values v).client_metadata.jwks_uri = r.client_metadata.jwks_uri
    ∧ (r.set_default_acr_values v).client_metadata.jwks = r.client_metadata.jwks
    ∧ (r.set_default_acr_values v).client_metadata.sector_identifier_uri = r.client_metadata.sector_identifier_uri
    ∧ (r.set_default_acr_values v).client_metadata.subject_type = r.client_metadata.subject_type
    ∧ (r.set_default_acr_values v).client_metadata.id_token_signed_response_alg = r.client_metadata.id_token_signed_response_alg
    ∧ (r.set_default_acr_values v).client_metadata.id_token_encrypted_response_alg = r.client_metadata.id_token_encrypted_response_alg
    ∧ (r.set_default_acr_values v).client_metadata.id_token_encrypted_response_enc = r.client_metadata.id_token_encrypted_response_enc
    ∧ (r.set_default_acr_values v).client_metadata.userinfo_signed_response_alg = r.client_metadata.userinfo_signed_response_alg
    ∧ (r.set_default_acr_values v).client_metadata.userinfo_encrypted_response_alg = r.client_metadata.userinfo_encrypted_response_alg
    ∧ (r.set_default_acr_values v).client_metadata.userinfo_encrypted_response_enc = r.client_metadata.userinfo_encrypted_response_enc
    ∧ (r.set_default_acr_values v).client_metadata.request_object_signing_alg = r.client_metadata.request_object_signing_alg
    ∧ (r.set_default_acr_values v).client_metadata.request_object_encryption_alg = r.client_metadata.request_object_encryption_alg
    ∧ (r.set_default_acr_values v).client_metadata.request_object_encryption_enc = r.client_metadata.request_object_encryption_enc
    ∧ (r.set_default_acr_values v).client_metadata.token_endpoint_auth_method = r.client_metadata.token_endpoint_auth_method
    ∧ (r.set_default_acr_values v).client_metadata.token_endpoint_auth_signing_alg = r.client_metadata.token_endpoint_auth_signing_alg
    ∧ (r.set_default_acr_values v).client_metadata.default_max_age = r.client_metadata.default_max_age
    ∧ (r.set_default_acr_values v).client_metadata.require_auth_time = r.client_metadata.require_auth_time
    ∧ (r.set_default_acr_values v).client_metadata.initiate_login_uri = r.client_metadata.initiate_login_uri
    ∧ (r.set_default_acr_values v).client_metadata.request_uris = r.client_metadata.request_uris
    ∧ (r.set_default_acr_values v).initial_access_token = r.initial_access_token
    :=
  fun r v => ⟨rfl, rfl, rfl, rfl, rfl, rfl, rfl, rfl, rfl, rfl, rfl, rfl, rfl, rfl, rfl, rfl, rfl, rfl, rfl, rfl, rfl, rfl, rfl, rfl, rfl, rfl, rfl, rfl, rfl, rfl, rfl⟩

theorem set_initiate_login_uri_spec : ∀ (r : Registration10ClientRegistrationRequest) (v : Option InitiateLoginUrl),
    (r.set_initiate_login_uri v).client_metadata.initiate_login_uri = v
    ∧ (r.set_initiate_login_uri v).client_metadata.redirect_uris = r.client_metadata.redirect_uris
    ∧ (r.set_initiate_login_uri v).client_metadata.response_types = r.client_metadata.response_types
    ∧ (r.set_initiate_login_uri v).client_metadata.grant_types = r.client_metadata.grant_types
    ∧ (r.set_initiate_login_uri v).client_metadata.application_type = r.client_metadata.application_type
    ∧ (r.set_initiate_login_uri v).client_metadata.contacts = r.client_metadata.contacts
    ∧ (r.set_initiate_login_uri v).client_metadata.client_name = r.client_metadata.client_name
    ∧ (r.set_initiate_login_uri v).client_metadata.logo_uri = r.client_metadata.logo_uri
    ∧ (r.set_initiate_login_uri v).client_metadata.client_uri = r.client_metadata.client_uri
    ∧ (r.set_initiate_login_uri v).client_metadata.policy_uri = r.client_metadata.policy_uri
    ∧ (r.set_initiate_login_uri v).client_metadata.tos_uri = r.client_metadata.tos_uri
    ∧ (r.set_initiate_login_uri v).client_metadata.jwks_uri = r.client_metadata.jwks_uri
    ∧ (r.set_initiate_login_uri v).client_metadata.jwks = r.client_metadata.jwks
    ∧ (r.set_initiate_login_uri v).client_metadata.sector_identifier_uri = r.client_metadata.sector_identifier_uri
    ∧ (r.set_initiate_login_uri v).client_metadata.subject_type = r.client_metadata.subject_type
    ∧ (r.set_initiate_login_uri v).client_metadata.id_token_signed_response_alg = r.client_metadata.id_token_signed_response_alg
    ∧ (r.set_initiate_login_uri v).client_metadata.id_token_encrypted_response_alg = r.client_metadata.id_token_encrypted_response_alg
    ∧ (r.set_initiate_login_uri v).client_metadata.id_token_encrypted_response_enc = r.client_metadata.id_token_encrypted_response_enc
    ∧ (r.set_initiate_login_uri v).client_metadata.userinfo_signed_response_alg = r.client_metadata.userinfo_signed_response_alg
    ∧ (r.set_initiate_login_uri v).client_metadata.userinfo_encrypted_response_alg = r.client_metadata.userinfo_encrypted_response_alg
    ∧ (r.set_initiate_login_uri v).client_metadata.userinfo_encrypted_response_enc = r.client_metadata.userinfo_encrypted_response_enc
    ∧ (r.set_initiate_login_uri v).client_metadata.request_object_signing_alg = r.client_metadata.request_object_signing_alg
    ∧ (r.set_initiate_login_uri v).client_metadata.request_object_encryption_alg = r.client_metadata.request_object_encryption_alg
    ∧ (r.set_initiate_login_uri v).client_metadata.request_object_encryption_enc = r.client_metadata.request_object_encryption_enc
    ∧ (r.set_initiate_login_uri v).client_metadata.token_endpoint_auth_method = r.client_metadata.token_endpoint_auth_method
    ∧ (r.set_initiate_login_uri v).client_metadata.token_endpoint_auth_signing_alg = r.client_metadata.token_endpoint_auth_signing_alg
    ∧ (r.set_initiate_login_uri v).client_metadata.default_max_age = r.client_metadata.default_max_age
    ∧ (r.set_initiate_login_uri v).client_metadata.require_auth_time = r.client_metadata.require_auth_time
    ∧ (r.set_initiate_login_uri v).client_metadata.default_acr_values = r.client_metadata.default_acr_values
    ∧ (r.set_initiate_login_uri v).client_metadata.request_uris = r.client_metadata.request_uris
    ∧ (r.set_initiate_login_uri v).initial_access_token = r.initial_access_token
    :=
  fun r v => ⟨rfl, rfl, rfl, rfl, rfl, rfl, rfl, rfl, rfl, rfl, rfl, rfl, rfl, rfl, rfl, rfl, rfl, rfl, rfl, rfl, rfl, rfl, rfl, rfl, rfl, rfl, rfl, rfl, rfl, rfl, rfl⟩

theorem set_request_uris_spec : ∀ (r : Registration10ClientRegistrationRequest) (v : Option (List RequestUrl)),
    (r.set_request_uris v).client_metadata.request_uris = v
    ∧ (r.set_request_uris v).client_metadata.redirect_uris = r.client_metadata.redirect_uris
    ∧ (r.set_request_uris v).client_metadata.response_types = r.client_metadata.response_types
    ∧ (r.set_request_uris v).client_metadata.grant_types = r.client_metadata.grant_types
    ∧ (r.set_request_uris v).client_metadata.application_type = r.client_metadata.application_type
    ∧ (r.set_request_uris v).client_metadata.contacts = r.client_metadata.contacts
    ∧ (r.set_request_uris v).client_metadata.client_name = r.client_metadata.client_name
    ∧ (r.set_request_uris v).client_metadata.logo_uri = r.client_metadata.logo_uri
    ∧ (r.set_request_uris v).client_metadata.client_uri = r.client_metadata.client_uri
    ∧ (r.set_request_uris v).client_metadata.policy_uri = r.client_metadata.policy_uri
    ∧ (r.set_request_uris v).client_metadata.tos_uri = r.client_metadata.tos_uri
    ∧ (r.set_request_uris v).client_metadata.jwks_uri = r.client_metadata.jwks_uri
    ∧ (r.set_request_uris v).client_metadata.jwks = r.client_metadata.jwks
    ∧ (r.set_request_uris v).client_metadata.sector_identifier_uri = r.client_metadata.sector_identifier_uri
    ∧ (r.set_request_uris v).client_metadata.subject_type = r.client_metadata.subject_type
    ∧ (r.set_request_uris v).client_metadata.id_token_signed_response_alg = r.client_metadata.id_token_signed_response_alg
    ∧ (r.set_request_uris v).client_metadata.id_token_encrypted_response_alg = r.client_metadata.id_token_encrypted_response_alg
    ∧ (r.set_request_uris v).client_metadata.id_token_encrypted_response_enc = r.client_metadata.id_token_encrypted_response_enc
    ∧ (r.set_request_uris v).client_metadata.userinfo_signed_response_alg = r.client_metadata.userinfo_signed_response_alg
    ∧ (r.set_request_uris v).client_metadata.userinfo_encrypted_response_alg = r.client_metadata.userinfo_encrypted_response_alg
    ∧ (r.set_request_uris v).client_metadata.userinfo_encrypted_response_enc = r.client_metadata.userinfo_encrypted_response_enc
    ∧ (r.set_request_uris v).client_metadata.request_object_signing_alg = r.client_metadata.request_object_signing_alg
    ∧ (r.set_request_uris v).client_metadata.request_object_encryption_alg = r.client_metadata.request_object_encryption_alg
    ∧ (r.set_request_uris v).client_metadata.request_object_encryption_enc = r.client_metadata.request_object_encryption_enc
    ∧ (r.set_request_uris v).client_metadata.token_endpoint_auth_method = r.client_metadata.token_endpoint_auth_method
    ∧ (r.set_request_uris v).client_metadata.token_endpoint_auth_signing_alg = r.client_metadata.token_endpoint_auth_signing_alg
    ∧ (r.set_request_uris v).client_metadata.default_max_age = r.client_metadata.default_max_age
    ∧ (r.set_request_uris v).client_metadata.require_auth_time = r.client_metadata.require_auth_time
    ∧ (r.set_request_uris v).client_metadata.default_acr_values = r.client_metadata.default_acr_values
    ∧ (r.set_request_uris v).client_metadata.initiate_login_uri = r.client_metadata.initiate_login_uri
    ∧ (r.set_request_uris v).initial_access_token = r.initial_access_token
    :=
  fun r v => ⟨rfl, rfl, rfl, rfl, rfl, rfl, rfl, rfl, rfl, rfl, rfl, rfl, rfl, rfl, rfl, rfl, rfl, rfl, rfl, rfl, rfl, rfl, rfl, rfl, rfl, rfl, rfl, rfl, rfl, rfl, rfl⟩

theorem set_initial_access_token_spec : ∀ (r : Registration10ClientRegistrationRequest) (v : Option AccessToken),
    (r.set_initial_access_token v).initial_access_token = v
    ∧ (r.set_initial_access_token v).client_metadata.redirect_uris = r.client_metadata.redirect_uris
    ∧ (r.set_initial_access_token v).client_metadata.response_types = r.client_metadata.response_types
    ∧ (r.set_initial_access_token v).client_metadata.grant_types = r.client_metadata.grant_types
    ∧ (r.set_initial_access_token v).client_metadata.application_type = r.client_metadata.application_type
    ∧ (r.set_initial_access_token v).client_metadata.contacts = r.client_metadata.contacts
    ∧ (r.set_initial_access_token v).client_metadata.client_name = r.client_metadata.client_name
    ∧ (r.set_initial_access_token v).client_metadata.logo_uri = r.client_metadata.logo_uri
    ∧ (r.set_initial_access_token v).client_metadata.client_uri = r.client_metadata.client_uri
    ∧ (r.set_initial_access_token v).client_metadata.policy_uri = r.client_metadata.policy_uri
    ∧ (r.set_initial_access_token v).client_metadata.tos_uri = r.client_metadata.tos_uri
    ∧ (r.set_initial_access_token v).client_metadata.jwks_uri = r.client_metadata.jwks_uri
    ∧ (r.set_initial_access_token v).client_metadata.jwks = r.client_metadata.jwks
    ∧ (r.set_initial_access_token v).client_metadata.sector_identifier_uri = r.client_metadata.sector_identifier_uri
    ∧ (r.set_initial_access_token v).client_metadata.subject_type = r.client_metadata.subject_type
    ∧ (r.set_initial_access_token v).client_metadata.id_token_signed_response_alg = r.client_metadata.id_token_signed_response_alg
    ∧ (r.set_initial_access_token v).client_metadata.id_token_encrypted_response_alg = r.client_metadata.id_token_encrypted_response_alg
    ∧ (r.set_initial_access_token v).client_metadata.id_token_encrypted_response_enc = r.client_metadata.id_token_encrypted_response_enc
    ∧ (r.set_initial_access_token v).client_metadata.userinfo_signed_response_alg = r.client_metadata.userinfo_signed_response_alg
    ∧ (r.set_initial_access_token v).client_metadata.userinfo_encrypted_response_alg = r.client_metadata.userinfo_encrypted_response_alg
    ∧ (r.set_initial_access_token v).client_metadata.userinfo_encrypted_response_enc = r.client_metadata.userinfo_encrypted_response_enc
    ∧ (r.set_initial_access_token v).client_metadata.request_object_signing_alg = r.client_metadata.request_object_signing_alg
    ∧ (r.set_initial_access_token v).client_metadata.request_object_encryption_alg = r.client_metadata.request_object_encryption_alg
    ∧ (r.set_initial_access_token v).client_metadata.request_object_encryption_enc = r.client_metadata.request_object_encryption_enc
    ∧ (r.set_initial_access_token v).client_metadata.token_endpoint_auth_method = r.client_metadata.token_endpoint_auth_method
    ∧ (r.set_initial_access_token v).client_metadata.token_endpoint_auth_signing_alg = r.client_metadata.token_endpoint_auth_signing_alg
    ∧ (r.set_initial_access_token v).client_metadata.default_max_age = r.client_metadata.default_max_age
    ∧ (r.set_initial_access_token v).client_metadata.require_auth_time = r.client_metadata.require_auth_time
    ∧ (r.set_initial_access_token v).client_metadata.default_acr_values = r.client_metadata.default_acr_values
    ∧ (r.set_initial_access_token v).client_metadata.initiate_login_uri = r.client_metadata.initiate_login_uri
    ∧ (r.set_initial_access_token v).client_metadata.request_uris = r.client_metadata.request_uris
    :=
  fun r v => ⟨rfl, rfl, rfl, rfl, rfl, rfl, rfl, rfl, rfl, rfl, rfl, rfl, rfl, rfl, rfl, rfl, rfl, rfl, rfl, rfl, rfl, rfl, rfl, rfl, rfl, rfl, rfl, rfl, rfl, rfl, rfl⟩

/-! ## The claims -/

/-- C1: for every issuer URL `u`, a successful `get_provider_metadata u`
returns metadata whose issuer equals `u`; a decoded document whose issuer `v`
differs from `u` makes `validate` fail with a `Validation` error whose message
names an OpenID Provider impersonation attack; and `validate` returns the
metadata value (unchanged, with matching issuer) only on success, so no
unvalidated metadata escapes. -/
theorem C1_discovery_issuer_match :
    (∀ (PM : Type) (issuerOf : PM → IssuerUrl) (decode : List Nat → Except JsonError PM)
        (http : HttpRequest → Except CurlError HttpResponse) (u : IssuerUrl) (pm : PM),
        get_provider_metadata PM issuerOf decode http u = Except.ok pm → issuerOf pm = u)
    ∧ (∀ (PM : Type) (issuerOf : PM → IssuerUrl) (pm : PM) (u : IssuerUrl),
        issuerOf pm ≠ u →
        ProviderMetadata.validate issuerOf pm u = Except.error (DiscoveryError.Validation
          ("unexpected issuer URI `" ++ issuerOf pm ++ "` (expected `" ++ u
            ++ "`); this may indicate an OpenID Provider impersonation attack")))
    ∧ (∀ (PM : Type) (issuerOf : PM → IssuerUrl) (pm r2 : PM) (u : IssuerUrl),
        ProviderMetadata.validate issuerOf pm u = Except.ok r2 → r2 = pm ∧ issuerOf pm = u) := by
  refine ⟨?_, ?_, ?_⟩
  · intro PM issuerOf decode http u pm h
    unfold get_provider_metadata at h
    split at h
    · exact absurd h (by simp)
    · unfold discoveryFetch at h
      split at h
      · exact absurd h (by simp)
      · split at h
        · exact absurd h (by simp)
        · unfold discoveryAfterStatus at h
          split at h
          · exact absurd h (by simp)
          · split at h
            · exact absurd h (by simp)
            · unfold ProviderMetadata.validate at h
              split at h
              · exact absurd h (by simp)
              · rename_i hv
                simp only [Except.ok.injEq] at h
                subst h
                exact not_not.mp hv
  · intro PM issuerOf pm u hne
    unfold ProviderMetadata.validate
    rw [if_pos hne]
  · intro PM issuerOf pm r2 u h
    unfold ProviderMetadata.validate at h
    split at h
    · exact absurd h (by simp)
    · rename_i hv
      simp only [Except.ok.injEq] at h
      exact ⟨h.symm, not_not.mp hv⟩

/-- C1 witness: the pipeline run against a provider document whose issuer
matches returns it, and the theorem extracts the issuer equality. -/
theorem C1_discovery_issuer_match_witness :
    Discovery10ProviderMetadata.issuer exampleProviderMetadata = exampleIssuer :=
  C1_discovery_issuer_match.1 Discovery10ProviderMetadata Discovery10ProviderMetadata.issuer
    (fun _ => Except.ok exampleProviderMetadata) (fun _ => Except.ok exampleOkResponse)
    exampleIssuer exampleProviderMetadata rfl

/-- C2 (amended): for every `ClientMetadata` `m` whose language-tagged maps
contain distinct keys and are nonempty whenever present, deserializing the
object produced by serializing `m` yields exactly `m`; and serialization is
deterministic up to the ordering of the object keys contributed by the
language-tagged maps (metadata equal up to reordering those maps serialize to
permutations of the same entry list).  The nonemptiness condition is forced by
the counterexample: a present-but-empty map emits no key and decodes back to
an absent map. -/
theorem C2_registration_roundtrip :
    (∀ m : Registration10ClientMetadata,
      ((m.client_name.getD []).map Prod.fst).Nodup →
      ((m.logo_uri.getD []).map Prod.fst).Nodup →
      ((m.client_uri.getD []).map Prod.fst).Nodup →
      ((m.policy_uri.getD []).map Prod.fst).Nodup →
      ((m.tos_uri.getD []).map Prod.fst).Nodup →
      m.client_name ≠ some [] → m.logo_uri ≠ some [] → m.client_uri ≠ some [] →
      m.policy_uri ≠ some [] → m.tos_uri ≠ some [] →
      Registration10ClientMetadata.deserialize (Registration10ClientMetadata.serialize m)
        = some m)
    ∧ (∀ m m2 : Registration10ClientMetadata, SerializeEquiv m m2 →
      (Registration10ClientMetadata.serialize m).Perm
        (Registration10ClientMetadata.serialize m2)) :=
  ⟨fun m h1 h2 h3 h4 h5 h6 h7 h8 h9 h10 =>
    serialize_roundtrip m h1 h2 h3 h4 h5 h6 h7 h8 h9 h10, serialize_perm⟩

/-- C2 counterexample: the claim as stated fails on a metadata value whose
`client_name` map is present but empty — it serializes to no `client_name`
key, so the round trip returns the map as absent, not as present-and-empty. -/
theorem C2_registration_roundtrip_counterexample :
    Registration10ClientMetadata.deserialize
        (Registration10ClientMetadata.serialize cmEmptyLangName)
      ≠ some cmEmptyLangName := by
  decide

/-- C2 witness: the round trip on a concrete metadata value with nonempty,
distinct-keyed language maps. -/
theorem C2_registration_roundtrip_witness :
    Registration10ClientMetadata.deserialize
        (Registration10ClientMetadata.serialize exampleMetadata)
      = some exampleMetadata :=
  C2_registration_roundtrip.1 exampleMetadata (by decide) (by decide) (by decide) (by decide)
    (by decide) (by decide) (by decide) (by decide) (by decide) (by decide)

/-- C3: `register` proceeds past the status check exactly when the response
status is 201 or 400 and any other status yields
`Response(status, "unexpected HTTP status code")`; `get_provider_metadata`
proceeds exactly on 200 and any other status yields the same error shape. -/
theorem C3_status_gating :
    (∀ (CR : Type) (self : Registration10ClientRegistrationRequest)
        (decodeErr : String → Except JsonError ErrorResponse)
        (decodeCR : String → Except JsonError CR)
        (http : HttpRequest → Except CurlError HttpResponse)
        (endpoint : RegistrationUrl) (resp : HttpResponse),
        http (ClientRegistrationRequest.build_request self endpoint) = Except.ok resp →
        (¬(resp.status_code = HTTP_STATUS_CREATED ∨ resp.status_code = HTTP_STATUS_BAD_REQUEST) →
          ClientRegistrationRequest.register CR self decodeErr decodeCR http endpoint
            = Except.error (ClientRegistrationError.Response resp.status_code
                "unexpected HTTP status code"))
        ∧ ((resp.status_code = HTTP_STATUS_CREATED ∨ resp.status_code = HTTP_STATUS_BAD_REQUEST) →
          ClientRegistrationRequest.register CR self decodeErr decodeCR http endpoint
            = ClientRegistrationRequest.after_status CR decodeErr decodeCR resp))
    ∧ (∀ (PM : Type) (issuerOf : PM → IssuerUrl) (decode : List Nat → Except JsonError PM)
        (http : HttpRequest → Except CurlError HttpResponse) (u : IssuerUrl)
        (du : Url) (resp : HttpResponse),
        parseUrl (u ++ CONFIG_URL_SUFFIX) = Except.ok du →
        http (discoveryRequest du) = Except.ok resp →
        (resp.status_code ≠ HTTP_STATUS_OK →
          get_provider_metadata PM issuerOf decode http u
            = Except.error (DiscoveryError.Response resp.status_code
                "unexpected HTTP status code"))
        ∧ (resp.status_code = HTTP_STATUS_OK →
          get_provider_metadata PM issuerOf decode http u
            = discoveryAfterStatus PM issuerOf decode u resp))
    ∧ HTTP_STATUS_OK = 200 ∧ HTTP_STATUS_CREATED = 201 ∧ HTTP_STATUS_BAD_REQUEST = 400 := by
  refine ⟨?_, ?_, rfl, rfl, rfl⟩
  · intro CR self decodeErr decodeCR http endpoint resp hh
    unfold ClientRegistrationRequest.register
    rw [hh]
    dsimp only
    constructor
    · intro hno
      rw [if_pos ⟨fun h1 => hno (Or.inl h1), fun h2 => hno (Or.inr h2)⟩]
    · intro hyes
      rw [if_neg (fun hc => hyes.elim hc.1 hc.2)]
  · intro PM issuerOf decode http u du resp hp hh
    unfold get_provider_metadata
    rw [hp]
    dsimp only
    unfold discoveryFetch
    rw [hh]
    dsimp only
    constructor
    · intro hne
      rw [if_pos hne]
    · intro heq
      rw [if_neg (fun hne => hne heq)]

/-- C3 witness: a 404 makes registration fail with the gate error, and a 200
lets discovery proceed past the status check. -/
theorem C3_status_gating_witness :
    ClientRegistrationRequest.register Registration10ClientRegistrationResponse
        (Registration10ClientRegistrationRequest.new ["https://client.example.org/callback"])
        (fun _ => Except.error "no decode") (fun _ => Except.error "no decode")
        (fun _ => Except.ok exampleResp404) "https://server.example.com/register"
      = Except.error (ClientRegistrationError.Response 404 "unexpected HTTP status code")
    ∧ get_provider_metadata Discovery10ProviderMetadata Discovery10ProviderMetadata.issuer
        (fun _ => Except.ok exampleProviderMetadata) (fun _ => Except.ok exampleOkResponse)
        exampleIssuer
      = discoveryAfterStatus Discovery10ProviderMetadata Discovery10ProviderMetadata.issuer
          (fun _ => Except.ok exampleProviderMetadata) exampleIssuer exampleOkResponse := by
  constructor
  · exact (C3_status_gating.1 Registration10ClientRegistrationResponse _ _ _ _
      "https://server.example.com/register" exampleResp404 rfl).1 (by decide)
  · exact (C3_status_gating.2.1 Discovery10ProviderMetadata _ _ _ exampleIssuer _
      exampleOkResponse rfl rfl).2 rfl

/-- C4: a `client_name` map `(None ↦ "Acme", Some "fr" ↦ "Acmé")` serializes
to exactly the two top-level keys `client_name` and `client_name#fr` (next
to the required `redirect_uris` key), and deserializing an object with those
two keys reconstructs that two-entry map with the untagged variant under the
`None` key; likewise for the other four language-tagged fields. -/
theorem C4_language_tag_encoding :
    (Registration10ClientMetadata.serialize { baseMetadata with client_name := some [(none, "Acme"), (some "fr", "Acmé")] }
      = [("redirect_uris", encStrList ["https://client.example.org/callback"]),
        ("client_name", Json.str "Acme"), ("client_name#fr", Json.str "Acmé")])
    ∧ (Registration10ClientMetadata.deserialize
        [("redirect_uris", encStrList ["https://client.example.org/callback"]),
        ("client_name", Json.str "Acme"), ("client_name#fr", Json.str "Acmé")]
      = some { baseMetadata with client_name := some [(none, "Acme"), (some "fr", "Acmé")] })
    ∧ (Registration10ClientMetadata.serialize { baseMetadata with logo_uri := some [(none, "Acme"), (some "fr", "Acmé")] }
      = [("redirect_uris", encStrList ["https://client.example.org/callback"]),
        ("logo_uri", Json.str "Acme"), ("logo_uri#fr", Json.str "Acmé")])
    ∧ (Registration10ClientMetadata.deserialize
        [("redirect_uris", encStrList ["https://client.example.org/callback"]),
        ("logo_uri", Json.str "Acme"), ("logo_uri#fr", Json.str "Acmé")]
      = some { baseMetadata with logo_uri := some [(none, "Acme"), (some "fr", "Acmé")] })
    ∧ (Registration10ClientMetadata.serialize { baseMetadata with client_uri := some [(none, "Acme"), (some "fr", "Acmé")] }
      = [("redirect_uris", encStrList ["https://client.example.org/callback"]),
        ("client_uri", Json.str "Acme"), ("client_uri#fr", Json.str "Acmé")])
    ∧ (Registration10ClientMetadata.deserialize
        [("redirect_uris", encStrList ["https://client.example.org/callback"]),
        ("client_uri", Json.str "Acme"), ("client_uri#fr", Json.str "Acmé")]
      = some { baseMetadata with client_uri := some [(none, "Acme"), (some "fr", "Acmé")] })
    ∧ (Registration10ClientMetadata.serialize { baseMetadata with policy_uri := some [(none, "Acme"), (some "fr", "Acmé")] }
      = [("redirect_uris", encStrList ["https://client.example.org/callback"]),
        ("policy_uri", Json.str "Acme"), ("policy_uri#fr", Json.str "Acmé")])
    ∧ (Registration10ClientMetadata.deserialize
        [("redirect_uris", encStrList ["https://client.example.org/callback"]),
        ("policy_uri", Json.str "Acme"), ("policy_uri#fr", Json.str "Acmé")]
      = some { baseMetadata with policy_uri := some [(none, "Acme"), (some "fr", "Acmé")] })
    ∧ (Registration10ClientMetadata.serialize { baseMetadata with tos_uri := some [(none, "Acme"), (some "fr", "Acmé")] }
      = [("redirect_uris", encStrList ["https://client.example.org/callback"]),
        ("tos_uri", Json.str "Acme"), ("tos_uri#fr", Json.str "Acmé")])
    ∧ (Registration10ClientMetadata.deserialize
        [("redirect_uris", encStrList ["https://client.example.org/callback"]),
        ("tos_uri", Json.str "Acme"), ("tos_uri#fr", Json.str "Acmé")]
      = some { baseMetadata with tos_uri := some [(none, "Acme"), (some "fr", "Acmé")] })
    :=
  ⟨rfl, rfl, rfl, rfl, rfl, rfl, rfl, rfl, rfl, rfl⟩

/-- C5: `get_provider_metadata u` fetches the URL formed by string
concatenation `u ++ "/.well-known/openid-configuration"` (the parsed discovery
URL is that very string and it is the URL of the GET request), and a failure
to parse that URL is returned as `UrlParse`. -/
theorem C5_discovery_url :
    CONFIG_URL_SUFFIX = "/.well-known/openid-configuration"
    ∧ (∀ (PM : Type) (issuerOf : PM → IssuerUrl) (decode : List Nat → Except JsonError PM)
        (http : HttpRequest → Except CurlError HttpResponse) (u : IssuerUrl) (du : Url),
        parseUrl (u ++ CONFIG_URL_SUFFIX) = Except.ok du →
        (get_provider_metadata PM issuerOf decode http u
          = discoveryFetch PM issuerOf decode http u du)
        ∧ du = u ++ CONFIG_URL_SUFFIX
        ∧ (discoveryRequest du).url = du
        ∧ (discoveryRequest du).method = HttpRequestMethod.Get)
    ∧ (∀ (PM : Type) (issuerOf : PM → IssuerUrl) (decode : List Nat → Except JsonError PM)
        (http : HttpRequest → Except CurlError HttpResponse) (u : IssuerUrl)
        (e : UrlParseError),
        parseUrl (u ++ CONFIG_URL_SUFFIX) = Except.error e →
        get_provider_metadata PM issuerOf decode http u
          = Except.error (DiscoveryError.UrlParse e)) := by
  refine ⟨rfl, ?_, ?_⟩
  · intro PM issuerOf decode http u du hp
    refine ⟨?_, ?_, rfl, rfl⟩
    · unfold get_provider_metadata
      rw [hp]
    · unfold parseUrl at hp
      split at hp
      · split at hp
        · exact absurd hp (by simp)
        · simp only [Except.ok.injEq] at hp
          exact hp.symm
      · exact absurd hp (by simp)
  · intro PM issuerOf decode http u e hp
    unfold get_provider_metadata
    rw [hp]

/-- C5 witness: the discovery pipeline at a concrete issuer equals the fetch
stage applied to the concatenated well-known URL. -/
theorem C5_discovery_url_witness :
    get_provider_metadata Discovery10ProviderMetadata Discovery10ProviderMetadata.issuer
        (fun _ => Except.ok exampleProviderMetadata) (fun _ => Except.ok exampleOkResponse)
        exampleIssuer
      = discoveryFetch Discovery10ProviderMetadata Discovery10ProviderMetadata.issuer
          (fun _ => Except.ok exampleProviderMetadata) (fun _ => Except.ok exampleOkResponse)
          exampleIssuer (exampleIssuer ++ CONFIG_URL_SUFFIX) :=
  (C5_discovery_url.2.1 Discovery10ProviderMetadata Discovery10ProviderMetadata.issuer
    (fun _ => Except.ok exampleProviderMetadata) (fun _ => Except.ok exampleOkResponse)
    exampleIssuer (exampleIssuer ++ CONFIG_URL_SUFFIX) rfl).1

/-- C6: in `register`, once the status gate and the content-type check pass:
a body that is not valid UTF-8 yields the `Other` error; on status 400 the
body is decoded as an `ErrorResponse` and returned as `ServerResponse` (or
`Json` when that decode fails); on status 201 the body is decoded as the
registration response, with decode failure returned as `Json`. -/
theorem C6_register_body_errors :
    ∀ (CR : Type) (self : Registration10ClientRegistrationRequest)
      (decodeErr : String → Except JsonError ErrorResponse)
      (decodeCR : String → Except JsonError CR)
      (http : HttpRequest → Except CurlError HttpResponse)
      (endpoint : RegistrationUrl) (resp : HttpResponse),
      http (ClientRegistrationRequest.build_request self endpoint) = Except.ok resp →
      check_content_type resp MIME_TYPE_JSON = Except.ok () →
      ((resp.status_code = HTTP_STATUS_CREATED ∨ resp.status_code = HTTP_STATUS_BAD_REQUEST) →
        utf8Decode resp.body = none →
        ClientRegistrationRequest.register CR self decodeErr decodeCR http endpoint
          = Except.error (ClientRegistrationError.Other utf8ErrorMessage))
      ∧ (∀ body, utf8Decode resp.body = some body →
          resp.status_code = HTTP_STATUS_BAD_REQUEST →
          (∀ e2, decodeErr body = Except.ok e2 →
            ClientRegistrationRequest.register CR self decodeErr decodeCR http endpoint
              = Except.error (ClientRegistrationError.ServerResponse e2))
          ∧ (∀ j, decodeErr body = Except.error j →
            ClientRegistrationRequest.register CR self decodeErr decodeCR http endpoint
              = Except.error (ClientRegistrationError.Json j)))
      ∧ (∀ body, utf8Decode resp.body = some body →
          resp.status_code = HTTP_STATUS_CREATED →
          (∀ r2, decodeCR body = Except.ok r2 →
            ClientRegistrationRequest.register CR self decodeErr decodeCR http endpoint
              = Except.ok r2)
          ∧ (∀ j, decodeCR body = Except.error j →
            ClientRegistrationRequest.register CR self decodeErr decodeCR http endpoint
              = Except.error (ClientRegistrationError.Json j))) := by
  intro CR self decodeErr decodeCR http endpoint resp hh hct
  refine ⟨?_, ?_, ?_⟩
  · intro hst hu
    unfold ClientRegistrationRequest.register
    rw [hh]
    dsimp only
    rw [if_neg (fun hc => hst.elim hc.1 hc.2)]
    unfold ClientRegistrationRequest.after_status
    rw [hct]
    dsimp only
    rw [hu]
  · intro body hu hst
    constructor
    · intro e2 he
      unfold ClientRegistrationRequest.register
      rw [hh]
      dsimp only
      rw [if_neg (fun hc => hc.2 hst)]
      unfold ClientRegistrationRequest.after_status
      rw [hct]
      dsimp only
      rw [hu]
      dsimp only
      rw [if_pos hst, he]
    · intro j hj
      unfold ClientRegistrationRequest.register
      rw [hh]
      dsimp only
      rw [if_neg (fun hc => hc.2 hst)]
      unfold ClientRegistrationRequest.after_status
      rw [hct]
      dsimp only
      rw [hu]
      dsimp only
      rw [if_pos hst, hj]
  · intro body hu hst
    constructor
    · intro r2 hr
      unfold ClientRegistrationRequest.register
      rw [hh]
      dsimp only
      rw [if_neg (fun hc => hc.1 hst)]
      unfold ClientRegistrationRequest.after_status
      rw [hct]
      dsimp only
      rw [hu]
      dsimp only
      rw [hst, if_neg (by decide), hr]
    · intro j hj
      unfold ClientRegistrationRequest.register
      rw [hh]
      dsimp only
      rw [if_neg (fun hc => hc.1 hst)]
      unfold ClientRegistrationRequest.after_status
      rw [hct]
      dsimp only
      rw [hu]
      dsimp only
      rw [hst, if_neg (by decide), hj]

/-- C6 witness: a 400 response whose body byte `0xFF` is not valid UTF-8 makes
`register` fail with the `Other` error. -/
theorem C6_register_body_errors_witness :
    ClientRegistrationRequest.register Registration10ClientRegistrationResponse
        (Registration10ClientRegistrationRequest.new ["https://client.example.org/callback"])
        (fun _ => Except.error "no decode") (fun _ => Except.error "no decode")
        (fun _ => Except.ok exampleResp400BadBody) "https://server.example.com/register"
      = Except.error (ClientRegistrationError.Other utf8ErrorMessage) :=
  (C6_register_body_errors Registration10ClientRegistrationResponse
    (Registration10ClientRegistrationRequest.new ["https://client.example.org/callback"])
    (fun _ => Except.error "no decode") (fun _ => Except.error "no decode")
    (fun _ => Except.ok exampleResp400BadBody) "https://server.example.com/register"
    exampleResp400BadBody rfl rfl).1 (Or.inr rfl) rfl

/-- C7: the POST built by `register` carries `Accept: application/json` and
`Content-Type: application/json`, and carries `Authorization: Bearer <token>`
if and only if an initial access token was set on the request. -/
theorem C7_register_headers :
    ∀ (self : Registration10ClientRegistrationRequest) (endpoint : RegistrationUrl),
      ACCEPT_JSON ∈ (ClientRegistrationRequest.build_request self endpoint).headers
      ∧ CONTENT_TYPE_JSON ∈ (ClientRegistrationRequest.build_request self endpoint).headers
      ∧ ACCEPT_JSON = ("Accept", "application/json")
      ∧ CONTENT_TYPE_JSON = ("Content-Type", "application/json")
      ∧ (∀ t, self.initial_access_token = some t →
          ("Authorization", "Bearer " ++ t)
            ∈ (ClientRegistrationRequest.build_request self endpoint).headers)
      ∧ (self.initial_access_token = none →
          ∀ v, ("Authorization", v)
            ∉ (ClientRegistrationRequest.build_request self endpoint).headers) := by
  intro self endpoint
  refine ⟨?_, ?_, rfl, rfl, ?_, ?_⟩
  · unfold ClientRegistrationRequest.build_request
    simp
  · unfold ClientRegistrationRequest.build_request
    simp
  · intro t ht
    unfold ClientRegistrationRequest.build_request
    rw [ht]
    simp [auth_bearer]
  · intro hn v
    unfold ClientRegistrationRequest.build_request
    rw [hn]
    simp [ACCEPT_JSON, CONTENT_TYPE_JSON, MIME_TYPE_JSON]

/-- C7 witness: a request carrying an initial access token sends the matching
bearer header. -/
theorem C7_register_headers_witness :
    ("Authorization", "Bearer " ++ "token0")
      ∈ (ClientRegistrationRequest.build_request
          ((Registration10ClientRegistrationRequest.new
            ["https://client.example.org/callback"]).set_initial_access_token (some "token0"))
          "https://server.example.com/register").headers :=
  (C7_register_headers
    ((Registration10ClientRegistrationRequest.new
      ["https://client.example.org/callback"]).set_initial_access_token (some "token0"))
    "https://server.example.com/register").2.2.2.2.1 "token0" rfl

/-- C8 (amended): the accessors return `none` when the wire field is absent;
when the wire value `n` is present they first apply the source's wrapping
`as i64` cast and then return `Some(Ok(instant))` at the cast value when it
lies in chrono's representable range — in particular the instant at `n`
seconds after the epoch for every `n < 2^63` in range — and `Some(Err(()))`
when the cast value is out of range.  The amendment is forced by the
counterexample: for `n ≥ 2^63` the cast wraps, so some out-of-range wire
values (near `u64::MAX`) yield `Ok` at a negative instant instead of `Err`. -/
theorem C8_timestamp_amended :
    ∀ (r2 : Registration10ClientRegistrationResponse),
      (r2.client_id_issued_at = none →
        ClientRegistrationResponse.client_id_issued_at r2 = none)
      ∧ (∀ seconds, r2.client_id_issued_at = some seconds →
          ((chronoMinTimestamp ≤ i64_of_u64 seconds
              ∧ i64_of_u64 seconds ≤ chronoMaxTimestamp) →
            ClientRegistrationResponse.client_id_issued_at r2
              = some (Except.ok (i64_of_u64 seconds)))
          ∧ (¬(chronoMinTimestamp ≤ i64_of_u64 seconds
              ∧ i64_of_u64 seconds ≤ chronoMaxTimestamp) →
            ClientRegistrationResponse.client_id_issued_at r2
              = some (Except.error ())))
      ∧ (r2.client_secret_expires_at = none →
        ClientRegistrationResponse.client_secret_expires_at r2 = none)
      ∧ (∀ seconds, r2.client_secret_expires_at = some seconds →
          ((chronoMinTimestamp ≤ i64_of_u64 seconds
              ∧ i64_of_u64 seconds ≤ chronoMaxTimestamp) →
            ClientRegistrationResponse.client_secret_expires_at r2
              = some (Except.ok (i64_of_u64 seconds)))
          ∧ (¬(chronoMinTimestamp ≤ i64_of_u64 seconds
              ∧ i64_of_u64 seconds ≤ chronoMaxTimestamp) →
            ClientRegistrationResponse.client_secret_expires_at r2
              = some (Except.error ()))) := by
  intro r2
  refine ⟨?_, ?_, ?_, ?_⟩
  · intro h
    unfold ClientRegistrationResponse.client_id_issued_at
    rw [h]
    rfl
  · intro seconds h
    constructor
    · intro hin
      unfold ClientRegistrationResponse.client_id_issued_at
      rw [h]
      dsimp only [Option.map]
      unfold timestamp_opt_single
      rw [if_pos hin]
    · intro hout
      unfold ClientRegistrationResponse.client_id_issued_at
      rw [h]
      dsimp only [Option.map]
      unfold timestamp_opt_single
      rw [if_neg hout]
  · intro h
    unfold ClientRegistrationResponse.client_secret_expires_at
    rw [h]
    rfl
  · intro seconds h
    constructor
    · intro hin
      unfold ClientRegistrationResponse.client_secret_expires_at
      rw [h]
      dsimp only [Option.map]
      unfold timestamp_opt_single
      rw [if_pos hin]
    · intro hout
      unfold ClientRegistrationResponse.client_secret_expires_at
      rw [h]
      dsimp only [Option.map]
      unfold timestamp_opt_single
      rw [if_neg hout]

/-- C8 counterexample: the claim as stated fails at the wire value
`u64::MAX`: `18446744073709551615` seconds after the epoch is far outside the
representable range, yet the accessor returns `Some(Ok(...))` — at one second
before the epoch — because the `as i64` cast wraps to `-1`. -/
theorem C8_timestamp_counterexample :
    ClientRegistrationResponse.client_secret_expires_at exampleFarFutureResponse
      = some (Except.ok (-1))
    ∧ ClientRegistrationResponse.client_secret_expires_at exampleFarFutureResponse
      ≠ some (Except.error ()) := by
  constructor
  · rfl
  · intro h
    rw [show ClientRegistrationResponse.client_secret_expires_at exampleFarFutureResponse
        = some (Except.ok (-1)) from rfl] at h
    simp only [Option.some.injEq] at h
    exact Except.noConfusion h

/-- C8 witness: a representable issue timestamp surfaces as `Ok` at that many
seconds after the epoch, and an absent expiry surfaces as `none`. -/
theorem C8_timestamp_amended_witness :
    ClientRegistrationResponse.client_id_issued_at exampleIssuedResponse
      = some (Except.ok 1000000000)
    ∧ ClientRegistrationResponse.client_secret_expires_at exampleIssuedResponse = none :=
  ⟨((C8_timestamp_amended exampleIssuedResponse).2.1 1000000000 rfl).1 (by decide),
    (C8_timestamp_amended exampleIssuedResponse).2.2.1 rfl⟩

/-- C9: the constructor `Registration10ClientRegistrationRequest::new rs`
yields a request whose metadata has `redirect_uris = rs`, every other
metadata field absent, and no initial access token. -/
theorem C9_new_defaults :
    ∀ (redirect_uris : List RedirectUrl),
      (Registration10ClientRegistrationRequest.new redirect_uris).client_metadata.redirect_uris = redirect_uris
      ∧ (Registration10ClientRegistrationRequest.new redirect_uris).client_metadata.response_types = none
      ∧ (Registration10ClientRegistrationRequest.new redirect_uris).client_metadata.grant_types = none
      ∧ (Registration10ClientRegistrationRequest.new redirect_uris).client_metadata.application_type = none
      ∧ (Registration10ClientRegistrationRequest.new redirect_uris).client_metadata.contacts = none
      ∧ (Registration10ClientRegistrationRequest.new redirect_uris).client_metadata.client_name = none
      ∧ (Registration10ClientRegistrationRequest.new redirect_uris).client_metadata.logo_uri = none
      ∧ (Registration10ClientRegistrationRequest.new redirect_uris).client_metadata.client_uri = none
      ∧ (Registration10ClientRegistrationRequest.new redirect_uris).client_metadata.policy_uri = none
      ∧ (Registration10ClientRegistrationRequest.new redirect_uris).client_metadata.tos_uri = none
      ∧ (Registration10ClientRegistrationRequest.new redirect_uris).client_metadata.jwks_uri = none
      ∧ (Registration10ClientRegistrationRequest.new redirect_uris).client_metadata.jwks = none
      ∧ (Registration10ClientRegistrationRequest.new redirect_uris).client_metadata.sector_identifier_uri = none
      ∧ (Registration10ClientRegistrationRequest.new redirect_uris).client_metadata.subject_type = none
      ∧ (Registration10ClientRegistrationRequest.new redirect_uris).client_metadata.id_token_signed_response_alg = none
      ∧ (Registration10ClientRegistrationRequest.new redirect_uris).client_metadata.id_token_encrypted_response_alg = none
      ∧ (Registration10ClientRegistrationRequest.new redirect_uris).client_metadata.id_token_encrypted_response_enc = none
      ∧ (Registration10ClientRegistrationRequest.new redirect_uris).client_metadata.userinfo_signed_response_alg = none
      ∧ (Registration10ClientRegistrationRequest.new redirect_uris).client_metadata.userinfo_encrypted_response_alg = none
      ∧ (Registration10ClientRegistrationRequest.new redirect_uris).client_metadata.userinfo_encrypted_response_enc = none
      ∧ (Registration10ClientRegistrationRequest.new redirect_uris).client_metadata.request_object_signing_alg = none
      ∧ (Registration10ClientRegistrationRequest.new redirect_uris).client_metadata.request_object_encryption_alg = none
      ∧ (Registration10ClientRegistrationRequest.new redirect_uris).client_metadata.request_object_encryption_enc = none
      ∧ (Registration10ClientRegistrationRequest.new redirect_uris).client_metadata.token_endpoint_auth_method = none
      ∧ (Registration10ClientRegistrationRequest.new redirect_uris).client_metadata.token_endpoint_auth_signing_alg = none
      ∧ (Registration10ClientRegistrationRequest.new redirect_uris).client_metadata.default_max_age = none
      ∧ (Registration10ClientRegistrationRequest.new redirect_uris).client_metadata.require_auth_time = none
      ∧ (Registration10ClientRegistrationRequest.new redirect_uris).client_metadata.default_acr_values = none
      ∧ (Registration10ClientRegistrationRequest.new redirect_uris).client_metadata.initiate_login_uri = none
      ∧ (Registration10ClientRegistrationRequest.new redirect_uris).client_metadata.request_uris = none
      ∧ (Registration10ClientRegistrationRequest.new redirect_uris).initial_access_token = none
    :=
  fun redirect_uris => ⟨rfl, rfl, rfl, rfl, rfl, rfl, rfl, rfl, rfl, rfl, rfl, rfl, rfl, rfl, rfl, rfl, rfl, rfl, rfl, rfl, rfl, rfl, rfl, rfl, rfl, rfl, rfl, rfl, rfl, rfl, rfl⟩

/-- C10: every setter (including `set_initial_access_token`) sets exactly
its own field to the given value and leaves every other client-metadata
field and the initial access token unchanged. -/
theorem C10_setters_frame :
    (∀ (r : Registration10ClientRegistrationRequest) (v : List RedirectUrl),
      (r.set_redirect_uris v).client_metadata.redirect_uris = v
      ∧ (r.set_redirect_uris v).client_metadata.response_types = r.client_metadata.response_types
      ∧ (r.set_redirect_uris v).client_metadata.grant_types = r.client_metadata.grant_types
      ∧ (r.set_redirect_uris v).client_metadata.application_type = r.client_metadata.application_type
      ∧ (r.set_redirect_uris v).client_metadata.contacts = r.client_metadata.contacts
      ∧ (r.set_redirect_uris v).client_metadata.client_name = r.client_metadata.client_name
      ∧ (r.set_redirect_uris v).client_metadata.logo_uri = r.client_metadata.logo_uri
      ∧ (r.set_redirect_uris v).client_metadata.client_uri = r.client_metadata.client_uri
      ∧ (r.set_redirect_uris v).client_metadata.policy_uri = r.client_metadata.policy_uri
      ∧ (r.set_redirect_uris v).client_metadata.tos_uri = r.client_metadata.tos_uri
      ∧ (r.set_redirect_uris v).client_metadata.jwks_uri = r.client_metadata.jwks_uri
      ∧ (r.set_redirect_uris v).client_metadata.jwks = r.client_metadata.jwks
      ∧ (r.set_redirect_uris v).client_metadata.sector_identifier_uri = r.client_metadata.sector_identifier_uri
      ∧ (r.set_redirect_uris v).client_metadata.subject_type = r.client_metadata.subject_type
      ∧ (r.set_redirect_uris v).client_metadata.id_token_signed_response_alg = r.client_metadata.id_token_signed_response_alg
      ∧ (r.set_redirect_uris v).client_metadata.id_token_encrypted_response_alg = r.client_metadata.id_token_encrypted_response_alg
      ∧ (r.set_redirect_uris v).client_metadata.id_token_encrypted_response_enc = r.client_metadata.id_token_encrypted_response_enc
      ∧ (r.set_redirect_uris v).client_metadata.userinfo_signed_response_alg = r.client_metadata.userinfo_signed_response_alg
      ∧ (r.set_redirect_uris v).client_metadata.userinfo_encrypted_response_alg = r.client_metadata.userinfo_encrypted_response_alg
      ∧ (r.set_redirect_uris v).client_metadata.userinfo_encrypted_response_enc = r.client_metadata.userinfo_encrypted_response_enc
      ∧ (r.set_redirect_uris v).client_metadata.request_object_signing_alg = r.client_metadata.request_object_signing_alg
      ∧ (r.set_redirect_uris v).client_metadata.request_object_encryption_alg = r.client_metadata.request_object_encryption_alg
      ∧ (r.set_redirect_uris v).client_metadata.request_object_encryption_enc = r.client_metadata.request_object_encryption_enc
      ∧ (r.set_redirect_uris v).client_metadata.token_endpoint_auth_method = r.client_metadata.token_endpoint_auth_method
      ∧ (r.set_redirect_uris v).client_metadata.token_endpoint_auth_signing_alg = r.client_metadata.token_endpoint_auth_signing_alg
      ∧ (r.set_redirect_uris v).client_metadata.default_max_age = r.client_metadata.default_max_age
      ∧ (r.set_redirect_uris v).client_metadata.require_auth_time = r.client_metadata.require_auth_time
      ∧ (r.set_redirect_uris v).client_metadata.default_acr_values = r.client_metadata.default_acr_values
      ∧ (r.set_redirect_uris v).client_metadata.initiate_login_uri = r.client_metadata.initiate_login_uri
      ∧ (r.set_redirect_uris v).client_metadata.request_uris = r.client_metadata.request_uris
      ∧ (r.set_redirect_uris v).initial_access_token = r.initial_access_token)
    ∧ (∀ (r : Registration10ClientRegistrationRequest) (v : Option (List ResponseTypes)),
      (r.set_response_types v).client_metadata.response_types = v
      ∧ (r.set_response_types v).client_metadata.redirect_uris = r.client_metadata.redirect_uris
      ∧ (r.set_response_types v).client_metadata.grant_types = r.client_metadata.grant_types
      ∧ (r.set_response_types v).client_metadata.application_type = r.client_metadata.application_type
      ∧ (r.set_response_types v).client_metadata.contacts = r.client_metadata.contacts
      ∧ (r.set_response_types v).client_metadata.client_name = r.client_metadata.client_name
      ∧ (r.set_response_types v).client_metadata.logo_uri = r.client_metadata.logo_uri
      ∧ (r.set_response_types v).client_metadata.client_uri = r.client_metadata.client_uri
      ∧ (r.set_response_types v).client_metadata.policy_uri = r.client_metadata.policy_uri
      ∧ (r.set_response_types v).client_metadata.tos_uri = r.client_metadata.tos_uri
      ∧ (r.set_response_types v).client_metadata.jwks_uri = r.client_metadata.jwks_uri
      ∧ (r.set_response_types v).client_metadata.jwks = r.client_metadata.jwks
      ∧ (r.set_response_types v).client_metadata.sector_identifier_uri = r.client_metadata.sector_identifier_uri
      ∧ (r.set_response_types v).client_metadata.subject_type = r.client_metadata.subject_type
      ∧ (r.set_response_types v).client_metadata.id_token_signed_response_alg = r.client_metadata.id_token_signed_response_alg
      ∧ (r.set_response_types v).client_metadata.id_token_encrypted_response_alg = r.client_metadata.id_token_encrypted_response_alg
      ∧ (r.set_response_types v).client_metadata.id_token_encrypted_response_enc = r.client_metadata.id_token_encrypted_response_enc
      ∧ (r.set_response_types v).client_metadata.userinfo_signed_response_alg = r.client_metadata.userinfo_signed_response_alg
      ∧ (r.set_response_types v).client_metadata.userinfo_encrypted_response_alg = r.client_metadata.userinfo_encrypted_response_alg
      ∧ (r.set_response_types v).client_metadata.userinfo_encrypted_response_enc = r.client_metadata.userinfo_encrypted_response_enc
      ∧ (r.set_response_types v).client_metadata.request_object_signing_alg = r.client_metadata.request_object_signing_alg
      ∧ (r.set_response_types v).client_metadata.request_object_encryption_alg = r.client_metadata.request_object_encryption_alg
      ∧ (r.set_response_types v).client_metadata.request_object_encryption_enc = r.client_metadata.request_object_encryption_enc
      ∧ (r.set_response_types v).client_metadata.token_endpoint_auth_method = r.client_metadata.token_endpoint_auth_method
      ∧ (r.set_response_types v).client_metadata.token_endpoint_auth_signing_alg = r.client_metadata.token_endpoint_auth_signing_alg
      ∧ (r.set_response_types v).client_metadata.default_max_age = r.client_metadata.default_max_age
      ∧ (r.set_response_types v).client_metadata.require_auth_time = r.client_metadata.require_auth_time
      ∧ (r.set_response_types v).client_metadata.default_acr_values = r.client_metadata.default_acr_values
      ∧ (r.set_response_types v).client_metadata.initiate_login_uri = r.client_metadata.initiate_login_uri
      ∧ (r.set_response_types v).client_metadata.request_uris = r.client_metadata.request_uris
      ∧ (r.set_response_types v).initial_access_token = r.initial_access_token)
    ∧ (∀ (r : Registration10ClientRegistrationRequest) (v : Option (List GrantType)),
      (r.set_grant_types v).client_metadata.grant_types = v
      ∧ (r.set_grant_types v).client_metadata.redirect_uris = r.client_metadata.redirect_uris
      ∧ (r.set_grant_types v).client_metadata.response_types = r.client_metadata.response_types
      ∧ (r.set_grant_types v).client_metadata.application_type = r.client_metadata.application_type
      ∧ (r.set_grant_types v).client_metadata.contacts = r.client_metadata.contacts
      ∧ (r.set_grant_types v).client_metadata.client_name = r.client_metadata.client_name
      ∧ (r.set_grant_types v).client_metadata.logo_uri = r.client_metadata.logo_uri
      ∧ (r.set_grant_types v).client_metadata.client_uri = r.client_metadata.client_uri
      ∧ (r.set_grant_types v).client_metadata.policy_uri = r.client_metadata.policy_uri
      ∧ (r.set_grant_types v).client_metadata.tos_uri = r.client_metadata.tos_uri
      ∧ (r.set_grant_types v).client_metadata.jwks_uri = r.client_metadata.jwks_uri
      ∧ (r.set_grant_types v).client_metadata.jwks = r.client_metadata.jwks
      ∧ (r.set_grant_types v).client_metadata.sector_identifier_uri = r.client_metadata.sector_identifier_uri
      ∧ (r.set_grant_types v).client_metadata.subject_type = r.client_metadata.subject_type
      ∧ (r.set_grant_types v).client_metadata.id_token_signed_response_alg = r.client_metadata.id_token_signed_response_alg
      ∧ (r.set_grant_types v).client_metadata.id_token_encrypted_response_alg = r.client_metadata.id_token_encrypted_response_alg
      ∧ (r.set_grant_types v).client_metadata.id_token_encrypted_response_enc = r.client_metadata.id_token_encrypted_response_enc
      ∧ (r.set_grant_types v).client_metadata.userinfo_signed_response_alg = r.client_metadata.userinfo_signed_response_alg
      ∧ (r.set_grant_types v).client_metadata.userinfo_encrypted_response_alg = r.client_metadata.userinfo_encrypted_response_alg
      ∧ (r.set_grant_types v).client_metadata.userinfo_encrypted_response_enc = r.client_metadata.userinfo_encrypted_response_enc
      ∧ (r.set_grant_types v).client_metadata.request_object_signing_alg = r.client_metadata.request_object_signing_alg
      ∧ (r.set_grant_types v).client_metadata.request_object_encryption_alg = r.client_metadata.request_object_encryption_alg
      ∧ (r.set_grant_types v).client_metadata.request_object_encryption_enc = r.client_metadata.request_object_encryption_enc
      ∧ (r.set_grant_types v).client_metadata.token_endpoint_auth_method = r.client_metadata.token_endpoint_auth_method
      ∧ (r.set_grant_types v).client_metadata.token_endpoint_auth_signing_alg = r.client_metadata.token_endpoint_auth_signing_alg
      ∧ (r.set_grant_types v).client_metadata.default_max_age = r.client_metadata.default_max_age
      ∧ (r.set_grant_types v).client_metadata.require_auth_time = r.client_metadata.require_auth_time
      ∧ (r.set_grant_types v).client_metadata.default_acr_values = r.client_metadata.default_acr_values
      ∧ (r.set_grant_types v).client_metadata.initiate_login_uri = r.client_metadata.initiate_login_uri
      ∧ (r.set_grant_types v).client_metadata.request_uris = r.client_metadata.request_uris
      ∧ (r.set_grant_types v).initial_access_token = r.initial_access_token)
    ∧ (∀ (r : Registration10ClientRegistrationRequest) (v : Option ApplicationType),
      (r.set_application_type v).client_metadata.application_type = v
      ∧ (r.set_application_type v).client_metadata.redirect_uris = r.client_metadata.redirect_uris
      ∧ (r.set_application_type v).client_metadata.response_types = r.client_metadata.response_types
      ∧ (r.set_application_type v).client_metadata.grant_types = r.client_metadata.grant_types
      ∧ (r.set_application_type v).client_metadata.contacts = r.client_metadata.contacts
      ∧ (r.set_application_type v).client_metadata.client_name = r.client_metadata.client_name
      ∧ (r.set_application_type v).client_metadata.logo_uri = r.client_metadata.logo_uri
      ∧ (r.set_application_type v).client_metadata.client_uri = r.client_metadata.client_uri
      ∧ (r.set_application_type v).client_metadata.policy_uri = r.client_metadata.policy_uri
      ∧ (r.set_application_type v).client_metadata.tos_uri = r.client_metadata.tos_uri
      ∧ (r.set_application_type v).client_metadata.jwks_uri = r.client_metadata.jwks_uri
      ∧ (r.set_application_type v).client_metadata.jwks = r.client_metadata.jwks
      ∧ (r.set_application_type v).client_metadata.sector_identifier_uri = r.client_metadata.sector_identifier_uri
      ∧ (r.set_application_type v).client_metadata.subject_type = r.client_metadata.subject_type
      ∧ (r.set_application_type v).client_metadata.id_token_signed_response_alg = r.client_metadata.id_token_signed_response_alg
      ∧ (r.set_application_type v).client_metadata.id_token_encrypted_response_alg = r.client_metadata.id_token_encrypted_response_alg
      ∧ (r.set_application_type v).client_metadata.id_token_encrypted_response_enc = r.client_metadata.id_token_encrypted_response_enc
      ∧ (r.set_application_type v).client_metadata.userinfo_signed_response_alg = r.client_metadata.userinfo_signed_response_alg
      ∧ (r.set_application_type v).client_metadata.userinfo_encrypted_response_alg = r.client_metadata.userinfo_encrypted_response_alg
      ∧ (r.set_application_type v).client_metadata.userinfo_encrypted_response_enc = r.client_metadata.userinfo_encrypted_response_enc
      ∧ (r.set_application_type v).client_metadata.request_object_signing_alg = r.client_metadata.request_object_signing_alg
      ∧ (r.set_application_type v).client_metadata.request_object_encryption_alg = r.client_metadata.request_object_encryption_alg
      ∧ (r.set_application_type v).client_metadata.request_object_encryption_enc = r.client_metadata.request_object_encryption_enc
      ∧ (r.set_application_type v).client_metadata.token_endpoint_auth_method = r.client_metadata.token_endpoint_auth_method
      ∧ (r.set_application_type v).client_metadata.token_endpoint_auth_signing_alg = r.client_metadata.token_endpoint_auth_signing_alg
      ∧ (r.set_application_type v).client_metadata.default_max_age = r.client_metadata.default_max_age
      ∧ (r.set_application_type v).client_metadata.require_auth_time = r.client_metadata.require_auth_time
      ∧ (r.set_application_type v).client_metadata.default_acr_values = r.client_metadata.default_acr_values
      ∧ (r.set_application_type v).client_metadata.initiate_login_uri = r.client_metadata.initiate_login_uri
      ∧ (r.set_application_type v).client_metadata.request_uris = r.client_metadata.request_uris
      ∧ (r.set_application_type v).initial_access_token = r.initial_access_token)
    ∧ (∀ (r : Registration10ClientRegistrationRequest) (v : Option (List ContactEmail)),
      (r.set_contacts v).client_metadata.contacts = v
      ∧ (r.set_contacts v).client_metadata.redirect_uris = r.client_metadata.redirect_uris
      ∧ (r.set_contacts v).client_metadata.response_types = r.client_metadata.response_types
      ∧ (r.set_contacts v).client_metadata.grant_types = r.client_metadata.grant_types
      ∧ (r.set_contacts v).client_metadata.application_type = r.client_metadata.application_type
      ∧ (r.set_contacts v).client_metadata.client_name = r.client_metadata.client_name
      ∧ (r.set_contacts v).client_metadata.logo_uri = r.client_metadata.logo_uri
      ∧ (r.set_contacts v).client_metadata.client_uri = r.client_metadata.client_uri
      ∧ (r.set_contacts v).client_metadata.policy_uri = r.client_metadata.policy_uri
      ∧ (r.set_contacts v).client_metadata.tos_uri = r.client_metadata.tos_uri
      ∧ (r.set_contacts v).client_metadata.jwks_uri = r.client_metadata.jwks_uri
      ∧ (r.set_contacts v).client_metadata.jwks = r.client_metadata.jwks
      ∧ (r.set_contacts v).client_metadata.sector_identifier_uri = r.client_metadata.sector_identifier_uri
      ∧ (r.set_contacts v).client_metadata.subject_type = r.client_metadata.subject_type
      ∧ (r.set_contacts v).client_metadata.id_token_signed_response_alg = r.client_metadata.id_token_signed_response_alg
      ∧ (r.set_contacts v).client_metadata.id_token_encrypted_response_alg = r.client_metadata.id_token_encrypted_response_alg
      ∧ (r.set_contacts v).client_metadata.id_token_encrypted_response_enc = r.client_metadata.id_token_encrypted_response_enc
      ∧ (r.set_contacts v).client_metadata.userinfo_signed_response_alg = r.client_metadata.userinfo_signed_response_alg
      ∧ (r.set_contacts v).client_metadata.userinfo_encrypted_response_alg = r.client_metadata.userinfo_encrypted_response_alg
      ∧ (r.set_contacts v).client_metadata.userinfo_encrypted_response_enc = r.client_metadata.userinfo_encrypted_response_enc
      ∧ (r.set_contacts v).client_metadata.request_object_signing_alg = r.client_metadata.request_object_signing_alg
      ∧ (r.set_contacts v).client_metadata.request_object_encryption_alg = r.client_metadata.request_object_encryption_alg
      ∧ (r.set_contacts v).client_metadata.request_object_encryption_enc = r.client_metadata.request_object_encryption_enc
      ∧ (r.set_contacts v).client_metadata.token_endpoint_auth_method = r.client_metadata.token_endpoint_auth_method
      ∧ (r.set_contacts v).client_metadata.token_endpoint_auth_signing_alg = r.client_metadata.token_endpoint_auth_signing_alg
      ∧ (r.set_contacts v).client_metadata.default_max_age = r.client_metadata.default_max_age
      ∧ (r.set_contacts v).client_metadata.require_auth_time = r.client_metadata.require_auth_time
      ∧ (r.set_contacts v).client_metadata.default_acr_values = r.client_metadata.default_acr_values
      ∧ (r.set_contacts v).client_metadata.initiate_login_uri = r.client_metadata.initiate_login_uri
      ∧ (r.set_contacts v).client_metadata.request_uris = r.client_metadata.request_uris
      ∧ (r.set_contacts v).initial_access_token = r.initial_access_token)
    ∧ (∀ (r : Registration10ClientRegistrationRequest) (v : Option (List (Option LanguageTag × ClientName))),
      (r.set_client_name v).client_metadata.client_name = v
      ∧ (r.set_client_name v).client_metadata.redirect_uris = r.client_metadata.redirect_uris
      ∧ (r.set_client_name v).client_metadata.response_types = r.client_metadata.response_types
      ∧ (r.set_client_name v).client_metadata.grant_types = r.client_metadata.grant_types
      ∧ (r.set_client_name v).client_metadata.application_type = r.client_metadata.application_type
      ∧ (r.set_client_name v).client_metadata.contacts = r.client_metadata.contacts
      ∧ (r.set_client_name v).client_metadata.logo_uri = r.client_metadata.logo_uri
      ∧ (r.set_client_name v).client_metadata.client_uri = r.client_metadata.client_uri
      ∧ (r.set_client_name v).client_metadata.policy_uri = r.client_metadata.policy_uri
      ∧ (r.set_client_name v).client_metadata.tos_uri = r.client_metadata.tos_uri
      ∧ (r.set_client_name v).client_metadata.jwks_uri = r.client_metadata.jwks_uri
      ∧ (r.set_client_name v).client_metadata.jwks = r.client_metadata.jwks
      ∧ (r.set_client_name v).client_metadata.sector_identifier_uri = r.client_metadata.sector_identifier_uri
      ∧ (r.set_client_name v).client_metadata.subject_type = r.client_metadata.subject_type
      ∧ (r.set_client_name v).client_metadata.id_token_signed_response_alg = r.client_metadata.id_token_signed_response_alg
      ∧ (r.set_client_name v).client_metadata.id_token_encrypted_response_alg = r.client_metadata.id_token_encrypted_response_alg
      ∧ (r.set_client_name v).client_metadata.id_token_encrypted_response_enc = r.client_metadata.id_token_encrypted_response_enc
      ∧ (r.set_client_name v).client_metadata.userinfo_signed_response_alg = r.client_metadata.userinfo_signed_response_alg
      ∧ (r.set_client_name v).client_metadata.userinfo_encrypted_response_alg = r.client_metadata.userinfo_encrypted_response_alg
      ∧ (r.set_client_name v).client_metadata.userinfo_encrypted_response_enc = r.client_metadata.userinfo_encrypted_response_enc
      ∧ (r.set_client_name v).client_metadata.request_object_signing_alg = r.client_metadata.request_object_signing_alg
      ∧ (r.set_client_name v).client_metadata.request_object_encryption_alg = r.client_metadata.request_object_encryption_alg
      ∧ (r.set_client_name v).client_metadata.request_object_encryption_enc = r.client_metadata.request_object_encryption_enc
      ∧ (r.set_client_name v).client_metadata.token_endpoint_auth_method = r.client_metadata.token_endpoint_auth_method
      ∧ (r.set_client_name v).client_metadata.token_endpoint_auth_signing_alg = r.client_metadata.token_endpoint_auth_signing_alg
      ∧ (r.set_client_name v).client_metadata.default_max_age = r.client_metadata.default_max_age
      ∧ (r.set_client_name v).client_metadata.require_auth_time = r.client_metadata.require_auth_time
      ∧ (r.set_client_name v).client_metadata.default_acr_values = r.client_metadata.default_acr_values
      ∧ (r.set_client_name v).client_metadata.initiate_login_uri = r.client_metadata.initiate_login_uri
      ∧ (r.set_client_name v).client_metadata.request_uris = r.client_metadata.request_uris
      ∧ (r.set_client_name v).initial_access_token = r.initial_access_token)
    ∧ (∀ (r : Registration10ClientRegistrationRequest) (v : Option (List (Option LanguageTag × LogoUrl))),
      (r.set_logo_uri v).client_metadata.logo_uri = v
      ∧ (r.set_logo_uri v).client_metadata.redirect_uris = r.client_metadata.redirect_uris
      ∧ (r.set_logo_uri v).client_metadata.response_types = r.client_metadata.response_types
      ∧ (r.set_logo_uri v).client_metadata.grant_types = r.client_metadata.grant_types
      ∧ (r.set_logo_uri v).client_metadata.application_type = r.client_metadata.application_type
      ∧ (r.set_logo_uri v).client_metadata.contacts = r.client_metadata.contacts
      ∧ (r.set_logo_uri v).client_metadata.client_name = r.client_metadata.client_name
      ∧ (r.set_logo_uri v).client_metadata.client_uri = r.client_metadata.client_uri
      ∧ (r.set_logo_uri v).client_metadata.policy_uri = r.client_metadata.policy_uri
      ∧ (r.set_logo_uri v).client_metadata.tos_uri = r.client_metadata.tos_uri
      ∧ (r.set_logo_uri v).client_metadata.jwks_uri = r.client_metadata.jwks_uri
      ∧ (r.set_logo_uri v).client_metadata.jwks = r.client_metadata.jwks
      ∧ (r.set_logo_uri v).client_metadata.sector_identifier_uri = r.client_metadata.sector_identifier_uri
      ∧ (r.set_logo_uri v).client_metadata.subject_type = r.client_metadata.subject_type
      ∧ (r.set_logo_uri v).client_metadata.id_token_signed_response_alg = r.client_metadata.id_token_signed_response_alg
      ∧ (r.set_logo_uri v).client_metadata.id_token_encrypted_response_alg = r.client_metadata.id_token_encrypted_response_alg
      ∧ (r.set_logo_uri v).client_metadata.id_token_encrypted_response_enc = r.client_metadata.id_token_encrypted_response_enc
      ∧ (r.set_logo_uri v).client_metadata.userinfo_signed_response_alg = r.client_metadata.userinfo_signed_response_alg
      ∧ (r.set_logo_uri v).client_metadata.userinfo_encrypted_response_alg = r.client_metadata.userinfo_encrypted_response_alg
      ∧ (r.set_logo_uri v).client_metadata.userinfo_encrypted_response_enc = r.client_metadata.userinfo_encrypted_response_enc
      ∧ (r.set_logo_uri v).client_metadata.request_object_signing_alg = r.client_metadata.request_object_signing_alg
      ∧ (r.set_logo_uri v).client_metadata.request_object_encryption_alg = r.client_metadata.request_object_encryption_alg
      ∧ (r.set_logo_uri v).client_metadata.request_object_encryption_enc = r.client_metadata.request_object_encryption_enc
      ∧ (r.set_logo_uri v).client_metadata.token_endpoint_auth_method = r.client_metadata.token_endpoint_auth_method
      ∧ (r.set_logo_uri v).client_metadata.token_endpoint_auth_signing_alg = r.client_metadata.token_endpoint_auth_signing_alg
      ∧ (r.set_logo_uri v).client_metadata.default_max_age = r.client_metadata.default_max_age
      ∧ (r.set_logo_uri v).client_metadata.require_auth_time = r.client_metadata.require_auth_time
      ∧ (r.set_logo_uri v).client_metadata.default_acr_values = r.client_metadata.default_acr_values
      ∧ (r.set_logo_uri v).client_metadata.initiate_login_uri = r.client_metadata.initiate_login_uri
      ∧ (r.set_logo_uri v).client_metadata.request_uris = r.client_metadata.request_uris
      ∧ (r.set_logo_uri v).initial_access_token = r.initial_access_token)
    ∧ (∀ (r : Registration10ClientRegistrationRequest) (v : Option (List (Option LanguageTag × ClientUrl))),
      (r.set_client_uri v).client_metadata.client_uri = v
      ∧ (r.set_client_uri v).client_metadata.redirect_uris = r.client_metadata.redirect_uris
      ∧ (r.set_client_uri v).client_metadata.response_types = r.client_metadata.response_types
      ∧ (r.set_client_uri v).client_metadata.grant_types = r.client_metadata.grant_types
      ∧ (r.set_client_uri v).client_metadata.application_type = r.client_metadata.application_type
      ∧ (r.set_client_uri v).client_metadata.contacts = r.client_metadata.contacts
      ∧ (r.set_client_uri v).client_metadata.client_name = r.client_metadata.client_name
      ∧ (r.set_client_uri v).client_metadata.logo_uri = r.client_metadata.logo_uri
      ∧ (r.set_client_uri v).client_metadata.policy_uri = r.client_metadata.policy_uri
      ∧ (r.set_client_uri v).client_metadata.tos_uri = r.client_metadata.tos_uri
      ∧ (r.set_client_uri v).client_metadata.jwks_uri = r.client_metadata.jwks_uri
      ∧ (r.set_client_uri v).client_metadata.jwks = r.client_metadata.jwks
      ∧ (r.set_client_uri v).client_metadata.sector_identifier_uri = r.client_metadata.sector_identifier_uri
      ∧ (r.set_client_uri v).client_metadata.subject_type = r.client_metadata.subject_type
      ∧ (r.set_client_uri v).client_metadata.id_token_signed_response_alg = r.client_metadata.id_token_signed_response_alg
      ∧ (r.set_client_uri v).client_metadata.id_token_encrypted_response_alg = r.client_metadata.id_token_encrypted_response_alg
      ∧ (r.set_client_uri v).client_metadata.id_token_encrypted_response_enc = r.client_metadata.id_token_encrypted_response_enc
      ∧ (r.set_client_uri v).client_metadata.userinfo_signed_response_alg = r.client_metadata.userinfo_signed_response_alg
      ∧ (r.set_client_uri v).client_metadata.userinfo_encrypted_response_alg = r.client_metadata.userinfo_encrypted_response_alg
      ∧ (r.set_client_uri v).client_metadata.userinfo_encrypted_response_enc = r.client_metadata.userinfo_encrypted_response_enc
      ∧ (r.set_client_uri v).client_metadata.request_object_signing_alg = r.client_metadata.request_object_signing_alg
      ∧ (r.set_client_uri v).client_metadata.request_object_encryption_alg = r.client_metadata.request_object_encryption_alg
      ∧ (r.set_client_uri v).client_metadata.request_object_encryption_enc = r.client_metadata.request_object_encryption_enc
      ∧ (r.set_client_uri v).client_metadata.token_endpoint_auth_method = r.client_metadata.token_endpoint_auth_method
      ∧ (r.set_client_uri v).client_metadata.token_endpoint_auth_signing_alg = r.client_metadata.token_endpoint_auth_signing_alg
      ∧ (r.set_client_uri v).client_metadata.default_max_age = r.client_metadata.default_max_age
      ∧ (r.set_client_uri v).client_metadata.require_auth_time = r.client_metadata.require_auth_time
      ∧ (r.set_client_uri v).client_metadata.default_acr_values = r.client_metadata.default_acr_values
      ∧ (r.set_client_uri v).client_metadata.initiate_login_uri = r.client_metadata.initiate_login_uri
      ∧ (r.set_client_uri v).client_metadata.request_uris = r.client_metadata.request_uris
      ∧ (r.set_client_uri v).initial_access_token = r.initial_access_token)
    ∧ (∀ (r : Registration10ClientRegistrationRequest) (v : Option (List (Option LanguageTag × PolicyUrl))),
      (r.set_policy_uri v).client_metadata.policy_uri = v
      ∧ (r.set_policy_uri v).client_metadata.redirect_uris = r.client_metadata.redirect_uris
      ∧ (r.set_policy_uri v).client_metadata.response_types = r.client_metadata.response_types
      ∧ (r.set_policy_uri v).client_metadata.grant_types = r.client_metadata.grant_types
      ∧ (r.set_policy_uri v).client_metadata.application_type = r.client_metadata.application_type
      ∧ (r.set_policy_uri v).client_metadata.contacts = r.client_metadata.contacts
      ∧ (r.set_policy_uri v).client_metadata.client_name = r.client_metadata.client_name
      ∧ (r.set_policy_uri v).client_metadata.logo_uri = r.client_metadata.logo_uri
      ∧ (r.set_policy_uri v).client_metadata.client_uri = r.client_metadata.client_uri
      ∧ (r.set_policy_uri v).client_metadata.tos_uri = r.client_metadata.tos_uri
      ∧ (r.set_policy_uri v).client_metadata.jwks_uri = r.client_metadata.jwks_uri
      ∧ (r.set_policy_uri v).client_metadata.jwks = r.client_metadata.jwks
      ∧ (r.set_policy_uri v).client_metadata.sector_identifier_uri = r.client_metadata.sector_identifier_uri
      ∧ (r.set_policy_uri v).client_metadata.subject_type = r.client_metadata.subject_type
      ∧ (r.set_policy_uri v).client_metadata.id_token_signed_response_alg = r.client_metadata.id_token_signed_response_alg
      ∧ (r.set_policy_uri v).client_metadata.id_token_encrypted_response_alg = r.client_metadata.id_token_encrypted_response_alg
      ∧ (r.set_policy_uri v).client_metadata.id_token_encrypted_response_enc = r.client_metadata.id_token_encrypted_response_enc
      ∧ (r.set_policy_uri v).client_metadata.userinfo_signed_response_alg = r.client_metadata.userinfo_signed_response_alg
      ∧ (r.set_policy_uri v).client_metadata.userinfo_encrypted_response_alg = r.client_metadata.userinfo_encrypted_response_alg
      ∧ (r.set_policy_uri v).client_metadata.userinfo_encrypted_response_enc = r.client_metadata.userinfo_encrypted_response_enc
      ∧ (r.set_policy_uri v).client_metadata.request_object_signing_alg = r.client_metadata.request_object_signing_alg
      ∧ (r.set_policy_uri v).client_metadata.request_object_encryption_alg = r.client_metadata.request_object_encryption_alg
      ∧ (r.set_policy_uri v).client_metadata.request_object_encryption_enc = r.client_metadata.request_object_encryption_enc
      ∧ (r.set_policy_uri v).client_metadata.token_endpoint_auth_method = r.client_metadata.token_endpoint_auth_method
      ∧ (r.set_policy_uri v).client_metadata.token_endpoint_auth_signing_alg = r.client_metadata.token_endpoint_auth_signing_alg
      ∧ (r.set_policy_uri v).client_metadata.default_max_age = r.client_metadata.default_max_age
      ∧ (r.set_policy_uri v).client_metadata.require_auth_time = r.client_metadata.require_auth_time
      ∧ (r.set_policy_uri v).client_metadata.default_acr_values = r.client_metadata.default_acr_values
      ∧ (r.set_policy_uri v).client_metadata.initiate_login_uri = r.client_metadata.initiate_login_uri
      ∧ (r.set_policy_uri v).client_metadata.request_uris = r.client_metadata.request_uris
      ∧ (r.set_policy_uri v).initial_access_token = r.initial_access_token)
    ∧ (∀ (r : Registration10ClientRegistrationRequest) (v : Option (List (Option LanguageTag × ToSUrl))),
      (r.set_tos_uri v).client_metadata.tos_uri = v
      ∧ (r.set_tos_uri v).client_metadata.redirect_uris = r.client_metadata.redirect_uris
      ∧ (r.set_tos_uri v).client_metadata.response_types = r.client_metadata.response_types
      ∧ (r.set_tos_uri v).client_metadata.grant_types = r.client_metadata.grant_types
      ∧ (r.set_tos_uri v).client_metadata.application_type = r.client_metadata.application_type
      ∧ (r.set_tos_uri v).client_metadata.contacts = r.client_metadata.contacts
      ∧ (r.set_tos_uri v).client_metadata.client_name = r.client_metadata.client_name
      ∧ (r.set_tos_uri v).client_metadata.logo_uri = r.client_metadata.logo_uri
      ∧ (r.set_tos_uri v).client_metadata.client_uri = r.client_metadata.client_uri
      ∧ (r.set_tos_uri v).client_metadata.policy_uri = r.client_metadata.policy_uri
      ∧ (r.set_tos_uri v).client_metadata.jwks_uri = r.client_metadata.jwks_uri
      ∧ (r.set_tos_uri v).client_metadata.jwks = r.client_metadata.jwks
      ∧ (r.set_tos_uri v).client_metadata.sector_identifier_uri = r.client_metadata.sector_identifier_uri
      ∧ (r.set_tos_uri v).client_metadata.subject_type = r.client_metadata.subject_type
      ∧ (r.set_tos_uri v).client_metadata.id_token_signed_response_alg = r.client_metadata.id_token_signed_response_alg
      ∧ (r.set_tos_uri v).client_metadata.id_token_encrypted_response_alg = r.client_metadata.id_token_encrypted_response_alg
      ∧ (r.set_tos_uri v).client_metadata.id_token_encrypted_response_enc = r.client_metadata.id_token_encrypted_response_enc
      ∧ (r.set_tos_uri v).client_metadata.userinfo_signed_response_alg = r.client_metadata.userinfo_signed_response_alg
      ∧ (r.set_tos_uri v).client_metadata.userinfo_encrypted_response_alg = r.client_metadata.userinfo_encrypted_response_alg
      ∧ (r.set_tos_uri v).client_metadata.userinfo_encrypted_response_enc = r.client_metadata.userinfo_encrypted_response_enc
      ∧ (r.set_tos_uri v).client_metadata.request_object_signing_alg = r.client_metadata.request_object_signing_alg
      ∧ (r.set_tos_uri v).client_metadata.request_object_encryption_alg = r.client_metadata.request_object_encryption_alg
      ∧ (r.set_tos_uri v).client_metadata.request_object_encryption_enc = r.client_metadata.request_object_encryption_enc
      ∧ (r.set_tos_uri v).client_metadata.token_endpoint_auth_method = r.client_metadata.token_endpoint_auth_method
      ∧ (r.set_tos_uri v).client_metadata.token_endpoint_auth_signing_alg = r.client_metadata.token_endpoint_auth_signing_alg
      ∧ (r.set_tos_uri v).client_metadata.default_max_age = r.client_metadata.default_max_age
      ∧ (r.set_tos_uri v).client_metadata.require_auth_time = r.client_metadata.require_auth_time
      ∧ (r.set_tos_uri v).client_metadata.default_acr_values = r.client_metadata.default_acr_values
      ∧ (r.set_tos_uri v).client_metadata.initiate_login_uri = r.client_metadata.initiate_login_uri
      ∧ (r.set_tos_uri v).client_metadata.request_uris = r.client_metadata.request_uris
      ∧ (r.set_tos_uri v).initial_access_token = r.initial_access_token)
    ∧ (∀ (r : Registration10ClientRegistrationRequest) (v : Option JsonWebKeySetUrl),
      (r.set_jwks_uri v).client_metadata.jwks_uri = v
      ∧ (r.set_jwks_uri v).client_metadata.redirect_uris = r.client_metadata.redirect_uris
      ∧ (r.set_jwks_uri v).client_metadata.response_types = r.client_metadata.response_types
      ∧ (r.set_jwks_uri v).client_metadata.grant_types = r.client_metadata.grant_types
      ∧ (r.set_jwks_uri v).client_metadata.application_type = r.client_metadata.application_type
      ∧ (r.set_jwks_uri v).client_metadata.contacts = r.client_metadata.contacts
      ∧ (r.set_jwks_uri v).client_metadata.client_name = r.client_metadata.client_name
      ∧ (r.set_jwks_uri v).client_metadata.logo_uri = r.client_metadata.logo_uri
      ∧ (r.set_jwks_uri v).client_metadata.client_uri = r.client_metadata.client_uri
      ∧ (r.set_jwks_uri v).client_metadata.policy_uri = r.client_metadata.policy_uri
      ∧ (r.set_jwks_uri v).client_metadata.tos_uri = r.client_metadata.tos_uri
      ∧ (r.set_jwks_uri v).client_metadata.jwks = r.client_metadata.jwks
      ∧ (r.set_jwks_uri v).client_metadata.sector_identifier_uri = r.client_metadata.sector_identifier_uri
      ∧ (r.set_jwks_uri v).client_metadata.subject_type = r.client_metadata.subject_type
      ∧ (r.set_jwks_uri v).client_metadata.id_token_signed_response_alg = r.client_metadata.id_token_signed_response_alg
      ∧ (r.set_jwks_uri v).client_metadata.id_token_encrypted_response_alg = r.client_metadata.id_token_encrypted_response_alg
      ∧ (r.set_jwks_uri v).client_metadata.id_token_encrypted_response_enc = r.client_metadata.id_token_encrypted_response_enc
      ∧ (r.set_jwks_uri v).client_metadata.userinfo_signed_response_alg = r.client_metadata.userinfo_signed_response_alg
      ∧ (r.set_jwks_uri v).client_metadata.userinfo_encrypted_response_alg = r.client_metadata.userinfo_encrypted_response_alg
      ∧ (r.set_jwks_uri v).client_metadata.userinfo_encrypted_response_enc = r.client_metadata.userinfo_encrypted_response_enc
      ∧ (r.set_jwks_uri v).client_metadata.request_object_signing_alg = r.client_metadata.request_object_signing_alg
      ∧ (r.set_jwks_uri v).client_metadata.request_object_encryption_alg = r.client_metadata.request_object_encryption_alg
      ∧ (r.set_jwks_uri v).client_metadata.request_object_encryption_enc = r.client_metadata.request_object_encryption_enc
      ∧ (r.set_jwks_uri v).client_metadata.token_endpoint_auth_method = r.client_metadata.token_endpoint_auth_method
      ∧ (r.set_jwks_uri v).client_metadata.token_endpoint_auth_signing_alg = r.client_metadata.token_endpoint_auth_signing_alg
      ∧ (r.set_jwks_uri v).client_metadata.default_max_age = r.client_metadata.default_max_age
      ∧ (r.set_jwks_uri v).client_metadata.require_auth_time = r.client_metadata.require_auth_time
      ∧ (r.set_jwks_uri v).client_metadata.default_acr_values = r.client_metadata.default_acr_values
      ∧ (r.set_jwks_uri v).client_metadata.initiate_login_uri = r.client_metadata.initiate_login_uri
      ∧ (r.set_jwks_uri v).client_metadata.request_uris = r.client_metadata.request_uris
      ∧ (r.set_jwks_uri v).initial_access_token = r.initial_access_token)
    ∧ (∀ (r : Registration10ClientRegistrationRequest) (v : Option JsonWebKeySet),
      (r.set_jwks v).client_metadata.jwks = v
      ∧ (r.set_jwks v).client_metadata.redirect_uris = r.client_metadata.redirect_uris
      ∧ (r.set_jwks v).client_metadata.response_types = r.client_metadata.response_types
      ∧ (r.set_jwks v).client_metadata.grant_types = r.client_metadata.grant_types
      ∧ (r.set_jwks v).client_metadata.application_type = r.client_metadata.application_type
      ∧ (r.set_jwks v).client_metadata.contacts = r.client_metadata.contacts
      ∧ (r.set_jwks v).client_metadata.client_name = r.client_metadata.client_name
      ∧ (r.set_jwks v).client_metadata.logo_uri = r.client_metadata.logo_uri
      ∧ (r.set_jwks v).client_metadata.client_uri = r.client_metadata.client_uri
      ∧ (r.set_jwks v).client_metadata.policy_uri = r.client_metadata.policy_uri
      ∧ (r.set_jwks v).client_metadata.tos_uri = r.client_metadata.tos_uri
      ∧ (r.set_jwks v).client_metadata.jwks_uri = r.client_metadata.jwks_uri
      ∧ (r.set_jwks v).client_metadata.sector_identifier_uri = r.client_metadata.sector_identifier_uri
      ∧ (r.set_jwks v).client_metadata.subject_type = r.client_metadata.subject_type
      ∧ (r.set_jwks v).client_metadata.id_token_signed_response_alg = r.client_metadata.id_token_signed_response_alg
      ∧ (r.set_jwks v).client_metadata.id_token_encrypted_response_alg = r.client_metadata.id_token_encrypted_response_alg
      ∧ (r.set_jwks v).client_metadata.id_token_encrypted_response_enc = r.client_metadata.id_token_encrypted_response_enc
      ∧ (r.set_jwks v).client_metadata.userinfo_signed_response_alg = r.client_metadata.userinfo_signed_response_alg
      ∧ (r.set_jwks v).client_metadata.userinfo_encrypted_response_alg = r.client_metadata.userinfo_encrypted_response_alg
      ∧ (r.set_jwks v).client_metadata.userinfo_encrypted_response_enc = r.client_metadata.userinfo_encrypted_response_enc
      ∧ (r.set_jwks v).client_metadata.request_object_signing_alg = r.client_metadata.request_object_signing_alg
      ∧ (r.set_jwks v).client_metadata.request_object_encryption_alg = r.client_metadata.request_object_encryption_alg
      ∧ (r.set_jwks v).client_metadata.request_object_encryption_enc = r.client_metadata.request_object_encryption_enc
      ∧ (r.set_jwks v).client_metadata.token_endpoint_auth_method = r.client_metadata.token_endpoint_auth_method
      ∧ (r.set_jwks v).client_metadata.token_endpoint_auth_signing_alg = r.client_metadata.token_endpoint_auth_signing_alg
      ∧ (r.set_jwks v).client_metadata.default_max_age = r.client_metadata.default_max_age
      ∧ (r.set_jwks v).client_metadata.require_auth_time = r.client_metadata.require_auth_time
      ∧ (r.set_jwks v).client_metadata.default_acr_values = r.client_metadata.default_acr_values
      ∧ (r.set_jwks v).client_metadata.initiate_login_uri = r.client_metadata.initiate_login_uri
      ∧ (r.set_jwks v).client_metadata.request_uris = r.client_metadata.request_uris
      ∧ (r.set_jwks v).initial_access_token = r.initial_access_token)
    ∧ (∀ (r : Registration10ClientRegistrationRequest) (v : Option SectorIdentifierUrl),
      (r.set_sector_identifier_uri v).client_metadata.sector_identifier_uri = v
      ∧ (r.set_sector_identifier_uri v).client_metadata.redirect_uris = r.client_metadata.redirect_uris
      ∧ (r.set_sector_identifier_uri v).client_metadata.response_types = r.client_metadata.response_types
      ∧ (r.set_sector_identifier_uri v).client_metadata.grant_types = r.client_metadata.grant_types
      ∧ (r.set_sector_identifier_uri v).client_metadata.application_type = r.client_metadata.application_type
      ∧ (r.set_sector_identifier_uri v).client_metadata.contacts = r.client_metadata.contacts
      ∧ (r.set_sector_identifier_uri v).client_metadata.client_name = r.client_metadata.client_name
      ∧ (r.set_sector_identifier_uri v).client_metadata.logo_uri = r.client_metadata.logo_uri
      ∧ (r.set_sector_identifier_uri v).client_metadata.client_uri = r.client_metadata.client_uri
      ∧ (r.set_sector_identifier_uri v).client_metadata.policy_uri = r.client_metadata.policy_uri
      ∧ (r.set_sector_identifier_uri v).client_metadata.tos_uri = r.client_metadata.tos_uri
      ∧ (r.set_sector_identifier_uri v).client_metadata.jwks_uri = r.client_metadata.jwks_uri
      ∧ (r.set_sector_identifier_uri v).client_metadata.jwks = r.client_metadata.jwks
      ∧ (r.set_sector_identifier_uri v).client_metadata.subject_type = r.client_metadata.subject_type
      ∧ (r.set_sector_identifier_uri v).client_metadata.id_token_signed_response_alg = r.client_metadata.id_token_signed_response_alg
      ∧ (r.set_sector_identifier_uri v).client_metadata.id_token_encrypted_response_alg = r.client_metadata.id_token_encrypted_response_alg
      ∧ (r.set_sector_identifier_uri v).client_metadata.id_token_encrypted_response_enc = r.client_metadata.id_token_encrypted_response_enc
      ∧ (r.set_sector_identifier_uri v).client_metadata.userinfo_signed_response_alg = r.client_metadata.userinfo_signed_response_alg
      ∧ (r.set_sector_identifier_uri v).client_metadata.userinfo_encrypted_response_alg = r.client_metadata.userinfo_encrypted_response_alg
      ∧ (r.set_sector_identifier_uri v).client_metadata.userinfo_encrypted_response_enc = r.client_metadata.userinfo_encrypted_response_enc
      ∧ (r.set_sector_identifier_uri v).client_metadata.request_object_signing_alg = r.client_metadata.request_object_signing_alg
      ∧ (r.set_sector_identifier_uri v).client_metadata.request_object_encryption_alg = r.client_metadata.request_object_encryption_alg
      ∧ (r.set_sector_identifier_uri v).client_metadata.request_object_encryption_enc = r.client_metadata.request_object_encryption_enc
      ∧ (r.set_sector_identifier_uri v).client_metadata.token_endpoint_auth_method = r.client_metadata.token_endpoint_auth_method
      ∧ (r.set_sector_identifier_uri v).client_metadata.token_endpoint_auth_signing_alg = r.client_metadata.token_endpoint_auth_signing_alg
      ∧ (r.set_sector_identifier_uri v).client_metadata.default_max_age = r.client_metadata.default_max_age
      ∧ (r.set_sector_identifier_uri v).client_metadata.require_auth_time = r.client_metadata.require_auth_time
      ∧ (r.set_sector_identifier_uri v).client_metadata.default_acr_values = r.client_metadata.default_acr_values
      ∧ (r.set_sector_identifier_uri v).client_metadata.initiate_login_uri = r.client_metadata.initiate_login_uri
      ∧ (r.set_sector_identifier_uri v).client_metadata.request_uris = r.client_metadata.request_uris
      ∧ (r.set_sector_identifier_uri v).initial_access_token = r.initial_access_token)
    ∧ (∀ (r : Registration10ClientRegistrationRequest) (v : Option SubjectIdentifierType),
      (r.set_subject_type v).client_metadata.subject_type = v
      ∧ (r.set_subject_type v).client_metadata.redirect_uris = r.client_metadata.redirect_uris
      ∧ (r.set_subject_type v).client_metadata.response_types = r.client_metadata.response_types
      ∧ (r.set_subject_type v).client_metadata.grant_types = r.client_metadata.grant_types
      ∧ (r.set_subject_type v).client_metadata.application_type = r.client_metadata.application_type
      ∧ (r.set_subject_type v).client_metadata.contacts = r.client_metadata.contacts
      ∧ (r.set_subject_type v).client_metadata.client_name = r.client_metadata.client_name
      ∧ (r.set_subject_type v).client_metadata.logo_uri = r.client_metadata.logo_uri
      ∧ (r.set_subject_type v).client_metadata.client_uri = r.client_metadata.client_uri
      ∧ (r.set_subject_type v).client_metadata.policy_uri = r.client_metadata.policy_uri
      ∧ (r.set_subject_type v).client_metadata.tos_uri = r.client_metadata.tos_uri
      ∧ (r.set_subject_type v).client_metadata.jwks_uri = r.client_metadata.jwks_uri
      ∧ (r.set_subject_type v).client_metadata.jwks = r.client_metadata.jwks
      ∧ (r.set_subject_type v).client_metadata.sector_identifier_uri = r.client_metadata.sector_identifier_uri
      ∧ (r.set_subject_type v).client_metadata.id_token_signed_response_alg = r.client_metadata.id_token_signed_response_alg
      ∧ (r.set_subject_type v).client_metadata.id_token_encrypted_response_alg = r.client_metadata.id_token_encrypted_response_alg
      ∧ (r.set_subject_type v).client_metadata.id_token_encrypted_response_enc = r.client_metadata.id_token_encrypted_response_enc
      ∧ (r.set_subject_type v).client_metadata.userinfo_signed_response_alg = r.client_metadata.userinfo_signed_response_alg
      ∧ (r.set_subject_type v).client_metadata.userinfo_encrypted_response_alg = r.client_metadata.userinfo_encrypted_response_alg
      ∧ (r.set_subject_type v).client_metadata.userinfo_encrypted_response_enc = r.client_metadata.userinfo_encrypted_response_enc
      ∧ (r.set_subject_type v).client_metadata.request_object_signing_alg = r.client_metadata.request_object_signing_alg
      ∧ (r.set_subject_type v).client_metadata.request_object_encryption_alg = r.client_metadata.request_object_encryption_alg
      ∧ (r.set_subject_type v).client_metadata.request_object_encryption_enc = r.client_metadata.request_object_encryption_enc
      ∧ (r.set_subject_type v).client_metadata.token_endpoint_auth_method = r.client_metadata.token_endpoint_auth_method
      ∧ (r.set_subject_type v).client_metadata.token_endpoint_auth_signing_alg = r.client_metadata.token_endpoint_auth_signing_alg
      ∧ (r.set_subject_type v).client_metadata.default_max_age = r.client_metadata.default_max_age
      ∧ (r.set_subject_type v).client_metadata.require_auth_time = r.client_metadata.require_auth_time
      ∧ (r.set_subject_type v).client_metadata.default_acr_values = r.client_metadata.default_acr_values
      ∧ (r.set_subject_type v).client_metadata.initiate_login_uri = r.client_metadata.initiate_login_uri
      ∧ (r.set_subject_type v).client_metadata.request_uris = r.client_metadata.request_uris
      ∧ (r.set_subject_type v).initial_access_token = r.initial_access_token)
    ∧ (∀ (r : Registration10ClientRegistrationRequest) (v : Option JwsSigningAlgorithm),
      (r.set_id_token_signed_response_alg v).client_metadata.id_token_signed_response_alg = v
      ∧ (r.set_id_token_signed_response_alg v).client_metadata.redirect_uris = r.client_metadata.redirect_uris
      ∧ (r.set_id_token_signed_response_alg v).client_metadata.response_types = r.client_metadata.response_types
      ∧ (r.set_id_token_signed_response_alg v).client_metadata.grant_types = r.client_metadata.grant_types
      ∧ (r.set_id_token_signed_response_alg v).client_metadata.application_type = r.client_metadata.application_type
      ∧ (r.set_id_token_signed_response_alg v).client_metadata.contacts = r.client_metadata.contacts
      ∧ (r.set_id_token_signed_response_alg v).client_metadata.client_name = r.client_metadata.client_name
      ∧ (r.set_id_token_signed_response_alg v).client_metadata.logo_uri = r.client_metadata.logo_uri
      ∧ (r.set_id_token_signed_response_alg v).client_metadata.client_uri = r.client_metadata.client_uri
      ∧ (r.set_id_token_signed_response_alg v).client_metadata.policy_uri = r.client_metadata.policy_uri
      ∧ (r.set_id_token_signed_response_alg v).client_metadata.tos_uri = r.client_metadata.tos_uri
      ∧ (r.set_id_token_signed_response_alg v).client_metadata.jwks_uri = r.client_metadata.jwks_uri
      ∧ (r.set_id_token_signed_response_alg v).client_metadata.jwks = r.client_metadata.jwks
      ∧ (r.set_id_token_signed_response_alg v).client_metadata.sector_identifier_uri = r.client_metadata.sector_identifier_uri
      ∧ (r.set_id_token_signed_response_alg v).client_metadata.subject_type = r.client_metadata.subject_type
      ∧ (r.set_id_token_signed_response_alg v).client_metadata.id_token_encrypted_response_alg = r.client_metadata.id_token_encrypted_response_alg
      ∧ (r.set_id_token_signed_response_alg v).client_metadata.id_token_encrypted_response_enc = r.client_metadata.id_token_encrypted_response_enc
      ∧ (r.set_id_token_signed_response_alg v).client_metadata.userinfo_signed_response_alg = r.client_metadata.userinfo_signed_response_alg
      ∧ (r.set_id_token_signed_response_alg v).client_metadata.userinfo_encrypted_response_alg = r.client_metadata.userinfo_encrypted_response_alg
      ∧ (r.set_id_token_signed_response_alg v).client_metadata.userinfo_encrypted_response_enc = r.client_metadata.userinfo_encrypted_response_enc
      ∧ (r.set_id_token_signed_response_alg v).client_metadata.request_object_signing_alg = r.client_metadata.request_object_signing_alg
      ∧ (r.set_id_token_signed_response_alg v).client_metadata.request_object_encryption_alg = r.client_metadata.request_object_encryption_alg
      ∧ (r.set_id_token_signed_response_alg v).client_metadata.request_object_encryption_enc = r.client_metadata.request_object_encryption_enc
      ∧ (r.set_id_token_signed_response_alg v).client_metadata.token_endpoint_auth_method = r.client_metadata.token_endpoint_auth_method
      ∧ (r.set_id_token_signed_response_alg v).client_metadata.token_endpoint_auth_signing_alg = r.client_metadata.token_endpoint_auth_signing_alg
      ∧ (r.set_id_token_signed_response_alg v).client_metadata.default_max_age = r.client_metadata.default_max_age
      ∧ (r.set_id_token_signed_response_alg v).client_metadata.require_auth_time = r.client_metadata.require_auth_time
      ∧ (r.set_id_token_signed_response_alg v).client_metadata.default_acr_values = r.client_metadata.default_acr_values
      ∧ (r.set_id_token_signed_response_alg v).client_metadata.initiate_login_uri = r.client_metadata.initiate_login_uri
      ∧ (r.set_id_token_signed_response_alg v).client_metadata.request_uris = r.client_metadata.request_uris
      ∧ (r.set_id_token_signed_response_alg v).initial_access_token = r.initial_access_token)
    ∧ (∀ (r : Registration10ClientRegistrationRequest) (v : Option JweKeyManagementAlgorithm),
      (r.set_id_token_encrypted_response_alg v).client_metadata.id_token_encrypted_response_alg = v
      ∧ (r.set_id_token_encrypted_response_alg v).client_metadata.redirect_uris = r.client_metadata.redirect_uris
      ∧ (r.set_id_token_encrypted_response_alg v).client_metadata.response_types = r.client_metadata.response_types
      ∧ (r.set_id_token_encrypted_response_alg v).client_metadata.grant_types = r.client_metadata.grant_types
      ∧ (r.set_id_token_encrypted_response_alg v).client_metadata.application_type = r.client_metadata.application_type
      ∧ (r.set_id_token_encrypted_response_alg v).client_metadata.contacts = r.client_metadata.contacts
      ∧ (r.set_id_token_encrypted_response_alg v).client_metadata.client_name = r.client_metadata.client_name
      ∧ (r.set_id_token_encrypted_response_alg v).client_metadata.logo_uri = r.client_metadata.logo_uri
      ∧ (r.set_id_token_encrypted_response_alg v).client_metadata.client_uri = r.client_metadata.client_uri
      ∧ (r.set_id_token_encrypted_response_alg v).client_metadata.policy_uri = r.client_metadata.policy_uri
      ∧ (r.set_id_token_encrypted_response_alg v).client_metadata.tos_uri = r.client_metadata.tos_uri
      ∧ (r.set_id_token_encrypted_response_alg v).client_metadata.jwks_uri = r.client_metadata.jwks_uri
      ∧ (r.set_id_token_encrypted_response_alg v).client_metadata.jwks = r.client_metadata.jwks
      ∧ (r.set_id_token_encrypted_response_alg v).client_metadata.sector_identifier_uri = r.client_metadata.sector_identifier_uri
      ∧ (r.set_id_token_encrypted_response_alg v).client_metadata.subject_type = r.client_metadata.subject_type
      ∧ (r.set_id_token_encrypted_response_alg v).client_metadata.id_token_signed_response_alg = r.client_metadata.id_token_signed_response_alg
      ∧ (r.set_id_token_encrypted_response_alg v).client_metadata.id_token_encrypted_response_enc = r.client_metadata.id_token_encrypted_response_enc
      ∧ (r.set_id_token_encrypted_response_alg v).client_metadata.userinfo_signed_response_alg = r.client_metadata.userinfo_signed_response_alg
      ∧ (r.set_id_token_encrypted_response_alg v).client_metadata.userinfo_encrypted_response_alg = r.client_metadata.userinfo_encrypted_response_alg
      ∧ (r.set_id_token_encrypted_response_alg v).client_metadata.userinfo_encrypted_response_enc = r.client_metadata.userinfo_encrypted_response_enc
      ∧ (r.set_id_token_encrypted_response_alg v).client_metadata.request_object_signing_alg = r.client_metadata.request_object_signing_alg
      ∧ (r.set_id_token_encrypted_response_alg v).client_metadata.request_object_encryption_alg = r.client_metadata.request_object_encryption_alg
      ∧ (r.set_id_token_encrypted_response_alg v).client_metadata.request_object_encryption_enc = r.client_metadata.request_object_encryption_enc
      ∧ (r.set_id_token_encrypted_response_alg v).client_metadata.token_endpoint_auth_method = r.client_metadata.token_endpoint_auth_method
      ∧ (r.set_id_token_encrypted_response_alg v).client_metadata.token_endpoint_auth_signing_alg = r.client_metadata.token_endpoint_auth_signing_alg
      ∧ (r.set_id_token_encrypted_response_alg v).client_metadata.default_max_age = r.client_metadata.default_max_age
      ∧ (r.set_id_token_encrypted_response_alg v).client_metadata.require_auth_time = r.client_metadata.require_auth_time
      ∧ (r.set_id_token_encrypted_response_alg v).client_metadata.default_acr_values = r.client_metadata.default_acr_values
      ∧ (r.set_id_token_encrypted_response_alg v).client_metadata.initiate_login_uri = r.client_metadata.initiate_login_uri
      ∧ (r.set_id_token_encrypted_response_alg v).client_metadata.request_uris = r.client_metadata.request_uris
      ∧ (r.set_id_token_encrypted_response_alg v).initial_access_token = r.initial_access_token)
    ∧ (∀ (r : Registration10ClientRegistrationRequest) (v : Option JweContentEncryptionAlgorithm),
      (r.set_id_token_encrypted_response_enc v).client_metadata.id_token_encrypted_response_enc = v
      ∧ (r.set_id_token_encrypted_response_enc v).client_metadata.redirect_uris = r.client_metadata.redirect_uris
      ∧ (r.set_id_token_encrypted_response_enc v).client_metadata.response_types = r.client_metadata.response_types
      ∧ (r.set_id_token_encrypted_response_enc v).client_metadata.grant_types = r.client_metadata.grant_types
      ∧ (r.set_id_token_encrypted_response_enc v).client_metadata.application_type = r.client_metadata.application_type
      ∧ (r.set_id_token_encrypted_response_enc v).client_metadata.contacts = r.client_metadata.contacts
      ∧ (r.set_id_token_encrypted_response_enc v).client_metadata.client_name = r.client_metadata.client_name
      ∧ (r.set_id_token_encrypted_response_enc v).client_metadata.logo_uri = r.client_metadata.logo_uri
      ∧ (r.set_id_token_encrypted_response_enc v).client_metadata.client_uri = r.client_metadata.client_uri
      ∧ (r.set_id_token_encrypted_response_enc v).client_metadata.policy_uri = r.client_metadata.policy_uri
      ∧ (r.set_id_token_encrypted_response_enc v).client_metadata.tos_uri = r.client_metadata.tos_uri
      ∧ (r.set_id_token_encrypted_response_enc v).client_metadata.jwks_uri = r.client_metadata.jwks_uri
      ∧ (r.set_id_token_encrypted_response_enc v).client_metadata.jwks = r.client_metadata.jwks
      ∧ (r.set_id_token_encrypted_response_enc v).client_metadata.sector_identifier_uri = r.client_metadata.sector_identifier_uri
      ∧ (r.set_id_token_encrypted_response_enc v).client_metadata.subject_type = r.client_metadata.subject_type
      ∧ (r.set_id_token_encrypted_response_enc v).client_metadata.id_token_signed_response_alg = r.client_metadata.id_token_signed_response_alg
      ∧ (r.set_id_token_encrypted_response_enc v).client_metadata.id_token_encrypted_response_alg = r.client_metadata.id_token_encrypted_response_alg
      ∧ (r.set_id_token_encrypted_response_enc v).client_metadata.userinfo_signed_response_alg = r.client_metadata.userinfo_signed_response_alg
      ∧ (r.set_id_token_encrypted_response_enc v).client_metadata.userinfo_encrypted_response_alg = r.client_metadata.userinfo_encrypted_response_alg
      ∧ (r.set_id_token_encrypted_response_enc v).client_metadata.userinfo_encrypted_response_enc = r.client_metadata.userinfo_encrypted_response_enc
      ∧ (r.set_id_token_encrypted_response_enc v).client_metadata.request_object_signing_alg = r.client_metadata.request_object_signing_alg
      ∧ (r.set_id_token_encrypted_response_enc v).client_metadata.request_object_encryption_alg = r.client_metadata.request_object_encryption_alg
      ∧ (r.set_id_token_encrypted_response_enc v).client_metadata.request_object_encryption_enc = r.client_metadata.request_object_encryption_enc
      ∧ (r.set_id_token_encrypted_response_enc v).client_metadata.token_endpoint_auth_method = r.client_metadata.token_endpoint_auth_method
      ∧ (r.set_id_token_encrypted_response_enc v).client_metadata.token_endpoint_auth_signing_alg = r.client_metadata.token_endpoint_auth_signing_alg
      ∧ (r.set_id_token_encrypted_response_enc v).client_metadata.default_max_age = r.client_metadata.default_max_age
      ∧ (r.set_id_token_encrypted_response_enc v).client_metadata.require_auth_time = r.client_metadata.require_auth_time
      ∧ (r.set_id_token_encrypted_response_enc v).client_metadata.default_acr_values = r.client_metadata.default_acr_values
      ∧ (r.set_id_token_encrypted_response_enc v).client_metadata.initiate_login_uri = r.client_metadata.initiate_login_uri
      ∧ (r.set_id_token_encrypted_response_enc v).client_metadata.request_uris = r.client_metadata.request_uris
      ∧ (r.set_id_token_encrypted_response_enc v).initial_access_token = r.initial_access_token)
    ∧ (∀ (r : Registration10ClientRegistrationRequest) (v : Option JwsSigningAlgorithm),
      (r.set_userinfo_signed_response_alg v).client_metadata.userinfo_signed_response_alg = v
      ∧ (r.set_userinfo_signed_response_alg v).client_metadata.redirect_uris = r.client_metadata.redirect_uris
      ∧ (r.set_userinfo_signed_response_alg v).client_metadata.response_types = r.client_metadata.response_types
      ∧ (r.set_userinfo_signed_response_alg v).client_metadata.grant_types = r.client_metadata.grant_types
      ∧ (r.set_userinfo_signed_response_alg v).client_metadata.application_type = r.client_metadata.application_type
      ∧ (r.set_userinfo_signed_response_alg v).client_metadata.contacts = r.client_metadata.contacts
      ∧ (r.set_userinfo_signed_response_alg v).client_metadata.client_name = r.client_metadata.client_name
      ∧ (r.set_userinfo_signed_response_alg v).client_metadata.logo_uri = r.client_metadata.logo_uri
      ∧ (r.set_userinfo_signed_response_alg v).client_metadata.client_uri = r.client_metadata.client_uri
      ∧ (r.set_userinfo_signed_response_alg v).client_metadata.policy_uri = r.client_metadata.policy_uri
      ∧ (r.set_userinfo_signed_response_alg v).client_metadata.tos_uri = r.client_metadata.tos_uri
      ∧ (r.set_userinfo_signed_response_alg v).client_metadata.jwks_uri = r.client_metadata.jwks_uri
      ∧ (r.set_userinfo_signed_response_alg v).client_metadata.jwks = r.client_metadata.jwks
      ∧ (r.set_userinfo_signed_response_alg v).client_metadata.sector_identifier_uri = r.client_metadata.sector_identifier_uri
      ∧ (r.set_userinfo_signed_response_alg v).client_metadata.subject_type = r.client_metadata.subject_type
      ∧ (r.set_userinfo_signed_response_alg v).client_metadata.id_token_signed_response_alg = r.client_metadata.id_token_signed_response_alg
      ∧ (r.set_userinfo_signed_response_alg v).client_metadata.id_token_encrypted_response_alg = r.client_metadata.id_token_encrypted_response_alg
      ∧ (r.set_userinfo_signed_response_alg v).client_metadata.id_token_encrypted_response_enc = r.client_metadata.id_token_encrypted_response_enc
      ∧ (r.set_userinfo_signed_response_alg v).client_metadata.userinfo_encrypted_response_alg = r.client_metadata.userinfo_encrypted_response_alg
      ∧ (r.set_userinfo_signed_response_alg v).client_metadata.userinfo_encrypted_response_enc = r.client_metadata.userinfo_encrypted_response_enc
      ∧ (r.set_userinfo_signed_response_alg v).client_metadata.request_object_signing_alg = r.client_metadata.request_object_signing_alg
      ∧ (r.set_userinfo_signed_response_alg v).client_metadata.request_object_encryption_alg = r.client_metadata.request_object_encryption_alg
      ∧ (r.set_userinfo_signed_response_alg v).client_metadata.request_object_encryption_enc = r.client_metadata.request_object_encryption_enc
      ∧ (r.set_userinfo_signed_response_alg v).client_metadata.token_endpoint_auth_method = r.client_metadata.token_endpoint_auth_method
      ∧ (r.set_userinfo_signed_response_alg v).client_metadata.token_endpoint_auth_signing_alg = r.client_metadata.token_endpoint_auth_signing_alg
      ∧ (r.set_userinfo_signed_response_alg v).client_metadata.default_max_age = r.client_metadata.default_max_age
      ∧ (r.set_userinfo_signed_response_alg v).client_metadata.require_auth_time = r.client_metadata.require_auth_time
      ∧ (r.set_userinfo_signed_response_alg v).client_metadata.default_acr_values = r.client_metadata.default_acr_values
      ∧ (r.set_userinfo_signed_response_alg v).client_metadata.initiate_login_uri = r.client_metadata.initiate_login_uri
      ∧ (r.set_userinfo_signed_response_alg v).client_metadata.request_uris = r.client_metadata.request_uris
      ∧ (r.set_userinfo_signed_response_alg v).initial_access_token = r.initial_access_token)
    ∧ (∀ (r : Registration10ClientRegistrationRequest) (v : Option JweKeyManagementAlgorithm),
      (r.set_userinfo_encrypted_response_alg v).client_metadata.userinfo_encrypted_response_alg = v
      ∧ (r.set_userinfo_encrypted_response_alg v).client_metadata.redirect_uris = r.client_metadata.redirect_uris
      ∧ (r.set_userinfo_encrypted_response_alg v).client_metadata.response_types = r.client_metadata.response_types
      ∧ (r.set_userinfo_encrypted_response_alg v).client_metadata.grant_types = r.client_metadata.grant_types
      ∧ (r.set_userinfo_encrypted_response_alg v).client_metadata.application_type = r.client_metadata.application_type
      ∧ (r.set_userinfo_encrypted_response_alg v).client_metadata.contacts = r.client_metadata.contacts
      ∧ (r.set_userinfo_encrypted_response_alg v).client_metadata.client_name = r.client_metadata.client_name
      ∧ (r.set_userinfo_encrypted_response_alg v).client_metadata.logo_uri = r.client_metadata.logo_uri
      ∧ (r.set_userinfo_encrypted_response_alg v).client_metadata.client_uri = r.client_metadata.client_uri
      ∧ (r.set_userinfo_encrypted_response_alg v).client_metadata.policy_uri = r.client_metadata.policy_uri
      ∧ (r.set_userinfo_encrypted_response_alg v).client_metadata.tos_uri = r.client_metadata.tos_uri
      ∧ (r.set_userinfo_encrypted_response_alg v).client_metadata.jwks_uri = r.client_metadata.jwks_uri
      ∧ (r.set_userinfo_encrypted_response_alg v).client_metadata.jwks = r.client_metadata.jwks
      ∧ (r.set_userinfo_encrypted_response_alg v).client_metadata.sector_identifier_uri = r.client_metadata.sector_identifier_uri
      ∧ (r.set_userinfo_encrypted_response_alg v).client_metadata.subject_type = r.client_metadata.subject_type
      ∧ (r.set_userinfo_encrypted_response_alg v).client_metadata.id_token_signed_response_alg = r.client_metadata.id_token_signed_response_alg
      ∧ (r.set_userinfo_encrypted_response_alg v).client_metadata.id_token_encrypted_response_alg = r.client_metadata.id_token_encrypted_response_alg
      ∧ (r.set_userinfo_encrypted_response_alg v).client_metadata.id_token_encrypted_response_enc = r.client_metadata.id_token_encrypted_response_enc
      ∧ (r.set_userinfo_encrypted_response_alg v).client_metadata.userinfo_signed_response_alg = r.client_metadata.userinfo_signed_response_alg
      ∧ (r.set_userinfo_encrypted_response_alg v).client_metadata.userinfo_encrypted_response_enc = r.client_metadata.userinfo_encrypted_response_enc
      ∧ (r.set_userinfo_encrypted_response_alg v).client_metadata.request_object_signing_alg = r.client_metadata.request_object_signing_alg
      ∧ (r.set_userinfo_encrypted_response_alg v).client_metadata.request_object_encryption_alg = r.client_metadata.request_object_encryption_alg
      ∧ (r.set_userinfo_encrypted_response_alg v).client_metadata.request_object_encryption_enc = r.client_metadata.request_object_encryption_enc
      ∧ (r.set_userinfo_encrypted_response_alg v).client_metadata.token_endpoint_auth_method = r.client_metadata.token_endpoint_auth_method
      ∧ (r.set_userinfo_encrypted_response_alg v).client_metadata.token_endpoint_auth_signing_alg = r.client_metadata.token_endpoint_auth_signing_alg
      ∧ (r.set_userinfo_encrypted_response_alg v).client_metadata.default_max_age = r.client_metadata.default_max_age
      ∧ (r.set_userinfo_encrypted_response_alg v).client_metadata.require_auth_time = r.client_metadata.require_auth_time
      ∧ (r.set_userinfo_encrypted_response_alg v).client_metadata.default_acr_values = r.client_metadata.default_acr_values
      ∧ (r.set_userinfo_encrypted_response_alg v).client_metadata.initiate_login_uri = r.client_metadata.initiate_login_uri
      ∧ (r.set_userinfo_encrypted_response_alg v).client_metadata.request_uris = r.client_metadata.request_uris
      ∧ (r.set_userinfo_encrypted_response_alg v).initial_access_token = r.initial_access_token)
    ∧ (∀ (r : Registration10ClientRegistrationRequest) (v : Option JweContentEncryptionAlgorithm),
      (r.set_userinfo_encrypted_response_enc v).client_metadata.userinfo_encrypted_response_enc = v
      ∧ (r.set_userinfo_encrypted_response_enc v).client_metadata.redirect_uris = r.client_metadata.redirect_uris
      ∧ (r.set_userinfo_encrypted_response_enc v).client_metadata.response_types = r.client_metadata.response_types
      ∧ (r.set_userinfo_encrypted_response_enc v).client_metadata.grant_types = r.client_metadata.grant_types
      ∧ (r.set_userinfo_encrypted_response_enc v).client_metadata.application_type = r.client_metadata.application_type
      ∧ (r.set_userinfo_encrypted_response_enc v).client_metadata.contacts = r.client_metadata.contacts
      ∧ (r.set_userinfo_encrypted_response_enc v).client_metadata.client_name = r.client_metadata.client_name
      ∧ (r.set_userinfo_encrypted_response_enc v).client_metadata.logo_uri = r.client_metadata.logo_uri
      ∧ (r.set_userinfo_encrypted_response_enc v).client_metadata.client_uri = r.client_metadata.client_uri
      ∧ (r.set_userinfo_encrypted_response_enc v).client_metadata.policy_uri = r.client_metadata.policy_uri
      ∧ (r.set_userinfo_encrypted_response_enc v).client_metadata.tos_uri = r.client_metadata.tos_uri
      ∧ (r.set_userinfo_encrypted_response_enc v).client_metadata.jwks_uri = r.client_metadata.jwks_uri
      ∧ (r.set_userinfo_encrypted_response_enc v).client_metadata.jwks = r.client_metadata.jwks
      ∧ (r.set_userinfo_encrypted_response_enc v).client_metadata.sector_identifier_uri = r.client_metadata.sector_identifier_uri
      ∧ (r.set_userinfo_encrypted_response_enc v).client_metadata.subject_type = r.client_metadata.subject_type
      ∧ (r.set_userinfo_encrypted_response_enc v).client_metadata.id_token_signed_response_alg = r.client_metadata.id_token_signed_response_alg
      ∧ (r.set_userinfo_encrypted_response_enc v).client_metadata.id_token_encrypted_response_alg = r.client_metadata.id_token_encrypted_response_alg
      ∧ (r.set_userinfo_encrypted_response_enc v).client_metadata.id_token_encrypted_response_enc = r.client_metadata.id_token_encrypted_response_enc
      ∧ (r.set_userinfo_encrypted_response_enc v).client_metadata.userinfo_signed_response_alg = r.client_metadata.userinfo_signed_response_alg
      ∧ (r.set_userinfo_encrypted_response_enc v).client_metadata.userinfo_encrypted_response_alg = r.client_metadata.userinfo_encrypted_response_alg
      ∧ (r.set_userinfo_encrypted_response_enc v).client_metadata.request_object_signing_alg = r.client_metadata.request_object_signing_alg
      ∧ (r.set_userinfo_encrypted_response_enc v).client_metadata.request_object_encryption_alg = r.client_metadata.request_object_encryption_alg
      ∧ (r.set_userinfo_encrypted_response_enc v).client_metadata.request_object_encryption_enc = r.client_metadata.request_object_encryption_enc
      ∧ (r.set_userinfo_encrypted_response_enc v).client_metadata.token_endpoint_auth_method = r.client_metadata.token_endpoint_auth_method
      ∧ (r.set_userinfo_encrypted_response_enc v).client_metadata.token_endpoint_auth_signing_alg = r.client_metadata.token_endpoint_auth_signing_alg
      ∧ (r.set_userinfo_encrypted_response_enc v).client_metadata.default_max_age = r.client_metadata.default_max_age
      ∧ (r.set_userinfo_encrypted_response_enc v).client_metadata.require_auth_time = r.client_metadata.require_auth_time
      ∧ (r.set_userinfo_encrypted_response_enc v).client_metadata.default_acr_values = r.client_metadata.default_acr_values
      ∧ (r.set_userinfo_encrypted_response_enc v).client_metadata.initiate_login_uri = r.client_metadata.initiate_login_uri
      ∧ (r.set_userinfo_encrypted_response_enc v).client_metadata.request_uris = r.client_metadata.request_uris
      ∧ (r.set_userinfo_encrypted_response_enc v).initial_access_token = r.initial_access_token)
    ∧ (∀ (r : Registration10ClientRegistrationRequest) (v : Option JwsSigningAlgorithm),
      (r.set_request_object_signing_alg v).client_metadata.request_object_signing_alg = v
      ∧ (r.set_request_object_signing_alg v).client_metadata.redirect_uris = r.client_metadata.redirect_uris
      ∧ (r.set_request_object_signing_alg v).client_metadata.response_types = r.client_metadata.response_types
      ∧ (r.set_request_object_signing_alg v).client_metadata.grant_types = r.client_metadata.grant_types
      ∧ (r.set_request_object_signing_alg v).client_metadata.application_type = r.client_metadata.application_type
      ∧ (r.set_request_object_signing_alg v).client_metadata.contacts = r.client_metadata.contacts
      ∧ (r.set_request_object_signing_alg v).client_metadata.client_name = r.client_metadata.client_name
      ∧ (r.set_request_object_signing_alg v).client_metadata.logo_uri = r.client_metadata.logo_uri
      ∧ (r.set_request_object_signing_alg v).client_metadata.client_uri = r.client_metadata.client_uri
      ∧ (r.set_request_object_signing_alg v).client_metadata.policy_uri = r.client_metadata.policy_uri
      ∧ (r.set_request_object_signing_alg v).client_metadata.tos_uri = r.client_metadata.tos_uri
      ∧ (r.set_request_object_signing_alg v).client_metadata.jwks_uri = r.client_metadata.jwks_uri
      ∧ (r.set_request_object_signing_alg v).client_metadata.jwks = r.client_metadata.jwks
      ∧ (r.set_request_object_signing_alg v).client_metadata.sector_identifier_uri = r.client_metadata.sector_identifier_uri
      ∧ (r.set_request_object_signing_alg v).client_metadata.subject_type = r.client_metadata.subject_type
      ∧ (r.set_request_object_signing_alg v).client_metadata.id_token_signed_response_alg = r.client_metadata.id_token_signed_response_alg
      ∧ (r.set_request_object_signing_alg v).client_metadata.id_token_encrypted_response_alg = r.client_metadata.id_token_encrypted_response_alg
      ∧ (r.set_request_object_signing_alg v).client_metadata.id_token_encrypted_response_enc = r.client_metadata.id_token_encrypted_response_enc
      ∧ (r.set_request_object_signing_alg v).client_metadata.userinfo_signed_response_alg = r.client_metadata.userinfo_signed_response_alg
      ∧ (r.set_request_object_signing_alg v).client_metadata.userinfo_encrypted_response_alg = r.client_metadata.userinfo_encrypted_response_alg
      ∧ (r.set_request_object_signing_alg v).client_metadata.userinfo_encrypted_response_enc = r.client_metadata.userinfo_encrypted_response_enc
      ∧ (r.set_request_object_signing_alg v).client_metadata.request_object_encryption_alg = r.client_metadata.request_object_encryption_alg
      ∧ (r.set_request_object_signing_alg v).client_metadata.request_object_encryption_enc = r.client_metadata.request_object_encryption_enc
      ∧ (r.set_request_object_signing_alg v).client_metadata.token_endpoint_auth_method = r.client_metadata.token_endpoint_auth_method
      ∧ (r.set_request_object_signing_alg v).client_metadata.token_endpoint_auth_signing_alg = r.client_metadata.token_endpoint_auth_signing_alg
      ∧ (r.set_request_object_signing_alg v).client_metadata.default_max_age = r.client_metadata.default_max_age
      ∧ (r.set_request_object_signing_alg v).client_metadata.require_auth_time = r.client_metadata.require_auth_time
      ∧ (r.set_request_object_signing_alg v).client_metadata.default_acr_values = r.client_metadata.default_acr_values
      ∧ (r.set_request_object_signing_alg v).client_metadata.initiate_login_uri = r.client_metadata.initiate_login_uri
      ∧ (r.set_request_object_signing_alg v).client_metadata.request_uris = r.client_metadata.request_uris
      ∧ (r.set_request_object_signing_alg v).initial_access_token = r.initial_access_token)
    ∧ (∀ (r : Registration10ClientRegistrationRequest) (v : Option JweKeyManagementAlgorithm),
      (r.set_request_object_encryption_alg v).client_metadata.request_object_encryption_alg = v
      ∧ (r.set_request_object_encryption_alg v).client_metadata.redirect_uris = r.client_metadata.redirect_uris
      ∧ (r.set_request_object_encryption_alg v).client_metadata.response_types = r.client_metadata.response_types
      ∧ (r.set_request_object_encryption_alg v).client_metadata.grant_types = r.client_metadata.grant_types
      ∧ (r.set_request_object_encryption_alg v).client_metadata.application_type = r.client_metadata.application_type
      ∧ (r.set_request_object_encryption_alg v).client_metadata.contacts = r.client_metadata.contacts
      ∧ (r.set_request_object_encryption_alg v).client_metadata.client_name = r.client_metadata.client_name
      ∧ (r.set_request_object_encryption_alg v).client_metadata.logo_uri = r.client_metadata.logo_uri
      ∧ (r.set_request_object_encryption_alg v).client_metadata.client_uri = r.client_metadata.client_uri
      ∧ (r.set_request_object_encryption_alg v).client_metadata.policy_uri = r.client_metadata.policy_uri
      ∧ (r.set_request_object_encryption_alg v).client_metadata.tos_uri = r.client_metadata.tos_uri
      ∧ (r.set_request_object_encryption_alg v).client_metadata.jwks_uri = r.client_metadata.jwks_uri
      ∧ (r.set_request_object_encryption_alg v).client_metadata.jwks = r.client_metadata.jwks
      ∧ (r.set_request_object_encryption_alg v).client_metadata.sector_identifier_uri = r.client_metadata.sector_identifier_uri
      ∧ (r.set_request_object_encryption_alg v).client_metadata.subject_type = r.client_metadata.subject_type
      ∧ (r.set_request_object_encryption_alg v).client_metadata.id_token_signed_response_alg = r.client_metadata.id_token_signed_response_alg
      ∧ (r.set_request_object_encryption_alg v).client_metadata.id_token_encrypted_response_alg = r.client_metadata.id_token_encrypted_response_alg
      ∧ (r.set_request_object_encryption_alg v).client_metadata.id_token_encrypted_response_enc = r.client_metadata.id_token_encrypted_response_enc
      ∧ (r.set_request_object_encryption_alg v).client_metadata.userinfo_signed_response_alg = r.client_metadata.userinfo_signed_response_alg
      ∧ (r.set_request_object_encryption_alg v).client_metadata.userinfo_encrypted_response_alg = r.client_metadata.userinfo_encrypted_response_alg
      ∧ (r.set_request_object_encryption_alg v).client_metadata.userinfo_encrypted_response_enc = r.client_metadata.userinfo_encrypted_response_enc
      ∧ (r.set_request_object_encryption_alg v).client_metadata.request_object_signing_alg = r.client_metadata.request_object_signing_alg
      ∧ (r.set_request_object_encryption_alg v).client_metadata.request_object_encryption_enc = r.client_metadata.request_object_encryption_enc
      ∧ (r.set_request_object_encryption_alg v).client_metadata.token_endpoint_auth_method = r.client_metadata.token_endpoint_auth_method
      ∧ (r.set_request_object_encryption_alg v).client_metadata.token_endpoint_auth_signing_alg = r.client_metadata.token_endpoint_auth_signing_alg
      ∧ (r.set_request_object_encryption_alg v).client_metadata.default_max_age = r.client_metadata.default_max_age
      ∧ (r.set_request_object_encryption_alg v).client_metadata.require_auth_time = r.client_metadata.require_auth_time
      ∧ (r.set_request_object_encryption_alg v).client_metadata.default_acr_values = r.client_metadata.default_acr_values
      ∧ (r.set_request_object_encryption_alg v).client_metadata.initiate_login_uri = r.client_metadata.initiate_login_uri
      ∧ (r.set_request_object_encryption_alg v).client_metadata.request_uris = r.client_metadata.request_uris
      ∧ (r.set_request_object_encryption_alg v).initial_access_token = r.initial_access_token)
    ∧ (∀ (r : Registration10ClientRegistrationRequest) (v : Option JweContentEncryptionAlgorithm),
      (r.set_request_object_encryption_enc v).client_metadata.request_object_encryption_enc = v
      ∧ (r.set_request_object_encryption_enc v).client_metadata.redirect_uris = r.client_metadata.redirect_uris
      ∧ (r.set_request_object_encryption_enc v).client_metadata.response_types = r.client_metadata.response_types
      ∧ (r.set_request_object_encryption_enc v).client_metadata.grant_types = r.client_metadata.grant_types
      ∧ (r.set_request_object_encryption_enc v).client_metadata.application_type = r.client_metadata.application_type
      ∧ (r.set_request_object_encryption_enc v).client_metadata.contacts = r.client_metadata.contacts
      ∧ (r.set_request_object_encryption_enc v).client_metadata.client_name = r.client_metadata.client_name
      ∧ (r.set_request_object_encryption_enc v).client_metadata.logo_uri = r.client_metadata.logo_uri
      ∧ (r.set_request_object_encryption_enc v).client_metadata.client_uri = r.client_metadata.client_uri
      ∧ (r.set_request_object_encryption_enc v).client_metadata.policy_uri = r.client_metadata.policy_uri
      ∧ (r.set_request_object_encryption_enc v).client_metadata.tos_uri = r.client_metadata.tos_uri
      ∧ (r.set_request_object_encryption_enc v).client_metadata.jwks_uri = r.client_metadata.jwks_uri
      ∧ (r.set_request_object_encryption_enc v).client_metadata.jwks = r.client_metadata.jwks
      ∧ (r.set_request_object_encryption_enc v).client_metadata.sector_identifier_uri = r.client_metadata.sector_identifier_uri
      ∧ (r.set_request_object_encryption_enc v).client_metadata.subject_type = r.client_metadata.subject_type
      ∧ (r.set_request_object_encryption_enc v).client_metadata.id_token_signed_response_alg = r.client_metadata.id_token_signed_response_alg
      ∧ (r.set_request_object_encryption_enc v).client_metadata.id_token_encrypted_response_alg = r.client_metadata.id_token_encrypted_response_alg
      ∧ (r.set_request_object_encryption_enc v).client_metadata.id_token_encrypted_response_enc = r.client_metadata.id_token_encrypted_response_enc
      ∧ (r.set_request_object_encryption_enc v).client_metadata.userinfo_signed_response_alg = r.client_metadata.userinfo_signed_response_alg
      ∧ (r.set_request_object_encryption_enc v).client_metadata.userinfo_encrypted_response_alg = r.client_metadata.userinfo_encrypted_response_alg
      ∧ (r.set_request_object_encryption_enc v).client_metadata.userinfo_encrypted_response_enc = r.client_metadata.userinfo_encrypted_response_enc
      ∧ (r.set_request_object_encryption_enc v).client_metadata.request_object_signing_alg = r.client_metadata.request_object_signing_alg
      ∧ (r.set_request_object_encryption_enc v).client_metadata.request_object_encryption_alg = r.client_metadata.request_object_encryption_alg
      ∧ (r.set_request_object_encryption_enc v).client_metadata.token_endpoint_auth_method = r.client_metadata.token_endpoint_auth_method
      ∧ (r.set_request_object_encryption_enc v).client_metadata.token_endpoint_auth_signing_alg = r.client_metadata.token_endpoint_auth_signing_alg
      ∧ (r.set_request_object_encryption_enc v).client_metadata.default_max_age = r.client_metadata.default_max_age
      ∧ (r.set_request_object_encryption_enc v).client_metadata.require_auth_time = r.client_metadata.require_auth_time
      ∧ (r.set_request_object_encryption_enc v).client_metadata.default_acr_values = r.client_metadata.default_acr_values
      ∧ (r.set_request_object_encryption_enc v).client_metadata.initiate_login_uri = r.client_metadata.initiate_login_uri
      ∧ (r.set_request_object_encryption_enc v).client_metadata.request_uris = r.client_metadata.request_uris
      ∧ (r.set_request_object_encryption_enc v).initial_access_token = r.initial_access_token)
    ∧ (∀ (r : Registration10ClientRegistrationRequest) (v : Option ClientAuthMethod),
      (r.set_token_endpoint_auth_method v).client_metadata.token_endpoint_auth_method = v
      ∧ (r.set_token_endpoint_auth_method v).client_metadata.redirect_uris = r.client_metadata.redirect_uris
      ∧ (r.set_token_endpoint_auth_method v).client_metadata.response_types = r.client_metadata.response_types
      ∧ (r.set_token_endpoint_auth_method v).client_metadata.grant_types = r.client_metadata.grant_types
      ∧ (r.set_token_endpoint_auth_method v).client_metadata.application_type = r.client_metadata.application_type
      ∧ (r.set_token_endpoint_auth_method v).client_metadata.contacts = r.client_metadata.contacts
      ∧ (r.set_token_endpoint_auth_method v).client_metadata.client_name = r.client_metadata.client_name
      ∧ (r.set_token_endpoint_auth_method v).client_metadata.logo_uri = r.client_metadata.logo_uri
      ∧ (r.set_token_endpoint_auth_method v).client_metadata.client_uri = r.client_metadata.client_uri
      ∧ (r.set_token_endpoint_auth_method v).client_metadata.policy_uri = r.client_metadata.policy_uri
      ∧ (r.set_token_endpoint_auth_method v).client_metadata.tos_uri = r.client_metadata.tos_uri
      ∧ (r.set_token_endpoint_auth_method v).client_metadata.jwks_uri = r.client_metadata.jwks_uri
      ∧ (r.set_token_endpoint_auth_method v).client_metadata.jwks = r.client_metadata.jwks
      ∧ (r.set_token_endpoint_auth_method v).client_metadata.sector_identifier_uri = r.client_metadata.sector_identifier_uri
      ∧ (r.set_token_endpoint_auth_method v).client_metadata.subject_type = r.client_metadata.subject_type
      ∧ (r.set_token_endpoint_auth_method v).client_metadata.id_token_signed_response_alg = r.client_metadata.id_token_signed_response_alg
      ∧ (r.set_token_endpoint_auth_method v).client_metadata.id_token_encrypted_response_alg = r.client_metadata.id_token_encrypted_response_alg
      ∧ (r.set_token_endpoint_auth_method v).client_metadata.id_token_encrypted_response_enc = r.client_metadata.id_token_encrypted_response_enc
      ∧ (r.set_token_endpoint_auth_method v).client_metadata.userinfo_signed_response_alg = r.client_metadata.userinfo_signed_response_alg
      ∧ (r.set_token_endpoint_auth_method v).client_metadata.userinfo_encrypted_response_alg = r.client_metadata.userinfo_encrypted_response_alg
      ∧ (r.set_token_endpoint_auth_method v).client_metadata.userinfo_encrypted_response_enc = r.client_metadata.userinfo_encrypted_response_enc
      ∧ (r.set_token_endpoint_auth_method v).client_metadata.request_object_signing_alg = r.client_metadata.request_object_signing_alg
      ∧ (r.set_token_endpoint_auth_method v).client_metadata.request_object_encryption_alg = r.client_metadata.request_object_encryption_alg
      ∧ (r.set_token_endpoint_auth_method v).client_metadata.request_object_encryption_enc = r.client_metadata.request_object_encryption_enc
      ∧ (r.set_token_endpoint_auth_method v).client_metadata.token_endpoint_auth_signing_alg = r.client_metadata.token_endpoint_auth_signing_alg
      ∧ (r.set_token_endpoint_auth_method v).client_metadata.default_max_age = r.client_metadata.default_max_age
      ∧ (r.set_token_endpoint_auth_method v).client_metadata.require_auth_time = r.client_metadata.require_auth_time
      ∧ (r.set_token_endpoint_auth_method v).client_metadata.default_acr_values = r.client_metadata.default_acr_values
      ∧ (r.set_token_endpoint_auth_method v).client_metadata.initiate_login_uri = r.client_metadata.initiate_login_uri
      ∧ (r.set_token_endpoint_auth_method v).client_metadata.request_uris = r.client_metadata.request_uris
      ∧ (r.set_token_endpoint_auth_method v).initial_access_token = r.initial_access_token)
    ∧ (∀ (r : Registration10ClientRegistrationRequest) (v : Option JwsSigningAlgorithm),
      (r.set_token_endpoint_auth_signing_alg v).client_metadata.token_endpoint_auth_signing_alg = v
      ∧ (r.set_token_endpoint_auth_signing_alg v).client_metadata.redirect_uris = r.client_metadata.redirect_uris
      ∧ (r.set_token_endpoint_auth_signing_alg v).client_metadata.response_types = r.client_metadata.response_types
      ∧ (r.set_token_endpoint_auth_signing_alg v).client_metadata.grant_types = r.client_metadata.grant_types
      ∧ (r.set_token_endpoint_auth_signing_alg v).client_metadata.application_type = r.client_metadata.application_type
      ∧ (r.set_token_endpoint_auth_signing_alg v).client_metadata.contacts = r.client_metadata.contacts
      ∧ (r.set_token_endpoint_auth_signing_alg v).client_metadata.client_name = r.client_metadata.client_name
      ∧ (r.set_token_endpoint_auth_signing_alg v).client_metadata.logo_uri = r.client_metadata.logo_uri
      ∧ (r.set_token_endpoint_auth_signing_alg v).client_metadata.client_uri = r.client_metadata.client_uri
      ∧ (r.set_token_endpoint_auth_signing_alg v).client_metadata.policy_uri = r.client_metadata.policy_uri
      ∧ (r.set_token_endpoint_auth_signing_alg v).client_metadata.tos_uri = r.client_metadata.tos_uri
      ∧ (r.set_token_endpoint_auth_signing_alg v).client_metadata.jwks_uri = r.client_metadata.jwks_uri
      ∧ (r.set_token_endpoint_auth_signing_alg v).client_metadata.jwks = r.client_metadata.jwks
      ∧ (r.set_token_endpoint_auth_signing_alg v).client_metadata.sector_identifier_uri = r.client_metadata.sector_identifier_uri
      ∧ (r.set_token_endpoint_auth_signing_alg v).client_metadata.subject_type = r.client_metadata.subject_type
      ∧ (r.set_token_endpoint_auth_signing_alg v).client_metadata.id_token_signed_response_alg = r.client_metadata.id_token_signed_response_alg
      ∧ (r.set_token_endpoint_auth_signing_alg v).client_metadata.id_token_encrypted_response_alg = r.client_metadata.id_token_encrypted_response_alg
      ∧ (r.set_token_endpoint_auth_signing_alg v).client_metadata.id_token_encrypted_response_enc = r.client_metadata.id_token_encrypted_response_enc
      ∧ (r.set_token_endpoint_auth_signing_alg v).client_metadata.userinfo_signed_response_alg = r.client_metadata.userinfo_signed_response_alg
      ∧ (r.set_token_endpoint_auth_signing_alg v).client_metadata.userinfo_encrypted_response_alg = r.client_metadata.userinfo_encrypted_response_alg
      ∧ (r.set_token_endpoint_auth_signing_alg v).client_metadata.userinfo_encrypted_response_enc = r.client_metadata.userinfo_encrypted_response_enc
      ∧ (r.set_token_endpoint_auth_signing_alg v).client_metadata.request_object_signing_alg = r.client_metadata.request_object_signing_alg
      ∧ (r.set_token_endpoint_auth_signing_alg v).client_metadata.request_object_encryption_alg = r.client_metadata.request_object_encryption_alg
      ∧ (r.set_token_endpoint_auth_signing_alg v).client_metadata.request_object_encryption_enc = r.client_metadata.request_object_encryption_enc
      ∧ (r.set_token_endpoint_auth_signing_alg v).client_metadata.token_endpoint_auth_method = r.client_metadata.token_endpoint_auth_method
      ∧ (r.set_token_endpoint_auth_signing_alg v).client_metadata.default_max_age = r.client_metadata.default_max_age
      ∧ (r.set_token_endpoint_auth_signing_alg v).client_metadata.require_auth_time = r.client_metadata.require_auth_time
      ∧ (r.set_token_endpoint_auth_signing_alg v).client_metadata.default_acr_values = r.client_metadata.default_acr_values
      ∧ (r.set_token_endpoint_auth_signing_alg v).client_metadata.initiate_login_uri = r.client_metadata.initiate_login_uri
      ∧ (r.set_token_endpoint_auth_signing_alg v).client_metadata.request_uris = r.client_metadata.request_uris
      ∧ (r.set_token_endpoint_auth_signing_alg v).initial_access_token = r.initial_access_token)
    ∧ (∀ (r : Registration10ClientRegistrationRequest) (v : Option Duration),
      (r.set_default_max_age v).client_metadata.default_max_age = v
      ∧ (r.set_default_max_age v).client_metadata.redirect_uris = r.client_metadata.redirect_uris
      ∧ (r.set_default_max_age v).client_metadata.response_types = r.client_metadata.response_types
      ∧ (r.set_default_max_age v).client_metadata.grant_types = r.client_metadata.grant_types
      ∧ (r.set_default_max_age v).client_metadata.application_type = r.client_metadata.application_type
      ∧ (r.set_default_max_age v).client_metadata.contacts = r.client_metadata.contacts
      ∧ (r.set_default_max_age v).client_metadata.client_name = r.client_metadata.client_name
      ∧ (r.set_default_max_age v).client_metadata.logo_uri = r.client_metadata.logo_uri
      ∧ (r.set_default_max_age v).client_metadata.client_uri = r.client_metadata.client_uri
      ∧ (r.set_default_max_age v).client_metadata.policy_uri = r.client_metadata.policy_uri
      ∧ (r.set_default_max_age v).client_metadata.tos_uri = r.client_metadata.tos_uri
      ∧ (r.set_default_max_age v).client_metadata.jwks_uri = r.client_metadata.jwks_uri
      ∧ (r.set_default_max_age v).client_metadata.jwks = r.client_metadata.jwks
      ∧ (r.set_default_max_age v).client_metadata.sector_identifier_uri = r.client_metadata.sector_identifier_uri
      ∧ (r.set_default_max_age v).client_metadata.subject_type = r.client_metadata.subject_type
      ∧ (r.set_default_max_age v).client_metadata.id_token_signed_response_alg = r.client_metadata.id_token_signed_response_alg
      ∧ (r.set_default_max_age v).client_metadata.id_token_encrypted_response_alg = r.client_metadata.id_token_encrypted_response_alg
      ∧ (r.set_default_max_age v).client_metadata.id_token_encrypted_response_enc = r.client_metadata.id_token_encrypted_response_enc
      ∧ (r.set_default_max_age v).client_metadata.userinfo_signed_response_alg = r.client_metadata.userinfo_signed_response_alg
      ∧ (r.set_default_max_age v).client_metadata.userinfo_encrypted_response_alg = r.client_metadata.userinfo_encrypted_response_alg
      ∧ (r.set_default_max_age v).client_metadata.userinfo_encrypted_response_enc = r.client_metadata.userinfo_encrypted_response_enc
      ∧ (r.set_default_max_age v).client_metadata.request_object_signing_alg = r.client_metadata.request_object_signing_alg
      ∧ (r.set_default_max_age v).client_metadata.request_object_encryption_alg = r.client_metadata.request_object_encryption_alg
      ∧ (r.set_default_max_age v).client_metadata.request_object_encryption_enc = r.client_metadata.request_object_encryption_enc
      ∧ (r.set_default_max_age v).client_metadata.token_endpoint_auth_method = r.client_metadata.token_endpoint_auth_method
      ∧ (r.set_default_max_age v).client_metadata.token_endpoint_auth_signing_alg = r.client_metadata.token_endpoint_auth_signing_alg
      ∧ (r.set_default_max_age v).client_metadata.require_auth_time = r.client_metadata.require_auth_time
      ∧ (r.set_default_max_age v).client_metadata.default_acr_values = r.client_metadata.default_acr_values
      ∧ (r.set_default_max_age v).client_metadata.initiate_login_uri = r.client_metadata.initiate_login_uri
      ∧ (r.set_default_max_age v).client_metadata.request_uris = r.client_metadata.request_uris
      ∧ (r.set_default_max_age v).initial_access_token = r.initial_access_token)
    ∧ (∀ (r : Registration10ClientRegistrationRequest) (v : Option Bool),
      (r.set_require_auth_time v).client_metadata.require_auth_time = v
      ∧ (r.set_require_auth_time v).client_metadata.redirect_uris = r.client_metadata.redirect_uris
      ∧ (r.set_require_auth_time v).client_metadata.response_types = r.client_metadata.response_types
      ∧ (r.set_require_auth_time v).client_metadata.grant_types = r.client_metadata.grant_types
      ∧ (r.set_require_auth_time v).client_metadata.application_type = r.client_metadata.application_type
      ∧ (r.set_require_auth_time v).client_metadata.contacts = r.client_metadata.contacts
      ∧ (r.set_require_auth_time v).client_metadata.client_name = r.client_metadata.client_name
      ∧ (r.set_require_auth_time v).client_metadata.logo_uri = r.client_metadata.logo_uri
      ∧ (r.set_require_auth_time v).client_metadata.client_uri = r.client_metadata.client_uri
      ∧ (r.set_require_auth_time v).client_metadata.policy_uri = r.client_metadata.policy_uri
      ∧ (r.set_require_auth_time v).client_metadata.tos_uri = r.client_metadata.tos_uri
      ∧ (r.set_require_auth_time v).client_metadata.jwks_uri = r.client_metadata.jwks_uri
      ∧ (r.set_require_auth_time v).client_metadata.jwks = r.client_metadata.jwks
      ∧ (r.set_require_auth_time v).client_metadata.sector_identifier_uri = r.client_metadata.sector_identifier_uri
      ∧ (r.set_require_auth_time v).client_metadata.subject_type = r.client_metadata.subject_type
      ∧ (r.set_require_auth_time v).client_metadata.id_token_signed_response_alg = r.client_metadata.id_token_signed_response_alg
      ∧ (r.set_require_auth_time v).client_metadata.id_token_encrypted_response_alg = r.client_metadata.id_token_encrypted_response_alg
      ∧ (r.set_require_auth_time v).client_metadata.id_token_encrypted_response_enc = r.client_metadata.id_token_encrypted_response_enc
      ∧ (r.set_require_auth_time v).client_metadata.userinfo_signed_response_alg = r.client_metadata.userinfo_signed_response_alg
      ∧ (r.set_require_auth_time v).client_metadata.userinfo_encrypted_response_alg = r.client_metadata.userinfo_encrypted_response_alg
      ∧ (r.set_require_auth_time v).client_metadata.userinfo_encrypted_response_enc = r.client_metadata.userinfo_encrypted_response_enc
      ∧ (r.set_require_auth_time v).client_metadata.request_object_signing_alg = r.client_metadata.request_object_signing_alg
      ∧ (r.set_require_auth_time v).client_metadata.request_object_encryption_alg = r.client_metadata.request_object_encryption_alg
      ∧ (r.set_require_auth_time v).client_metadata.request_object_encryption_enc = r.client_metadata.request_object_encryption_enc
      ∧ (r.set_require_auth_time v).client_metadata.token_endpoint_auth_method = r.client_metadata.token_endpoint_auth_method
      ∧ (r.set_require_auth_time v).client_metadata.token_endpoint_auth_signing_alg = r.client_metadata.token_endpoint_auth_signing_alg
      ∧ (r.set_require_auth_time v).client_metadata.default_max_age = r.client_metadata.default_max_age
      ∧ (r.set_require_auth_time v).client_metadata.default_acr_values = r.client_metadata.default_acr_values
      ∧ (r.set_require_auth_time v).client_metadata.initiate_login_uri = r.client_metadata.initiate_login_uri
      ∧ (r.set_require_auth_time v).client_metadata.request_uris = r.client_metadata.request_uris
      ∧ (r.set_require_auth_time v).initial_access_token = r.initial_access_token)
    ∧ (∀ (r : Registration10ClientRegistrationRequest) (v : Option (List AuthenticationContextClass)),
      (r.set_default_acr_values v).client_metadata.default_acr_values = v
      ∧ (r.set_default_acr_values v).client_metadata.redirect_uris = r.client_metadata.redirect_uris
      ∧ (r.set_default_acr_values v).client_metadata.response_types = r.client_metadata.response_types
      ∧ (r.set_default_acr_values v).client_metadata.grant_types = r.client_metadata.grant_types
      ∧ (r.set_default_acr_values v).client_metadata.application_type = r.client_metadata.application_type
      ∧ (r.set_default_acr_values v).client_metadata.contacts = r.client_metadata.contacts
      ∧ (r.set_default_acr_values v).client_metadata.client_name = r.client_metadata.client_name
      ∧ (r.set_default_acr_values v).client_metadata.logo_uri = r.client_metadata.logo_uri
      ∧ (r.set_default_acr_values v).client_metadata.client_uri = r.client_metadata.client_uri
      ∧ (r.set_default_acr_values v).client_metadata.policy_uri = r.client_metadata.policy_uri
      ∧ (r.set_default_acr_values v).client_metadata.tos_uri = r.client_metadata.tos_uri
      ∧ (r.set_default_acr_values v).client_metadata.jwks_uri = r.client_metadata.jwks_uri
      ∧ (r.set_default_acr_values v).client_metadata.jwks = r.client_metadata.jwks
      ∧ (r.set_default_acr_values v).client_metadata.sector_identifier_uri = r.client_metadata.sector_identifier_uri
      ∧ (r.set_default_acr_values v).client_metadata.subject_type = r.client_metadata.subject_type
      ∧ (r.set_default_acr_values v).client_metadata.id_token_signed_response_alg = r.client_metadata.id_token_signed_response_alg
      ∧ (r.set_default_acr_values v).client_metadata.id_token_encrypted_response_alg = r.client_metadata.id_token_encrypted_response_alg
      ∧ (r.set_default_acr_values v).client_metadata.id_token_encrypted_response_enc = r.client_metadata.id_token_encrypted_response_enc
      ∧ (r.set_default_acr_values v).client_metadata.userinfo_signed_response_alg = r.client_metadata.userinfo_signed_response_alg
      ∧ (r.set_default_acr_values v).client_metadata.userinfo_encrypted_response_alg = r.client_metadata.userinfo_encrypted_response_alg
      ∧ (r.set_default_acr_values v).client_metadata.userinfo_encrypted_response_enc = r.client_metadata.userinfo_encrypted_response_enc
      ∧ (r.set_default_acr_values v).client_metadata.request_object_signing_alg = r.client_metadata.request_object_signing_alg
      ∧ (r.set_default_acr_values v).client_metadata.request_object_encryption_alg = r.client_metadata.request_object_encryption_alg
      ∧ (r.set_default_acr_values v).client_metadata.request_object_encryption_enc = r.client_metadata.request_object_encryption_enc
      ∧ (r.set_default_acr_values v).client_metadata.token_endpoint_auth_method = r.client_metadata.token_endpoint_auth_method
      ∧ (r.set_default_acr_values v).client_metadata.token_endpoint_auth_signing_alg = r.client_metadata.token_endpoint_auth_signing_alg
      ∧ (r.set_default_acr_values v).client_metadata.default_max_age = r.client_metadata.default_max_age
      ∧ (r.set_default_acr_values v).client_metadata.require_auth_time = r.client_metadata.require_auth_time
      ∧ (r.set_default_acr_values v).client_metadata.initiate_login_uri = r.client_metadata.initiate_login_uri
      ∧ (r.set_default_acr_values v).client_metadata.request_uris = r.client_metadata.request_uris
      ∧ (r.set_default_acr_values v).initial_access_token = r.initial_access_token)
    ∧ (∀ (r : Registration10ClientRegistrationRequest) (v : Option InitiateLoginUrl),
      (r.set_initiate_login_uri v).client_metadata.initiate_login_uri = v
      ∧ (r.set_initiate_login_uri v).client_metadata.redirect_uris = r.client_metadata.redirect_uris
      ∧ (r.set_initiate_login_uri v).client_metadata.response_types = r.client_metadata.response_types
      ∧ (r.set_initiate_login_uri v).client_metadata.grant_types = r.client_metadata.grant_types
      ∧ (r.set_initiate_login_uri v).client_metadata.application_type = r.client_metadata.application_type
      ∧ (r.set_initiate_login_uri v).client_metadata.contacts = r.client_metadata.contacts
      ∧ (r.set_initiate_login_uri v).client_metadata.client_name = r.client_metadata.client_name
      ∧ (r.set_initiate_login_uri v).client_metadata.logo_uri = r.client_metadata.logo_uri
      ∧ (r.set_initiate_login_uri v).client_metadata.client_uri = r.client_metadata.client_uri
      ∧ (r.set_initiate_login_uri v).client_metadata.policy_uri = r.client_metadata.policy_uri
      ∧ (r.set_initiate_login_uri v).client_metadata.tos_uri = r.client_metadata.tos_uri
      ∧ (r.set_initiate_login_uri v).client_metadata.jwks_uri = r.client_metadata.jwks_uri
      ∧ (r.set_initiate_login_uri v).client_metadata.jwks = r.client_metadata.jwks
      ∧ (r.set_initiate_login_uri v).client_metadata.sector_identifier_uri = r.client_metadata.sector_identifier_uri
      ∧ (r.set_initiate_login_uri v).client_metadata.subject_type = r.client_metadata.subject_type
      ∧ (r.set_initiate_login_uri v).client_metadata.id_token_signed_response_alg = r.client_metadata.id_token_signed_response_alg
      ∧ (r.set_initiate_login_uri v).client_metadata.id_token_encrypted_response_alg = r.client_metadata.id_token_encrypted_response_alg
      ∧ (r.set_initiate_login_uri v).client_metadata.id_token_encrypted_response_enc = r.client_metadata.id_token_encrypted_response_enc
      ∧ (r.set_initiate_login_uri v).client_metadata.userinfo_signed_response_alg = r.client_metadata.userinfo_signed_response_alg
      ∧ (r.set_initiate_login_uri v).client_metadata.userinfo_encrypted_response_alg = r.client_metadata.userinfo_encrypted_response_alg
      ∧ (r.set_initiate_login_uri v).client_metadata.userinfo_encrypted_response_enc = r.client_metadata.userinfo_encrypted_response_enc
      ∧ (r.set_initiate_login_uri v).client_metadata.request_object_signing_alg = r.client_metadata.request_object_signing_alg
      ∧ (r.set_initiate_login_uri v).client_metadata.request_object_encryption_alg = r.client_metadata.request_object_encryption_alg
      ∧ (r.set_initiate_login_uri v).client_metadata.request_object_encryption_enc = r.client_metadata.request_object_encryption_enc
      ∧ (r.set_initiate_login_uri v).client_metadata.token_endpoint_auth_method = r.client_metadata.token_endpoint_auth_method
      ∧ (r.set_initiate_login_uri v).client_metadata.token_endpoint_auth_signing_alg = r.client_metadata.token_endpoint_auth_signing_alg
      ∧ (r.set_initiate_login_uri v).client_metadata.default_max_age = r.client_metadata.default_max_age
      ∧ (r.set_initiate_login_uri v).client_metadata.require_auth_time = r.client_metadata.require_auth_time
      ∧ (r.set_initiate_login_uri v).client_metadata.default_acr_values = r.client_metadata.default_acr_values
      ∧ (r.set_initiate_login_uri v).client_metadata.request_uris = r.client_metadata.request_uris
      ∧ (r.set_initiate_login_uri v).initial_access_token = r.initial_access_token)
    ∧ (∀ (r : Registration10ClientRegistrationRequest) (v : Option (List RequestUrl)),
      (r.set_request_uris v).client_metadata.request_uris = v
      ∧ (r.set_request_uris v).client_metadata.redirect_uris = r.client_metadata.redirect_uris
      ∧ (r.set_request_uris v).client_metadata.response_types = r.client_metadata.response_types
      ∧ (r.set_request_uris v).client_metadata.grant_types = r.client_metadata.grant_types
      ∧ (r.set_request_uris v).client_metadata.application_type = r.client_metadata.application_type
      ∧ (r.set_request_uris v).client_metadata.contacts = r.client_metadata.contacts
      ∧ (r.set_request_uris v).client_metadata.client_name = r.client_metadata.client_name
      ∧ (r.set_request_uris v).client_metadata.logo_uri = r.client_metadata.logo_uri
      ∧ (r.set_request_uris v).client_metadata.client_uri = r.client_metadata.client_uri
      ∧ (r.set_request_uris v).client_metadata.policy_uri = r.client_metadata.policy_uri
      ∧ (r.set_request_uris v).client_metadata.tos_uri = r.client_metadata.tos_uri
      ∧ (r.set_request_uris v).client_metadata.jwks_uri = r.client_metadata.jwks_uri
      ∧ (r.set_request_uris v).client_metadata.jwks = r.client_metadata.jwks
      ∧ (r.set_request_uris v).client_metadata.sector_identifier_uri = r.client_metadata.sector_identifier_uri
      ∧ (r.set_request_uris v).client_metadata.subject_type = r.client_metadata.subject_type
      ∧ (r.set_request_uris v).client_metadata.id_token_signed_response_alg = r.client_metadata.id_token_signed_response_alg
      ∧ (r.set_request_uris v).client_metadata.id_token_encrypted_response_alg = r.client_metadata.id_token_encrypted_response_alg
      ∧ (r.set_request_uris v).client_metadata.id_token_encrypted_response_enc = r.client_metadata.id_token_encrypted_response_enc
      ∧ (r.set_request_uris v).client_metadata.userinfo_signed_response_alg = r.client_metadata.userinfo_signed_response_alg
      ∧ (r.set_request_uris v).client_metadata.userinfo_encrypted_response_alg = r.client_metadata.userinfo_encrypted_response_alg
      ∧ (r.set_request_uris v).client_metadata.userinfo_encrypted_response_enc = r.client_metadata.userinfo_encrypted_response_enc
      ∧ (r.set_request_uris v).client_metadata.request_object_signing_alg = r.client_metadata.request_object_signing_alg
      ∧ (r.set_request_uris v).client_metadata.request_object_encryption_alg = r.client_metadata.request_object_encryption_alg
      ∧ (r.set_request_uris v).client_metadata.request_object_encryption_enc = r.client_metadata.request_object_encryption_enc
      ∧ (r.set_request_uris v).client_metadata.token_endpoint_auth_method = r.client_metadata.token_endpoint_auth_method
      ∧ (r.set_request_uris v).client_metadata.token_endpoint_auth_signing_alg = r.client_metadata.token_endpoint_auth_signing_alg
      ∧ (r.set_request_uris v).client_metadata.default_max_age = r.client_metadata.default_max_age
      ∧ (r.set_request_uris v).client_metadata.require_auth_time = r.client_metadata.require_auth_time
      ∧ (r.set_request_uris v).client_metadata.default_acr_values = r.client_metadata.default_acr_values
      ∧ (r.set_request_uris v).client_metadata.initiate_login_uri = r.client_metadata.initiate_login_uri
      ∧ (r.set_request_uris v).initial_access_token = r.initial_access_token)
    ∧ (∀ (r : Registration10ClientRegistrationRequest) (v : Option AccessToken),
      (r.set_initial_access_token v).initial_access_token = v
      ∧ (r.set_initial_access_token v).client_metadata.redirect_uris = r.client_metadata.redirect_uris
      ∧ (r.set_initial_access_token v).client_metadata.response_types = r.client_metadata.response_types
      ∧ (r.set_initial_access_token v).client_metadata.grant_types = r.client_metadata.grant_types
      ∧ (r.set_initial_access_token v).client_metadata.application_type = r.client_metadata.application_type
      ∧ (r.set_initial_access_token v).client_metadata.contacts = r.client_metadata.contacts
      ∧ (r.set_initial_access_token v).client_metadata.client_name = r.client_metadata.client_name
      ∧ (r.set_initial_access_token v).client_metadata.logo_uri = r.client_metadata.logo_uri
      ∧ (r.set_initial_access_token v).client_metadata.client_uri = r.client_metadata.client_uri
      ∧ (r.set_initial_access_token v).client_metadata.policy_uri = r.client_metadata.policy_uri
      ∧ (r.set_initial_access_token v).client_metadata.tos_uri = r.client_metadata.tos_uri
      ∧ (r.set_initial_access_token v).client_metadata.jwks_uri = r.client_metadata.jwks_uri
      ∧ (r.set_initial_access_token v).client_metadata.jwks = r.client_metadata.jwks
      ∧ (r.set_initial_access_token v).client_metadata.sector_identifier_uri = r.client_metadata.sector_identifier_uri
      ∧ (r.set_initial_access_token v).client_metadata.subject_type = r.client_metadata.subject_type
      ∧ (r.set_initial_access_token v).client_metadata.id_token_signed_response_alg = r.client_metadata.id_token_signed_response_alg
      ∧ (r.set_initial_access_token v).client_metadata.id_token_encrypted_response_alg = r.client_metadata.id_token_encrypted_response_alg
      ∧ (r.set_initial_access_token v).client_metadata.id_token_encrypted_response_enc = r.client_metadata.id_token_encrypted_response_enc
      ∧ (r.set_initial_access_token v).client_metadata.userinfo_signed_response_alg = r.client_metadata.userinfo_signed_response_alg
      ∧ (r.set_initial_access_token v).client_metadata.userinfo_encrypted_response_alg = r.client_metadata.userinfo_encrypted_response_alg
      ∧ (r.set_initial_access_token v).client_metadata.userinfo_encrypted_response_enc = r.client_metadata.userinfo_encrypted_response_enc
      ∧ (r.set_initial_access_token v).client_metadata.request_object_signing_alg = r.client_metadata.request_object_signing_alg
      ∧ (r.set_initial_access_token v).client_metadata.request_object_encryption_alg = r.client_metadata.request_object_encryption_alg
      ∧ (r.set_initial_access_token v).client_metadata.request_object_encryption_enc = r.client_metadata.request_object_encryption_enc
      ∧ (r.set_initial_access_token v).client_metadata.token_endpoint_auth_method = r.client_metadata.token_endpoint_auth_method
      ∧ (r.set_initial_access_token v).client_metadata.token_endpoint_auth_signing_alg = r.client_metadata.token_endpoint_auth_signing_alg
      ∧ (r.set_initial_access_token v).client_metadata.default_max_age = r.client_metadata.default_max_age
      ∧ (r.set_initial_access_token v).client_metadata.require_auth_time = r.client_metadata.require_auth_time
      ∧ (r.set_initial_access_token v).client_metadata.default_acr_values = r.client_metadata.default_acr_values
      ∧ (r.set_initial_access_token v).client_metadata.initiate_login_uri = r.client_metadata.initiate_login_uri
      ∧ (r.set_initial_access_token v).client_metadata.request_uris = r.client_metadata.request_uris)
    :=
  ⟨set_redirect_uris_spec, set_response_types_spec, set_grant_types_spec, set_application_type_spec, set_contacts_spec, set_client_name_spec, set_logo_uri_spec, set_client_uri_spec, set_policy_uri_spec, set_tos_uri_spec, set_jwks_uri_spec, set_jwks_spec, set_sector_identifier_uri_spec, set_subject_type_spec, set_id_token_signed_response_alg_spec, set_id_token_encrypted_response_alg_spec, set_id_token_encrypted_response_enc_spec, set_userinfo_signed_response_alg_spec, set_userinfo_encrypted_response_alg_spec, set_userinfo_encrypted_response_enc_spec, set_request_object_signing_alg_spec, set_request_object_encryption_alg_spec, set_request_object_encryption_enc_spec, set_token_endpoint_auth_method_spec, set_token_endpoint_auth_signing_alg_spec, set_default_max_age_spec, set_require_auth_time_spec, set_default_acr_values_spec, set_initiate_login_uri_spec, set_request_uris_spec, set_initial_access_token_spec⟩

